import Mathlib

/-!
# LunaLink: the chat relay endpoint, the sign-language page and the voice-mode page

A shallow embedding of `lunalink/src/app/api/chat/route.js` (the `POST`
handler) together with the JavaScript operations it relies on, and the
properties of the relay stated over that embedding; then the recording
logic of `lunalink/src/app/sign-language/page.js` and the conversation logic
of `lunalink/src/app/voice-mode/page.js`, each introduced in its own section
below.

The handler's surroundings are explicit arguments:

* `GROQ_API_KEY` is `process.env.GROQ_API_KEY` (`none` when unset);
* `reqJson` is the outcome of `await req.json()`: the parsed body, or the
  message of the error it rejected with;
* `fetch` is the outcome of the upstream call for a given request: a
  response, or the message of the error it rejected with.

The handler's result is the response it resolves with (or the message of an
error that escaped it) and the list of upstream requests it issued.
Logging (`console.log`, `console.error`) is not modelled. A thrown error is
represented by its `message`, which is all the `catch` clause reads. Strings
are Lean strings (sequences of Unicode scalar values); every character that
`trim` strips is a single UTF-16 code unit, so trimming agrees.
-/

namespace LunaLink

/-! ## JavaScript values -/

/-- A number produced by `JSON.parse`, as far as the handler can observe it:
whether it is `0` or `-0` (the only falsy numbers `JSON.parse` produces) and
the text `ToString` gives for it, which is `Infinity` or `-Infinity` for a
literal beyond the range of a double. The handler does no arithmetic. -/
structure JsNumber where
  isZero : Bool
  text : String

/-- A value produced by `JSON.parse`. An object is its member list; a lookup
takes the first entry with the name. `undefined` is not a JSON value: a
possibly-undefined value is an `Option Json`, `none` standing for
`undefined`. -/
inductive Json where
  | null
  | bool (b : Bool)
  | num (n : JsNumber)
  | str (s : String)
  | arr (items : List Json)
  | obj (members : List (String × Json))

/-- ECMAScript `WhiteSpace` and `LineTerminator` code points, which are what
`String.prototype.trim` strips: TAB, LF, VT, FF, CR, SP, NBSP, U+1680,
U+2000..U+200A, U+2028, U+2029, U+202F, U+205F, U+3000 and U+FEFF. -/
def isWhiteSpace (c : Char) : Bool :=
  c.toNat ∈ [0x09, 0x0A, 0x0B, 0x0C, 0x0D, 0x20, 0xA0, 0x1680, 0x2028, 0x2029,
    0x202F, 0x205F, 0x3000, 0xFEFF] || (0x2000 ≤ c.toNat && c.toNat ≤ 0x200A)

/-- The method `String.prototype.trim`: strips white space from both ends. -/
def trim (s : String) : String :=
  ⟨((s.data.dropWhile isWhiteSpace).reverse.dropWhile isWhiteSpace).reverse⟩

/-- The abstract operation `ToBoolean` on a JSON value: `null`, `false`, `0`
and `""` are falsy, everything else (every array and object included) is
truthy. -/
def Json.truthy : Json → Bool
  | .null => false
  | .bool b => b
  | .num n => !n.isZero
  | .str s => s != ""
  | .arr _ => true
  | .obj _ => true

/-- The abstract operation `ToBoolean` on a possibly-undefined value. -/
def truthy : Option Json → Bool
  | none => false
  | some v => v.truthy

/-- The property read `v.name` on a value that is neither `null` nor
`undefined`, for the names the handler reads (`message`, `error`, `choices`,
`content`), none of which is defined on a built-in prototype: an object gives
its own member, everything else gives `undefined`. -/
def Json.getProp (v : Json) (name : String) : Option Json :=
  match v with
  | .obj members => members.lookup name
  | _ => none

/-- The property read `v[0]` on a value that is neither `null` nor
`undefined`: the first element of an array, the member `"0"` of an object,
the first character of a non-empty string (in JavaScript its first UTF-16
code unit; the handler only reads `.message` from it, which is `undefined`
on every string), `undefined` otherwise. -/
def Json.getIndex0 (v : Json) : Option Json :=
  match v with
  | .arr items => items.head?
  | .obj members => members.lookup "0"
  | .str s => s.data.head?.map (fun c => .str (String.singleton c))
  | _ => none

/-- Optional chaining `v?.name`. -/
def optProp (v : Option Json) (name : String) : Option Json :=
  match v with
  | none => none
  | some .null => none
  | some x => x.getProp name

/-- Optional chaining `v?.[0]`. -/
def optIndex0 (v : Option Json) : Option Json :=
  match v with
  | none => none
  | some .null => none
  | some x => x.getIndex0

mutual
/-- The abstract operation `ToString`, as a template literal applies it to an
interpolated value. An array goes through `Array.prototype.join`; an object
gives `[object Object]` unless it has an own member `toString` (never
callable in parsed JSON), in which case `OrdinaryToPrimitive` throws a
`TypeError`. The error case carries the thrown error's message. -/
def Json.toStr : Json → Except String String
  | .null => .ok "null"
  | .bool true => .ok "true"
  | .bool false => .ok "false"
  | .num n => .ok n.text
  | .str s => .ok s
  | .arr items => Json.joinStr items
  | .obj members =>
    if (members.lookup "toString").isSome then
      .error "Cannot convert object to primitive value"
    else .ok "[object Object]"
/-- The method `Array.prototype.join` with the separator `","`: `null`
elements give the empty string. -/
def Json.joinStr : List Json → Except String String
  | [] => .ok ""
  | [.null] => .ok ""
  | [x] => Json.toStr x
  | .null :: xs => (Json.joinStr xs).map (fun rest => "," ++ rest)
  | x :: xs =>
    match Json.toStr x with
    | .error e => .error e
    | .ok first => (Json.joinStr xs).map (fun rest => first ++ "," ++ rest)
end

/-- Whether the number is finite. `JSON.parse` gives `Infinity` or `-Infinity`
for a literal beyond the range of a double, such as `1e400`; these are the
numbers whose `ToString` text is `Infinity` or `-Infinity`. -/
def JsNumber.isFinite (n : JsNumber) : Bool :=
  n.text != "Infinity" && n.text != "-Infinity"

mutual
/-- The value a client reads back from the text `JSON.stringify` writes for a
value that `JSON.parse` produced: a number that is not finite is written as
`null`, at any depth; everything else is written as it is. -/
def Json.serialised : Json → Json
  | .null => .null
  | .bool b => .bool b
  | .num n => if n.isFinite then .num n else .null
  | .str s => .str s
  | .arr items => .arr (Json.serialisedItems items)
  | .obj members => .obj (Json.serialisedMembers members)
/-- The elements of an array, each as serialised. -/
def Json.serialisedItems : List Json → List Json
  | [] => []
  | item :: rest => Json.serialised item :: Json.serialisedItems rest
/-- The members of an object, each with its value as serialised. -/
def Json.serialisedMembers : List (String × Json) → List (String × Json)
  | [] => []
  | (name, value) :: rest => (name, Json.serialised value) :: Json.serialisedMembers rest
end

/-- An object literal handed to a JSON serialiser (`JSON.stringify`,
`NextResponse.json`): members whose value is `undefined` are omitted. -/
def jsObject (members : List (String × Option Json)) : Json :=
  .obj (members.filterMap (fun m => m.2.map (fun v => (m.1, v))))

/-! ## Responses -/

/-- What the handler resolves with: the status, and the body as the client
decodes it. -/
structure Response where
  status : Nat
  body : Json

/-- The null body statuses of the Fetch standard. -/
def nullBodyStatus : List Nat := [101, 103, 204, 205, 304]

/-- The call `NextResponse.json(body, { status })`, which is `Response.json` of
the Fetch standard ("initialize a response"): a `RangeError` unless
`200 ≤ status ≤ 599`, a `TypeError` when the status is a null body status
(the body is never null here), the response otherwise, whose body is the
text `JSON.stringify` writes for the value. Without an `init` the status is
200. -/
def NextResponse.json (body : Json) (status : Nat) : Except String Response :=
  if status < 200 ∨ 599 < status then
    .error "init[\"status\"] must be in the range of 200 to 599, inclusive."
  else if status ∈ nullBodyStatus then
    .error ("Response constructor: Invalid response status code " ++ toString status)
  else .ok ⟨status, body.serialised⟩

/-- The object literal `{ error: msg }`. -/
def errorBody (msg : String) : Json :=
  jsObject [("error", some (.str msg))]

/-! ## The upstream call -/

/-- The arguments of the `fetch` call; `body` is the value given to
`JSON.stringify`. -/
structure FetchRequest where
  url : String
  method : String
  headers : List (String × String)
  body : Json

/-- The upstream response `groqRes` as far as the handler reads it: status,
status text, and the outcomes of `await groqRes.text()` and
`await groqRes.json()` (the value, or the message of the error it rejected
with). The handler awaits at most one of the two. -/
structure UpstreamResponse where
  status : Nat
  statusText : String
  text : Except String String
  json : Except String Json

/-- The getter `Response.prototype.ok`: the status is in 200..299. -/
def UpstreamResponse.ok (r : UpstreamResponse) : Bool :=
  200 ≤ r.status && r.status ≤ 299

/-- The request of lines 17-30. -/
def groqRequest (key : String) (message : Option Json) : FetchRequest :=
  ⟨"https://api.groq.com/openai/v1/chat/completions", "POST",
    [("Authorization", "Bearer " ++ key), ("Content-Type", "application/json")],
    jsObject [
      ("model", some (.str "llama3-8b-8192")),
      ("messages", some (.arr [
        jsObject [("role", some (.str "system")),
                  ("content", some (.str "You are a helpful assistant."))],
        jsObject [("role", some (.str "user")), ("content", message)]]))]⟩

/-! ## The handler -/

/-- Line 5, `const { message } = await req.json()`, once the body is parsed:
destructuring `null` throws a `TypeError`. -/
def destructureMessage (body : Json) : Except String (Option Json) :=
  match body with
  | .null =>
    .error "Cannot destructure property \x27message\x27 of \x27(intermediate value)\x27 as it is null."
  | v => .ok (v.getProp "message")

/-- Line 7, the condition `!message || message.trim() === ""`. Only a string
has a callable `trim`; on any other truthy value the call throws a
`TypeError`. -/
def messageMissing (message : Option Json) : Except String Bool :=
  if !truthy message then .ok true
  else
    match message with
    | some (.str s) => .ok (trim s == "")
    | _ => .error "message.trim is not a function"

/-- The property read `v.name` of lines 41 and 43, without optional chaining:
a `TypeError` on `null` and on `undefined`. -/
def readProp (v : Option Json) (name : String) : Except String (Option Json) :=
  match v with
  | none => .error ("Cannot read properties of undefined (reading \x27" ++ name ++ "\x27)")
  | some .null => .error ("Cannot read properties of null (reading \x27" ++ name ++ "\x27)")
  | some x => .ok (x.getProp name)

/-- Line 43, the interpolated `data.error.message || "Unknown error"`. -/
def errorMessageText (dataError : Option Json) : Except String String :=
  match readProp dataError "message" with
  | .error e => .error e
  | .ok none => .ok "Unknown error"
  | .ok (some v) => if v.truthy then v.toStr else .ok "Unknown error"

/-- Lines 32-52: what the `try` block does with the settled upstream call.
An `error` is a thrown error, which the `catch` clause receives. -/
def handleUpstream (fetched : Except String UpstreamResponse) : Except String Response :=
  match fetched with
  | .error e => .error e
  | .ok groqRes =>
    if !groqRes.ok then
      match groqRes.text with
      | .error e => .error e
      | .ok _errorText =>
        NextResponse.json
          (errorBody
            ("API request failed: " ++ toString groqRes.status ++ " " ++ groqRes.statusText))
          groqRes.status
    else
      match groqRes.json with
      | .error e => .error e
      | .ok data =>
        match readProp (some data) "error" with
        | .error e => .error e
        | .ok dataError =>
          if truthy dataError then
            match errorMessageText dataError with
            | .error e => .error e
            | .ok m => NextResponse.json (errorBody ("API error: " ++ m)) 500
          else
            let reply :=
              optProp (optProp (optIndex0 (optProp (some data) "choices")) "message") "content"
            if !truthy reply then
              NextResponse.json (errorBody "No response generated") 500
            else
              NextResponse.json (jsObject [("reply", reply)]) 200

/-- Lines 5-52, the `try` block: its completion (a response, or the message of
a thrown error) and the upstream requests issued. -/
def tryBlock (GROQ_API_KEY : Option String) (reqJson : Except String Json)
    (fetch : FetchRequest → Except String UpstreamResponse) :
    Except String Response × List FetchRequest :=
  match reqJson with
  | .error e => (.error e, [])
  | .ok body =>
    match destructureMessage body with
    | .error e => (.error e, [])
    | .ok message =>
      match messageMissing message with
      | .error e => (.error e, [])
      | .ok true => (NextResponse.json (errorBody "Message is required") 400, [])
      | .ok false =>
        -- `!process.env.GROQ_API_KEY`: unset or the empty string
        match GROQ_API_KEY with
        | none => (NextResponse.json (errorBody "API key not configured") 500, [])
        | some key =>
          if key = "" then
            (NextResponse.json (errorBody "API key not configured") 500, [])
          else
            let request := groqRequest key message
            (handleUpstream (fetch request), [request])

/-- The exported handler `POST`: the `try` block, and the `catch` clause of
lines 53-56 for anything thrown in it. The first component is the response
the handler resolves with (`error`: an error escaped the handler), the second
the upstream requests issued, in order. -/
def POST (GROQ_API_KEY : Option String) (reqJson : Except String Json)
    (fetch : FetchRequest → Except String UpstreamResponse) :
    Except String Response × List FetchRequest :=
  match tryBlock GROQ_API_KEY reqJson fetch with
  | (.ok response, calls) => (.ok response, calls)
  | (.error message, calls) =>
    (NextResponse.json (errorBody ("Internal server error: " ++ message)) 500, calls)

/-! ## Statement vocabulary -/

/-- The string consists only of white space (vacuously so when empty). -/
def whitespaceOnly (s : String) : Bool :=
  s.data.all isWhiteSpace

/-- A non-empty string that does not consist only of white space. -/
def validMessage (s : String) : Prop :=
  s ≠ "" ∧ whitespaceOnly s = false

/-- The credential is present: `process.env.GROQ_API_KEY` is a non-empty
string. -/
def credentialPresent (key : Option String) : Prop :=
  ∃ k, key = some k ∧ k ≠ ""

/-! ## The sign-language page

A shallow embedding of the state and handlers of
`lunalink/src/app/sign-language/page.js`. The React state (`useState`) is
`PageState`; the refs, the media recorders and the armed timers are `Refs`.
A handler is a closure of the render that created it: it reads the state
values of that render (its `render` argument) and writes through the setters
and refs, which act on the live page. The button handlers of the page are
those of the latest render; the callback of a timer is the one created when
the timer was armed.

The classification service answers `{ sign: string, confidence: number }`
and a confidence is an integer percentage (the data model of the
specification), so the label is a string and the confidence a natural
number, which stands for the JavaScript number its integer literal parses
to. The average of the statistics is computed in double arithmetic, as
lines 124-126 do. Times are milliseconds. -/

/-- The text shown while a session has no result yet (line 138). -/
def recordingPlaceholder : String := "Recording... Processing sign language..."

/-- A Translation Record, the object `newTranslation` of lines 112-118. -/
structure TranslationRecord where
  id : String
  text : String
  confidence : Nat
  timestamp : Nat
  language : String

/-- A JavaScript number as the average of the statistics can hold it: a
non-negative integer that is a double, `Infinity`, or `NaN`. A numeral
stands for that integer. -/
inductive WholeNumber where
  | finite (value : Nat)
  | infinity
  | nan
  deriving DecidableEq

instance (n : Nat) : OfNat WholeNumber n := ⟨.finite n⟩

/-- The state `sessionStats` (lines 45-49). -/
structure SessionStats where
  totalTranslations : Nat
  averageConfidence : WholeNumber
  sessionTime : Int

/-- The React state of the page that the recording logic reads or writes
(lines 31-53); `stream` is `none` for `null`. -/
structure PageState where
  stream : Option Nat
  isRecording : Bool
  translatedText : String
  cameraError : String
  recordingTime : Nat
  confidence : Nat
  selectedLanguage : String
  translationHistory : List TranslationRecord
  sessionStats : SessionStats
  currentSign : String
  currentConfidence : Nat

/-- What an armed timer does when it fires: the 1000 ms recording timer
(lines 141-143), the 500 ms prediction timer (lines 146-171), or the 10 000 ms
timeout of lines 174-178, whose callback holds the recorder it was armed for
and the `handleRecording` of the render that armed it. -/
inductive TimerKind where
  | recordingInterval
  | predictionInterval
  | autoStop (mediaRecorder : Nat) (render : PageState)

/-- An armed timer: the id `setInterval` or `setTimeout` returned (never 0)
and what it does. -/
structure Timer where
  id : Nat
  kind : TimerKind

/-- The refs and browser objects of the page: the media recorders created so
far (`true`: its `state` is `"recording"`), the three refs of lines 30, 37
and 54 (`none` for `null`), the armed timers, the next timer id, and
`sessionStartRef.current.getTime()`. -/
structure Refs where
  recorders : List Bool
  mediaRecorderRef : Option Nat
  recordingIntervalRef : Option Nat
  predictionIntervalRef : Option Nat
  timers : List Timer
  nextTimerId : Nat
  sessionStart : Nat

/-- The live page: React state and refs. -/
structure Page where
  state : PageState
  refs : Refs

/-- The three clock readings of a commit: `Date.now()` of line 113,
`new Date()` of line 116 and `Date.now()` of line 127. -/
structure Clock where
  idNow : Nat
  timestamp : Nat
  statsNow : Nat

/-- How `new MediaRecorder(stream)` and `mediaRecorder.start()` turn out in the
`try` block of lines 132-182. -/
inductive RecorderOutcome where
  | started
  | constructorThrows
  | startThrows

/-- A decoded answer of the classification service. -/
structure Prediction where
  sign : String
  confidence : Nat

/-- The number of binary digits of `n`, with `fuel` steps at most. -/
def bitLengthAux : Nat → Nat → Nat
  | 0, _ => 0
  | fuel + 1, n => if n = 0 then 0 else bitLengthAux fuel (n / 2) + 1

/-- The number of binary digits of `n` (0 for 0). -/
def bitLength (n : Nat) : Nat :=
  bitLengthAux n n

/-- The integer nearest to `a / b`, a tie going to the even one: the rounding
of IEEE 754 arithmetic. -/
def roundHalfEven (a b : Nat) : Nat :=
  if 2 * (a % b) > b ∨ (2 * (a % b) = b ∧ (a / b) % 2 = 1) then a / b + 1 else a / b

/-- The double nearest to the integer `n`, which is what an arithmetic
operation with the exact result `n` returns and what `JSON.parse` reads from
the integer literal `n`: `n` itself below 2^53, otherwise `n` rounded to 53
significant binary digits, and `Infinity` when that reaches 2^1024. -/
def toDouble (n : Nat) : WholeNumber :=
  if n < 2 ^ 53 then .finite n
  else
    let e := bitLength n - 53
    let rounded := roundHalfEven n (2 ^ e) * 2 ^ e
    if rounded < 2 ^ 1024 then .finite rounded else .infinity

/-- The product `x * y` of two numbers. -/
def WholeNumber.times (x y : WholeNumber) : WholeNumber :=
  match x, y with
  | .finite a, .finite b => toDouble (a * b)
  | .finite a, .infinity => if a = 0 then .nan else .infinity
  | .infinity, .finite b => if b = 0 then .nan else .infinity
  | .infinity, .infinity => .infinity
  | .nan, _ => .nan
  | _, .nan => .nan

/-- The sum `x + y` of two numbers. -/
def WholeNumber.plus (x y : WholeNumber) : WholeNumber :=
  match x, y with
  | .finite a, .finite b => toDouble (a + b)
  | .nan, _ => .nan
  | _, .nan => .nan
  | .infinity, _ => .infinity
  | _, .infinity => .infinity

/-- `Math.round(p / q)` for two doubles that are non-negative integers, with
`q > 0`. The quotient is first rounded to a double: below a quarter it
rounds to 0; below 2^53 the double has `k` binary digits after the point and
`Math.round` takes the nearest integer, a tie going up; from 2^53 on the
double is an integer, a multiple of `2 ^ e`, which `Math.round` returns. -/
def roundDiv (p q : Nat) : Nat :=
  if 4 * p < q then 0
  else if p / q < 2 ^ 53 then
    let k := if q ≤ p then 53 - bitLength (p / q) else if q ≤ 2 * p then 53 else 54
    (2 * roundHalfEven (p * 2 ^ k) q + 2 ^ k) / 2 ^ (k + 1)
  else
    let e := bitLength (p / q) - 53
    roundHalfEven p (q * 2 ^ e) * 2 ^ e

/-- `Math.round(x / y)` for two numbers. -/
def roundedQuotient (x y : WholeNumber) : WholeNumber :=
  match x, y with
  | .finite p, .finite q =>
    if q = 0 then (if p = 0 then .nan else .infinity) else .finite (roundDiv p q)
  | .finite _, .infinity => .finite 0
  | .infinity, .finite _ => .infinity
  | .infinity, .infinity => .nan
  | .nan, _ => .nan
  | _, .nan => .nan

/-- The updater of line 119: `prev => [newTranslation, ...prev.slice(0, 9)]`. -/
def addTranslation (newTranslation : TranslationRecord) (prev : List TranslationRecord) :
    List TranslationRecord :=
  newTranslation :: prev.take 9

/-- The updater of lines 122-128, for the committed `confidence`. The average
is computed in double arithmetic: each of the product, the sum and the
quotient of lines 124-126 is rounded to a double. -/
def updateStats (confidence statsNow sessionStart : Nat) (prev : SessionStats) : SessionStats :=
  ⟨prev.totalTranslations + 1,
    roundedQuotient
      ((prev.averageConfidence.times (toDouble prev.totalTranslations)).plus
        (toDouble confidence))
      (toDouble (prev.totalTranslations + 1)),
    Int.fdiv ((statsNow : Int) - (sessionStart : Int)) 1000⟩

/-- The call `clearInterval(id)`. -/
def clearTimer (id : Nat) (timers : List Timer) : List Timer :=
  timers.filter (fun t => t.id != id)

/-- The state of a recorder (`false` for one that does not exist). -/
def isRecorderRecording (recorders : List Bool) (r : Nat) : Bool :=
  recorders.getD r false

/-- Lines 97-99: `stop()` on the recorder of `mediaRecorderRef` if there is
one and it is recording. -/
def stopCurrentRecorder (refs : Refs) : List Bool :=
  match refs.mediaRecorderRef with
  | some r => if isRecorderRecording refs.recorders r then refs.recorders.set r false
    else refs.recorders
  | none => refs.recorders

/-- Lines 101-107: both interval refs are cleared when set; only
`predictionIntervalRef` is reset to `null`. -/
def clearIntervals (refs : Refs) : List Timer :=
  let timers :=
    match refs.recordingIntervalRef with
    | some id => clearTimer id refs.timers
    | none => refs.timers
  match refs.predictionIntervalRef with
  | some id => clearTimer id timers
  | none => timers

/-- The stop branch of `handleRecording`, lines 96-129, run by the handler of
the render `render` on the live page `p`. It returns the new page and the
record it committed, if any. -/
def stopRecording (render : PageState) (clock : Clock) (p : Page) :
    Page × Option TranslationRecord :=
  let refs : Refs :=
    { p.refs with
      recorders := stopCurrentRecorder p.refs
      timers := clearIntervals p.refs
      predictionIntervalRef := none }
  let state : PageState := { p.state with isRecording := false, recordingTime := 0 }
  if render.translatedText ≠ "" ∧ render.translatedText ≠ recordingPlaceholder then
    let newTranslation : TranslationRecord :=
      ⟨toString clock.idNow, render.translatedText, render.confidence, clock.timestamp,
        render.selectedLanguage⟩
    (⟨{ state with
        translationHistory := addTranslation newTranslation state.translationHistory
        sessionStats :=
          updateStats render.confidence clock.statsNow p.refs.sessionStart state.sessionStats },
      refs⟩, some newTranslation)
  else (⟨state, refs⟩, none)

/-- The start branch of `handleRecording`, lines 131-182, run by the handler
of the render `render` on the live page `p`. -/
def startRecording (render : PageState) (outcome : RecorderOutcome) (p : Page) : Page :=
  match outcome with
  | .constructorThrows =>
    ⟨{ p.state with cameraError := "Unable to start recording" }, p.refs⟩
  | .startThrows =>
    ⟨{ p.state with cameraError := "Unable to start recording" },
      { p.refs with
        recorders := p.refs.recorders ++ [false]
        mediaRecorderRef := some p.refs.recorders.length }⟩
  | .started =>
    let mediaRecorder := p.refs.recorders.length
    let recordingId := p.refs.nextTimerId
    let predictionId := p.refs.nextTimerId + 1
    let timeoutId := p.refs.nextTimerId + 2
    ⟨{ p.state with isRecording := true, translatedText := recordingPlaceholder },
      { p.refs with
        recorders := p.refs.recorders ++ [true]
        mediaRecorderRef := some mediaRecorder
        recordingIntervalRef := some recordingId
        predictionIntervalRef := some predictionId
        timers := p.refs.timers ++
          [⟨recordingId, .recordingInterval⟩, ⟨predictionId, .predictionInterval⟩,
            ⟨timeoutId, .autoStop mediaRecorder render⟩]
        nextTimerId := p.refs.nextTimerId + 3 }⟩

/-- The handler `handleRecording` (lines 89-184) of the render `render`, run on
the live page `p`. It returns the new page and the record it committed, if
any. -/
def handleRecording (render : PageState) (clock : Clock) (outcome : RecorderOutcome)
    (p : Page) : Page × Option TranslationRecord :=
  if render.stream.isNone then
    (⟨{ p.state with cameraError := "Camera not available" }, p.refs⟩, none)
  else if render.isRecording then
    stopRecording render clock p
  else
    (startRecording render outcome p, none)

/-- The handler `clearHistory` (lines 229-231). -/
def clearHistory (p : Page) : Page :=
  ⟨{ p.state with translationHistory := [] }, p.refs⟩

/-- Lines 156-168, once the `fetch` of one prediction tick has settled: a
decoded answer is displayed, a failed fetch or decoding (the message of the
error) is logged and ignored. -/
def predictionSettled (result : Except String Prediction) (p : Page) : Page :=
  match result with
  | .ok r =>
    ⟨{ p.state with
        currentSign := r.sign
        currentConfidence := r.confidence
        translatedText := r.sign
        confidence := r.confidence }, p.refs⟩
  | .error _ => p

/-- The callback of an armed timer fires. A timeout is disarmed by firing;
its callback (lines 174-178) calls the `handleRecording` of the render that
armed it when its recorder is still recording. -/
def timerFires (id : Nat) (clock : Clock) (outcome : RecorderOutcome) (p : Page) :
    Page × Option TranslationRecord :=
  match p.refs.timers.find? (fun t => t.id == id) with
  | none => (p, none)
  | some t =>
    match t.kind with
    | .recordingInterval =>
      (⟨{ p.state with recordingTime := p.state.recordingTime + 1 }, p.refs⟩, none)
    | .predictionInterval => (p, none)
    | .autoStop mediaRecorder render =>
      let disarmed : Page := ⟨p.state, { p.refs with timers := clearTimer id p.refs.timers }⟩
      if isRecorderRecording p.refs.recorders mediaRecorder then
        handleRecording render clock outcome disarmed
      else (disarmed, none)

/-- What can happen to the state above: a click on the record button
(line 412) or on the clear button (line 556), the settling of a prediction
fetch, the firing of a timer, the choice of a language (line 599), and the
settling of `getUserMedia` in `initializeCamera` (lines 72-87) or in
`updateVideoQuality` (lines 246-265, `none` when it is rejected). -/
inductive Event where
  | recordButton (clock : Clock) (outcome : RecorderOutcome)
  | clearHistoryButton
  | predictionSettles (result : Except String Prediction)
  | timer (id : Nat) (clock : Clock) (outcome : RecorderOutcome)
  | languageSelected (language : String)
  | cameraAcquired (stream : Nat)
  | cameraFailed
  | videoQualityUpdated (stream : Option Nat)

/-- One event on the page: the new page and the record committed, if any. The
record button runs the `handleRecording` of the latest render, which reads
the current state. -/
def step (e : Event) (p : Page) : Page × Option TranslationRecord :=
  match e with
  | .recordButton clock outcome => handleRecording p.state clock outcome p
  | .clearHistoryButton => (clearHistory p, none)
  | .predictionSettles result => (predictionSettled result p, none)
  | .timer id clock outcome => timerFires id clock outcome p
  | .languageSelected language => (⟨{ p.state with selectedLanguage := language }, p.refs⟩, none)
  | .cameraAcquired stream =>
    (⟨{ p.state with stream := some stream, cameraError := "" }, p.refs⟩, none)
  | .cameraFailed =>
    (⟨{ p.state with cameraError := "Unable to access camera. Please check permissions." },
      p.refs⟩, none)
  | .videoQualityUpdated (some stream) => (⟨{ p.state with stream := some stream }, p.refs⟩, none)
  | .videoQualityUpdated none => (p, none)

/-- A sequence of events, in order: the final page and the records committed,
in order of commit. -/
def run : List Event → Page → Page × List TranslationRecord
  | [], p => (p, [])
  | e :: es, p =>
    let (p1, committed) := step e p
    let (p2, later) := run es p1
    (p2, committed.toList ++ later)

/-- The page as first rendered (lines 29-54), with its session start time. -/
def initialPage (sessionStart : Nat) : Page :=
  ⟨⟨none, false, "", "", 0, 0, "ASL", [], ⟨0, 0, 0⟩, "", 0⟩,
    ⟨[], none, none, none, [], 1, sessionStart⟩⟩

/-- An operation on the translation history: the addition of line 119 or
`clearHistory`. -/
inductive HistoryOp where
  | add (newTranslation : TranslationRecord)
  | clear

/-- The effect of one history operation. -/
def applyHistoryOp (history : List TranslationRecord) : HistoryOp → List TranslationRecord
  | .add newTranslation => addTranslation newTranslation history
  | .clear => []

/-- The records added since the last clear, in order of addition. -/
def addedSinceClear (added : List TranslationRecord) : HistoryOp → List TranslationRecord
  | .add newTranslation => added ++ [newTranslation]
  | .clear => []

/-- The average confidence the page shows after committing the confidences
`cs` in order, from the initial statistics. -/
def averageAfter (cs : List Nat) : WholeNumber :=
  (cs.foldl (fun stats c => updateStats c 0 0 stats) ⟨0, 0, 0⟩).averageConfidence

/-! ## The voice-mode page

A shallow embedding of the state and handlers of
`lunalink/src/app/voice-mode/page.js`. The React state is `VoiceState`; the
refs and what the page has asked of the browser are `VoiceRefs`. As on the
sign-language page a handler reads the state of the render that created it
(its `render` argument) and writes to the live page. The handlers of the
recognition object and the voice loader are installed once, by the effect of
lines 57-136, and stay those of the first render; the buttons carry the
handlers of the latest render.

The calls made to the browser (recognition, synthesis, `fetch`, router) are
recorded in order in `calls`. The state `isDarkMode` is never written and is
left out. Numbers of the voice settings are carried, never computed with. -/

/-- A `SpeechSynthesisVoice`, as far as the page reads it. -/
structure Voice where
  name : String
  lang : String

/-- The state `voiceSettings` (lines 24-29); `voice` is `none` for `null` or
`undefined`. -/
structure VoiceSettings where
  rate : JsNumber
  pitch : JsNumber
  volume : JsNumber
  voice : Option Voice

/-- A message of the transcript (lines 10-15, 144-149, 170-175). The content
of a user turn is the transcript; that of an assistant turn is
`data.response`, `none` when that is `undefined`. -/
structure Message where
  id : Nat
  type : String
  content : Option Json
  timestamp : Nat

/-- The React state of the page (lines 9-31). -/
structure VoiceState where
  messages : List Message
  isRecording : Bool
  isProcessing : Bool
  isSpeaking : Bool
  speechSupported : Bool
  error : String
  showSettings : Bool
  voiceSettings : VoiceSettings
  availableVoices : List Voice
  selectedLanguage : String

/-- A `SpeechSynthesisUtterance` as `speakText` configures it (lines
195-202). -/
structure Utterance where
  text : String
  rate : JsNumber
  pitch : JsNumber
  volume : JsNumber
  voice : Option Voice

/-- A call the page makes to the browser; `recognitionStart` records whether
`start()` threw. -/
inductive BrowserCall where
  | recognitionStart (threw : Bool)
  | recognitionStop
  | synthCancel
  | synthSpeak (utterance : Utterance)
  | fetchChat (message : String) (target_language : String)
  | routerPush (path : String)

/-- The refs of the page and its dealings with the browser: whether
`recognitionRef.current` and `synthRef.current` are set, the state captured
by the handlers installed at mount, the calls made so far, and the number of
relay requests in flight. -/
structure VoiceRefs where
  recognitionRef : Bool
  synthRef : Bool
  firstRender : VoiceState
  calls : List BrowserCall
  pending : Nat

/-- The page: React state and refs. -/
structure VoicePage where
  state : VoiceState
  refs : VoiceRefs

/-- The readings of the clock that build one message: `Date.now()` and
`new Date()`. -/
structure MessageClock where
  idNow : Nat
  timestamp : Nat

/-- The state of the first render (lines 9-31), loaded at `loadedAt`. -/
def initialVoiceState (loadedAt : Nat) : VoiceState :=
  { messages := [⟨1, "assistant", some (.str
      "Hello! I\x27m ready for voice conversation. Press the microphone button to start speaking."),
      loadedAt⟩]
    isRecording := false
    isProcessing := false
    isSpeaking := false
    speechSupported := true
    error := ""
    showSettings := false
    voiceSettings := ⟨⟨false, "0.9"⟩, ⟨false, "1"⟩, ⟨false, "0.8"⟩, none⟩
    availableVoices := []
    selectedLanguage := "en" }

/-- The conversion of the argument of `new SpeechSynthesisUtterance(text)` to
a string: `undefined` is an omitted argument and gives the empty text, any
other value goes through `ToString`, which can throw. -/
def utteranceText (text : Option Json) : Except String String :=
  match text with
  | none => .ok ""
  | some v => v.toStr

/-- The function `speakText` (lines 189-209) of the render `render`: the new
page and the message of the error it threw, if any. -/
def speakText (render : VoiceState) (text : Option Json) (p : VoicePage) :
    VoicePage × Option String :=
  if !p.refs.synthRef || !render.speechSupported then (p, none)
  else
    match utteranceText text with
    | .error thrown =>
      (⟨p.state, { p.refs with calls := p.refs.calls ++ [.synthCancel] }⟩, some thrown)
    | .ok t =>
      (⟨p.state, { p.refs with
          calls := p.refs.calls ++ [.synthCancel,
            .synthSpeak ⟨t, render.voiceSettings.rate, render.voiceSettings.pitch,
              render.voiceSettings.volume, render.voiceSettings.voice⟩] }⟩, none)

/-- The function `handleVoiceInput` up to its `await fetch(...)` (lines
139-162): the user turn is logged and the relay request is sent. -/
def handleVoiceInput (render : VoiceState) (transcript : String) (clock : MessageClock)
    (p : VoicePage) : VoicePage :=
  let userMessage : Message := ⟨clock.idNow, "user", some (.str transcript), clock.timestamp⟩
  ⟨{ p.state with
      isProcessing := true
      error := ""
      messages := p.state.messages ++ [userMessage] },
    { p.refs with
      calls := p.refs.calls ++ [.fetchChat transcript render.selectedLanguage]
      pending := p.refs.pending + 1 }⟩

/-- The `catch` clause of `handleVoiceInput` (lines 182-186). -/
def relayFailed (p : VoicePage) : VoicePage :=
  ⟨{ p.state with
      error := "Failed to get AI response. Please try again."
      isProcessing := false }, p.refs⟩

/-- The function `handleVoiceInput` from the settling of its `fetch` on (lines
152-186). `outcome` is the response, or the message of the error the call
rejected with; `clock` is read when the assistant message is built. -/
def handleVoiceInputSettled (render : VoiceState) (outcome : Except String UpstreamResponse)
    (clock : MessageClock) (p : VoicePage) : VoicePage :=
  match outcome with
  | .error _ => relayFailed p
  | .ok response =>
    if !response.ok then relayFailed p
    else
      match response.json with
      | .error _ => relayFailed p
      | .ok data =>
        match readProp (some data) "response" with
        | .error _ => relayFailed p
        | .ok content =>
          let aiResponse : Message := ⟨clock.idNow + 1, "assistant", content, clock.timestamp⟩
          let appended : VoicePage :=
            ⟨{ p.state with
                messages := p.state.messages ++ [aiResponse]
                isProcessing := false }, p.refs⟩
          match speakText render content appended with
          | (spoken, none) => spoken
          | (cancelled, some _) => relayFailed cancelled

/-- The handler `onstart` of the recognition object (lines 76-79). -/
def onstart (p : VoicePage) : VoicePage :=
  ⟨{ p.state with isRecording := true, error := "" }, p.refs⟩

/-- The handler `onresult` (lines 81-84), installed by the render `render`. -/
def onresult (render : VoiceState) (transcript : String) (clock : MessageClock)
    (p : VoicePage) : VoicePage :=
  handleVoiceInput render transcript clock p

/-- The message `onerror` surfaces for an error code (lines 90-102). -/
def recognitionErrorMessage (error : String) : String :=
  if error = "no-speech" then "No speech detected. Please try again."
  else if error = "audio-capture" then
    "Microphone access denied. Please allow microphone access."
  else if error = "not-allowed" then
    "Microphone access denied. Please allow microphone access and refresh the page."
  else "Speech recognition error: " ++ error

/-- The handler `onerror` (lines 86-103). -/
def onerror (error : String) (p : VoicePage) : VoicePage :=
  ⟨{ p.state with
      isRecording := false
      isProcessing := false
      error := recognitionErrorMessage error }, p.refs⟩

/-- The handler `onend` (lines 105-107). -/
def onend (p : VoicePage) : VoicePage :=
  ⟨{ p.state with isRecording := false }, p.refs⟩

/-- The function `loadVoices` (lines 113-122) of the render `render`, given
what `getVoices()` returns. -/
def loadVoices (render : VoiceState) (voices : List Voice) (p : VoicePage) : VoicePage :=
  let listed : VoiceState := { p.state with availableVoices := voices }
  match voices.filter (fun voice => voice.lang.startsWith "en") with
  | first :: _ =>
    if render.voiceSettings.voice.isNone then
      ⟨{ listed with voiceSettings := { listed.voiceSettings with voice := some first } },
        p.refs⟩
    else ⟨listed, p.refs⟩
  | [] => ⟨listed, p.refs⟩

/-- The page after the effect of lines 57-136 in a browser without a speech
recognition constructor (lines 64-68): marked unsupported, no ref set. -/
def unsupportedPage (loadedAt : Nat) : VoicePage :=
  ⟨{ initialVoiceState loadedAt with
      speechSupported := false
      error := "Speech recognition is not supported in this browser. Please use Chrome, Edge, or Safari." },
    ⟨false, false, initialVoiceState loadedAt, [], 0⟩⟩

/-- The page after the effect of lines 57-136 in a browser with speech
recognition and synthesis: both refs set, the handlers installed, and the
voices that `getVoices()` returns loaded (line 125). -/
def supportedPage (loadedAt : Nat) (voices : List Voice) : VoicePage :=
  loadVoices (initialVoiceState loadedAt) voices
    ⟨initialVoiceState loadedAt, ⟨true, true, initialVoiceState loadedAt, [], 0⟩⟩

/-- The effect of lines 57-136, run once after the first render, given whether
the browser has a speech recognition constructor and `window.speechSynthesis`
and what `getVoices()` returns. With recognition but without synthesis
`synthRef.current.getVoices()` throws inside the effect. -/
def mount (loadedAt : Nat) (speechRecognition speechSynthesis : Bool) (voices : List Voice) :
    Except String VoicePage :=
  if !speechRecognition then .ok (unsupportedPage loadedAt)
  else if !speechSynthesis then
    .error "Cannot read properties of undefined (reading \x27getVoices\x27)"
  else .ok (supportedPage loadedAt voices)

/-- The handler `toggleRecording` (lines 211-234) of the render `render`;
`startThrows` tells whether `recognitionRef.current.start()` throws. -/
def toggleRecording (render : VoiceState) (startThrows : Bool) (p : VoicePage) : VoicePage :=
  if !render.speechSupported || !p.refs.recognitionRef then
    ⟨{ p.state with error := "Speech recognition is not available." }, p.refs⟩
  else if render.isRecording then
    ⟨p.state, { p.refs with calls := p.refs.calls ++ [.recognitionStop] }⟩
  else if !render.isProcessing then
    let quiet : VoicePage :=
      if p.refs.synthRef then
        ⟨{ p.state with isSpeaking := false },
          { p.refs with calls := p.refs.calls ++ [.synthCancel] }⟩
      else p
    let started : VoicePage :=
      ⟨{ quiet.state with error := "" },
        { quiet.refs with calls := quiet.refs.calls ++ [.recognitionStart startThrows] }⟩
    if startThrows then
      ⟨{ started.state with error := "Failed to start speech recognition. Please try again." },
        started.refs⟩
    else started
  else p

/-- The handler `stopSpeaking` (lines 236-241). -/
def stopSpeaking (p : VoicePage) : VoicePage :=
  if p.refs.synthRef then
    ⟨{ p.state with isSpeaking := false },
      { p.refs with calls := p.refs.calls ++ [.synthCancel] }⟩
  else p

/-- The handler `goBack` (lines 243-252). -/
def goBack (p : VoicePage) : VoicePage :=
  let stopped : List BrowserCall :=
    if p.refs.recognitionRef then p.refs.calls ++ [.recognitionStop] else p.refs.calls
  let cancelled : List BrowserCall :=
    if p.refs.synthRef then stopped ++ [.synthCancel] else stopped
  ⟨p.state, { p.refs with calls := cancelled ++ [.routerPush "/dashboard"] }⟩

/-- The handler `testVoice` (lines 254-256) of the render `render`. -/
def testVoice (render : VoiceState) (p : VoicePage) : VoicePage × Option String :=
  speakText render
    (some (.str "Hello! This is how I sound with the current voice settings.")) p

/-- Whether some utterance has been handed to `speak`. -/
def hasSpoken (calls : List BrowserCall) : Bool :=
  calls.any (fun call => match call with
    | .synthSpeak _ => true
    | _ => false)

/-- What can happen to the page: the four events of the recognition object,
the settling of a relay request, the buttons, the events of an utterance
(`onend` and `onerror` do the same), the `voiceschanged` event and the
controls of the settings panel. -/
inductive VoiceEvent where
  | recognitionStarts
  | recognitionResult (transcript : String) (clock : MessageClock)
  | recognitionError (error : String)
  | recognitionEnds
  | relaySettles (outcome : Except String UpstreamResponse) (clock : MessageClock)
  | microphoneButton (startThrows : Bool)
  | stopSpeakingButton
  | speakMessageButton (index : Nat)
  | testVoiceButton
  | utteranceStarts
  | utteranceEnds
  | voicesChanged (voices : List Voice)
  | settingsButton
  | closeSettingsButton
  | languageSelected (code : String)
  | voiceSelected (name : String)
  | rateChanged (rate : JsNumber)
  | pitchChanged (pitch : JsNumber)
  | volumeChanged (volume : JsNumber)
  | backButton

/-- One event on the page. The events of the recognition object reach the
handlers installed at mount, which exist only when the recognition object
does; a relay request settles only while one is in flight; a button acts
only while it is rendered and enabled (lines 459, 563, 634, 686), a control
of the settings panel only while the panel is shown (line 468). An error
thrown by a button handler is not caught by the page and leaves the state as
it was. -/
def stepVoice (e : VoiceEvent) (p : VoicePage) : VoicePage :=
  match e with
  | .recognitionStarts => if p.refs.recognitionRef then onstart p else p
  | .recognitionResult transcript clock =>
    if p.refs.recognitionRef then onresult p.refs.firstRender transcript clock p else p
  | .recognitionError error => if p.refs.recognitionRef then onerror error p else p
  | .recognitionEnds => if p.refs.recognitionRef then onend p else p
  | .relaySettles outcome clock =>
    if p.refs.pending = 0 then p
    else
      handleVoiceInputSettled p.refs.firstRender outcome clock
        ⟨p.state, { p.refs with pending := p.refs.pending - 1 }⟩
  | .microphoneButton startThrows =>
    if p.state.isProcessing || !p.state.speechSupported then p
    else toggleRecording p.state startThrows p
  | .stopSpeakingButton => if p.state.isSpeaking then stopSpeaking p else p
  | .speakMessageButton index =>
    match p.state.messages.get? index with
    | none => p
    | some message =>
      if message.type = "assistant" ∧ p.state.isSpeaking = false then
        (speakText p.state message.content p).1
      else p
  | .testVoiceButton =>
    if p.state.showSettings && !p.state.isSpeaking then (testVoice p.state p).1 else p
  | .utteranceStarts =>
    if hasSpoken p.refs.calls then ⟨{ p.state with isSpeaking := true }, p.refs⟩ else p
  | .utteranceEnds =>
    if hasSpoken p.refs.calls then ⟨{ p.state with isSpeaking := false }, p.refs⟩ else p
  | .voicesChanged voices =>
    if p.refs.synthRef then loadVoices p.refs.firstRender voices p else p
  | .settingsButton => ⟨{ p.state with showSettings := !p.state.showSettings }, p.refs⟩
  | .closeSettingsButton =>
    if p.state.showSettings then ⟨{ p.state with showSettings := false }, p.refs⟩ else p
  | .languageSelected code =>
    if p.state.showSettings then ⟨{ p.state with selectedLanguage := code }, p.refs⟩ else p
  | .voiceSelected name =>
    if p.state.showSettings then
      ⟨{ p.state with
          voiceSettings := { p.state.voiceSettings with
            voice := p.state.availableVoices.find? (fun voice => voice.name == name) } },
        p.refs⟩
    else p
  | .rateChanged rate =>
    if p.state.showSettings then
      ⟨{ p.state with voiceSettings := { p.state.voiceSettings with rate := rate } }, p.refs⟩
    else p
  | .pitchChanged pitch =>
    if p.state.showSettings then
      ⟨{ p.state with voiceSettings := { p.state.voiceSettings with pitch := pitch } }, p.refs⟩
    else p
  | .volumeChanged volume =>
    if p.state.showSettings then
      ⟨{ p.state with voiceSettings := { p.state.voiceSettings with volume := volume } },
        p.refs⟩
    else p
  | .backButton => goBack p

/-- A sequence of events on the page, in order. -/
def runVoice (es : List VoiceEvent) (p : VoicePage) : VoicePage :=
  es.foldl (fun page e => stepVoice e page) p

/-- The page can be reached: it results from some sequence of events on a page
as some browser mounts it. -/
def Reachable (p : VoicePage) : Prop :=
  ∃ loadedAt speechRecognition speechSynthesis voices mounted es,
    mount loadedAt speechRecognition speechSynthesis voices = .ok mounted ∧
    runVoice es mounted = p

/-- The events that can add to the transcript: a recognition result and the
settling of a relay request. -/
def VoiceEvent.logsMessage : VoiceEvent → Bool
  | .recognitionResult _ _ => true
  | .relaySettles _ _ => true
  | _ => false

/-- The step from `p` to `q` adds nothing to the transcript, does not raise the
processing flag, and leaves alone what is fixed at mount and the number of
requests in flight. -/
def Untouched (p q : VoicePage) : Prop :=
  q.state.messages = p.state.messages ∧
  q.state.speechSupported = p.state.speechSupported ∧
  (q.state.isProcessing = p.state.isProcessing ∨ q.state.isProcessing = false) ∧
  q.refs.recognitionRef = p.refs.recognitionRef ∧
  q.refs.synthRef = p.refs.synthRef ∧
  q.refs.firstRender = p.refs.firstRender ∧
  q.refs.pending = p.refs.pending

/-! ## Auxiliary lemmas -/

theorem trim_eq_empty_iff (s : String) : trim s = "" ↔ whitespaceOnly s = true := by
  unfold trim whitespaceOnly
  constructor
  · intro h
    have h1 : ((s.data.dropWhile isWhiteSpace).reverse.dropWhile isWhiteSpace).reverse = [] := by
      have := congrArg String.data h
      simpa using this
    rw [List.reverse_eq_nil_iff, List.dropWhile_eq_nil_iff] at h1
    have h2 : List.dropWhile isWhiteSpace (s.data.dropWhile isWhiteSpace) = [] := by
      rw [List.dropWhile_eq_nil_iff]
      intro x hx
      exact h1 x (List.mem_reverse.mpr hx)
    rw [List.dropWhile_idempotent, List.dropWhile_eq_nil_iff] at h2
    rw [List.all_eq_true]
    exact h2
  · intro h
    rw [List.all_eq_true] at h
    have h2 : s.data.dropWhile isWhiteSpace = [] := List.dropWhile_eq_nil_iff.mpr h
    rw [h2]
    rfl

theorem messageMissing_str (s : String) :
    messageMissing (some (.str s)) = .ok (whitespaceOnly s) := by
  unfold messageMissing
  by_cases hs : s = ""
  · subst hs
    rfl
  · have ht : truthy (some (Json.str s)) = true := by
      simp [truthy, Json.truthy, hs]
    simp only [ht, Bool.not_true, Bool.false_eq_true, if_false]
    congr 1
    cases hw : whitespaceOnly s
    · have : ¬ trim s = "" := by
        rw [trim_eq_empty_iff, hw]; simp
      simpa using this
    · have : trim s = "" := (trim_eq_empty_iff s).mpr hw
      simp [this]

theorem json_400 (msg : String) :
    NextResponse.json (.obj [("error", .str msg)]) 400 =
      .ok ⟨400, .obj [("error", .str msg)]⟩ := rfl
theorem json_500 (msg : String) :
    NextResponse.json (.obj [("error", .str msg)]) 500 =
      .ok ⟨500, .obj [("error", .str msg)]⟩ := rfl
theorem json_200 (b : Json) : NextResponse.json b 200 = .ok ⟨200, b.serialised⟩ := rfl

theorem serialised_error (msg : String) :
    Json.serialised (.obj [("error", .str msg)]) = .obj [("error", .str msg)] := rfl

theorem serialised_reply (v : Json) :
    Json.serialised (jsObject [("reply", some v)]) = .obj [("reply", v.serialised)] := rfl

theorem errorBody_eq (msg : String) : errorBody msg = .obj [("error", .str msg)] := rfl

theorem truthy_none : truthy none = false := rfl


theorem destructureMessage_of_ne_null (body : Json) (h : body ≠ .null) :
    destructureMessage body = .ok (body.getProp "message") := by
  cases body <;> first | rfl | exact absurd rfl h

theorem ne_null_of_getProp {body : Json} {name : String} {v : Json}
    (h : body.getProp name = some v) : body ≠ .null := by
  intro hb
  subst hb
  cases h

theorem readProp_of_ne_null (v : Json) (name : String) (h : v ≠ .null) :
    readProp (some v) name = .ok (v.getProp name) := by
  cases v <;> first | rfl | exact absurd rfl h

theorem tryBlock_valid (key : Option String) (body : Json) (s : String)
    (fetch : FetchRequest → Except String UpstreamResponse)
    (hmsg : body.getProp "message" = some (.str s)) (hs : validMessage s) :
    tryBlock key (.ok body) fetch =
      if key.getD "" = "" then
        (NextResponse.json (errorBody "API key not configured") 500, [])
      else
        (handleUpstream (fetch (groqRequest (key.getD "") (some (.str s)))),
          [groqRequest (key.getD "") (some (.str s))]) := by
  unfold tryBlock
  simp only [destructureMessage_of_ne_null body (ne_null_of_getProp hmsg), hmsg,
    messageMissing_str, hs.2]
  cases key with
  | none => rfl
  | some k => rfl

theorem POST_valid (key : Option String) (body : Json) (s k : String)
    (fetch : FetchRequest → Except String UpstreamResponse)
    (hmsg : body.getProp "message" = some (.str s)) (hs : validMessage s)
    (hkey : key = some k) (hk : k ≠ "") :
    POST key (.ok body) fetch =
      (match handleUpstream (fetch (groqRequest k (some (.str s)))) with
        | .ok response => .ok response
        | .error message =>
          NextResponse.json (errorBody ("Internal server error: " ++ message)) 500,
        [groqRequest k (some (.str s))]) := by
  subst hkey
  unfold POST
  rw [tryBlock_valid (some k) body s fetch hmsg hs]
  simp only [Option.getD_some, hk, if_false]
  cases handleUpstream (fetch (groqRequest k (some (.str s)))) <;> rfl

theorem handleUpstream_not_ok (up : UpstreamResponse) (hok : up.ok = false) :
    handleUpstream (.ok up) =
      match up.text with
      | .error e => .error e
      | .ok _ => NextResponse.json
          (errorBody ("API request failed: " ++ toString up.status ++ " " ++ up.statusText))
          up.status := by
  simp only [handleUpstream, hok, Bool.not_false, if_true]

theorem handleUpstream_ok (up : UpstreamResponse) (data : Json) (hok : up.ok = true)
    (hjson : up.json = .ok data) :
    handleUpstream (.ok up) =
        match readProp (some data) "error" with
        | .error e => .error e
        | .ok dataError =>
          if truthy dataError then
            match errorMessageText dataError with
            | .error e => .error e
            | .ok m => NextResponse.json (errorBody ("API error: " ++ m)) 500
          else
            if !truthy (optProp (optProp (optIndex0 (optProp (some data) "choices")) "message")
                "content") then
              NextResponse.json (errorBody "No response generated") 500
            else
              NextResponse.json (jsObject [("reply",
                optProp (optProp (optIndex0 (optProp (some data) "choices")) "message")
                  "content")]) 200 := by
  simp only [handleUpstream, hok, hjson, Bool.not_true, Bool.false_eq_true, if_false]

theorem json_of_valid_status (b : Json) (status : Nat) (h1 : 200 ≤ status) (h2 : status ≤ 599)
    (h3 : status ∉ nullBodyStatus) :
    NextResponse.json b status = .ok ⟨status, b.serialised⟩ := by
  unfold NextResponse.json
  have : ¬ (status < 200 ∨ 599 < status) := by omega
  simp only [this, h3, if_false]

theorem readProp_error_of_getProp (data e : Json) (h : data.getProp "error" = some e) :
    readProp (some data) "error" = .ok (some e) := by
  rw [readProp_of_ne_null data "error" (ne_null_of_getProp h), h]

theorem POST_upstream_error (key : Option String) (body : Json) (s k : String)
    (fetch : FetchRequest → Except String UpstreamResponse) (up : UpstreamResponse)
    (data e : Json)
    (hmsg : body.getProp "message" = some (.str s)) (hs : validMessage s)
    (hkey : key = some k) (hk : k ≠ "")
    (hfetch : fetch (groqRequest k (some (.str s))) = .ok up)
    (hok : up.ok = true) (hjson : up.json = .ok data)
    (herr : data.getProp "error" = some e) (he : e.truthy = true) :
    POST key (.ok body) fetch =
      (match errorMessageText (some e) with
        | .ok m => .ok ⟨500, .obj [("error", .str ("API error: " ++ m))]⟩
        | .error message =>
          .ok ⟨500, .obj [("error", .str ("Internal server error: " ++ message))]⟩,
        [groqRequest k (some (.str s))]) := by
  have htr : truthy (some e) = true := he
  rw [POST_valid key body s k fetch hmsg hs hkey hk, hfetch,
    handleUpstream_ok up data hok hjson, readProp_error_of_getProp data e herr]
  simp only [htr, if_true]
  cases errorMessageText (some e) <;> rfl

theorem append_ne_empty (p x : String) (hp : p ≠ "") : p ++ x ≠ "" := by
  intro h
  apply hp
  have hd : (p ++ x).data = [] := congrArg String.data h
  rw [String.data_append, List.append_eq_nil] at hd
  exact String.ext hd.1

theorem truthy_some (v : Json) : truthy (some v) = v.truthy := rfl

theorem handleUpstream_cases (fetched : Except String UpstreamResponse) :
    (∃ e, handleUpstream fetched = .error e) ∨
    (∃ v : Json, v.truthy = true ∧
      handleUpstream fetched = .ok ⟨200, .obj [("reply", v.serialised)]⟩) ∨
    (∃ m, m ≠ "" ∧ handleUpstream fetched = .ok ⟨500, .obj [("error", .str m)]⟩) ∨
    (∃ up m, fetched = .ok up ∧ up.ok = false ∧ m ≠ "" ∧
      handleUpstream fetched = .ok ⟨up.status, .obj [("error", .str m)]⟩) := by
  cases fetched with
  | error e => exact Or.inl ⟨e, rfl⟩
  | ok up =>
    cases hok : up.ok with
    | false =>
      rw [handleUpstream_not_ok up hok]
      cases up.text with
      | error e => exact Or.inl ⟨e, rfl⟩
      | ok t =>
        simp only [NextResponse.json]
        split
        · exact Or.inl ⟨_, rfl⟩
        · split
          · exact Or.inl ⟨_, rfl⟩
          · refine Or.inr (Or.inr (Or.inr ⟨up, _, rfl, hok, ?_, rfl⟩))
            rw [String.append_assoc, String.append_assoc]
            exact append_ne_empty _ _ (by decide)
    | true =>
      cases hjson : up.json with
      | error e =>
        refine Or.inl ⟨e, ?_⟩
        simp only [handleUpstream, hok, hjson, Bool.not_true, Bool.false_eq_true, if_false]
      | ok data =>
        rw [handleUpstream_ok up data hok hjson]
        cases readProp (some data) "error" with
        | error e => exact Or.inl ⟨e, rfl⟩
        | ok dataError =>
          cases hd : truthy dataError with
          | true =>
            simp only [hd, if_true]
            cases errorMessageText dataError with
            | error e => exact Or.inl ⟨e, rfl⟩
            | ok m =>
              exact Or.inr (Or.inr (Or.inl
                ⟨"API error: " ++ m, append_ne_empty "API error: " m (by decide), rfl⟩))
          | false =>
            simp only [hd, Bool.false_eq_true, if_false]
            cases hr : optProp (optProp (optIndex0 (optProp (some data) "choices")) "message")
                "content" with
            | none =>
              refine Or.inr (Or.inr (Or.inl ⟨"No response generated", by decide, ?_⟩))
              simp only [truthy_none, Bool.not_false, if_true, json_500, errorBody_eq]
            | some v =>
              cases hv : v.truthy with
              | false =>
                refine Or.inr (Or.inr (Or.inl ⟨"No response generated", by decide, ?_⟩))
                simp only [truthy_some, hv, Bool.not_false, if_true, json_500, errorBody_eq]
              | true =>
                refine Or.inr (Or.inl ⟨v, hv, ?_⟩)
                simp only [truthy_some, hv, Bool.not_true, Bool.false_eq_true, if_false,
                  json_200]
                rfl

theorem destructureMessage_ok {body : Json} {message : Option Json}
    (h : destructureMessage body = .ok message) : message = body.getProp "message" := by
  cases body <;> cases h <;> rfl

theorem tryBlock_cases (key : Option String) (reqJson : Except String Json)
    (fetch : FetchRequest → Except String UpstreamResponse) :
    (∃ e, tryBlock key reqJson fetch = (.error e, [])) ∨
    tryBlock key reqJson fetch =
      (.ok ⟨400, .obj [("error", .str "Message is required")]⟩, []) ∨
    tryBlock key reqJson fetch =
      (.ok ⟨500, .obj [("error", .str "API key not configured")]⟩, []) ∨
    (∃ body s k, reqJson = .ok body ∧ body.getProp "message" = some (.str s) ∧
      validMessage s ∧ key = some k ∧ k ≠ "" ∧
      tryBlock key reqJson fetch =
        (handleUpstream (fetch (groqRequest k (some (.str s)))),
          [groqRequest k (some (.str s))])) := by
  cases reqJson with
  | error e => exact Or.inl ⟨e, rfl⟩
  | ok body =>
    cases hd : destructureMessage body with
    | error e =>
      refine Or.inl ⟨e, ?_⟩
      simp only [tryBlock, hd]
    | ok message =>
      have hm := destructureMessage_ok hd
      cases hmm : messageMissing message with
      | error e =>
        refine Or.inl ⟨e, ?_⟩
        simp only [tryBlock, hd, hmm]
      | ok missing =>
        cases missing with
        | true =>
          refine Or.inr (Or.inl ?_)
          simp only [tryBlock, hd, hmm, json_400, errorBody_eq]
        | false =>
          have hstr : ∃ s, message = some (.str s) ∧ validMessage s := by
            cases message with
            | none => cases hmm
            | some v =>
              cases v with
              | str s =>
                rw [messageMissing_str] at hmm
                injection hmm with hws
                refine ⟨s, rfl, ?_, hws⟩
                intro hs
                subst hs
                cases hws
              | null => cases hmm
              | bool b => cases b <;> cases hmm
              | num n =>
                unfold messageMissing at hmm
                split at hmm <;> cases hmm
              | arr items => cases hmm
              | obj members => cases hmm
          obtain ⟨s, hs, hvalid⟩ := hstr
          have hmsg : body.getProp "message" = some (.str s) := by
            rw [← hm, hs]
          rw [tryBlock_valid key body s fetch hmsg hvalid]
          cases key with
          | none =>
            refine Or.inr (Or.inr (Or.inl ?_))
            simp only [Option.getD_none, if_true, json_500, errorBody_eq]
          | some k =>
            by_cases hk : k = ""
            · refine Or.inr (Or.inr (Or.inl ?_))
              simp only [Option.getD_some, hk, if_true, json_500, errorBody_eq]
            · refine Or.inr (Or.inr (Or.inr ⟨body, s, k, rfl, hmsg, hvalid, rfl, hk, ?_⟩))
              simp only [Option.getD_some, hk, if_false]

theorem POST_cases (key : Option String) (reqJson : Except String Json)
    (fetch : FetchRequest → Except String UpstreamResponse) :
    ∃ r, (POST key reqJson fetch).1 = .ok r ∧
      ((∃ v : Json, v.truthy = true ∧ r = ⟨200, .obj [("reply", v.serialised)]⟩) ∨
       (∃ m st, m ≠ "" ∧ r = ⟨st, .obj [("error", .str m)]⟩ ∧
          (st = 400 ∨ st = 500 ∨
            ∃ request up, request ∈ (POST key reqJson fetch).2 ∧ fetch request = .ok up ∧
              up.ok = false ∧ st = up.status))) := by
  rcases tryBlock_cases key reqJson fetch with ⟨e, h⟩ | h | h | ⟨body, s, k, _, _, _, _, _, h⟩
  · refine ⟨⟨500, .obj [("error", .str ("Internal server error: " ++ e))]⟩, ?_, Or.inr
      ⟨_, 500, append_ne_empty "Internal server error: " e (by decide), rfl, Or.inr (Or.inl rfl)⟩⟩
    simp only [POST, h, json_500, errorBody_eq]
  · refine ⟨⟨400, .obj [("error", .str "Message is required")]⟩, ?_, Or.inr
      ⟨_, 400, by decide, rfl, Or.inl rfl⟩⟩
    simp only [POST, h]
  · refine ⟨⟨500, .obj [("error", .str "API key not configured")]⟩, ?_, Or.inr
      ⟨_, 500, by decide, rfl, Or.inr (Or.inl rfl)⟩⟩
    simp only [POST, h]
  · rcases handleUpstream_cases (fetch (groqRequest k (some (.str s)))) with
      ⟨e, hu⟩ | ⟨v, hv, hu⟩ | ⟨m, hm, hu⟩ | ⟨up, m, hf, hok, hm, hu⟩
    · refine ⟨⟨500, .obj [("error", .str ("Internal server error: " ++ e))]⟩, ?_, Or.inr
        ⟨_, 500, append_ne_empty "Internal server error: " e (by decide), rfl,
          Or.inr (Or.inl rfl)⟩⟩
      simp only [POST, h, hu, json_500, errorBody_eq]
    · refine ⟨⟨200, .obj [("reply", v.serialised)]⟩, ?_, Or.inl ⟨v, hv, rfl⟩⟩
      simp only [POST, h, hu]
    · refine ⟨⟨500, .obj [("error", .str m)]⟩, ?_, Or.inr ⟨m, 500, hm, rfl, Or.inr (Or.inl rfl)⟩⟩
      simp only [POST, h, hu]
    · refine ⟨⟨up.status, .obj [("error", .str m)]⟩, ?_, Or.inr ⟨m, up.status, hm, rfl,
        Or.inr (Or.inr ⟨groqRequest k (some (.str s)), up, ?_, hf, hok, rfl⟩)⟩⟩
      · simp only [POST, h, hu]
      · simp only [POST, h, hu, List.mem_singleton]

theorem status_ne_200_of_not_ok (up : UpstreamResponse) (hok : up.ok = false) :
    up.status ≠ 200 := by
  intro h
  unfold UpstreamResponse.ok at hok
  rw [h] at hok
  cases hok

theorem POST_calls (key : Option String) (reqJson : Except String Json)
    (fetch : FetchRequest → Except String UpstreamResponse) :
    (POST key reqJson fetch).2 = (tryBlock key reqJson fetch).2 := by
  unfold POST
  rcases h : tryBlock key reqJson fetch with ⟨result, calls⟩
  cases result <;> rfl

/-! ## The relay's contract -/

/-- C1 (amended): for every request whose parsed JSON body is not the literal
`null` and whose message is absent, the empty string, or a string consisting
only of white space, the handler answers 400 with the body
`{ error: "Message is required" }` and issues no upstream request, whatever
the credential and whatever the upstream would do. -/
theorem missing_message_400 (key : Option String) (body : Json)
    (fetch : FetchRequest → Except String UpstreamResponse)
    (hbody : body ≠ .null)
    (hmsg : body.getProp "message" = none ∨
      ∃ s, body.getProp "message" = some (.str s) ∧ (s = "" ∨ whitespaceOnly s = true)) :
    POST key (.ok body) fetch =
      (.ok ⟨400, .obj [("error", .str "Message is required")]⟩, []) := by
  have hm : messageMissing (body.getProp "message") = .ok true := by
    rcases hmsg with h | ⟨s, h, hs⟩
    · rw [h]; rfl
    · rw [h, messageMissing_str]
      rcases hs with hs | hs
      · subst hs; rfl
      · rw [hs]
  unfold POST tryBlock
  simp only [destructureMessage_of_ne_null body hbody, hm, json_400, errorBody_eq]

/-- C1, witness: a white-space-only message, no credential. -/
theorem missing_message_400_witness :
    Json.obj [("message", .str " \t\n")] ≠ .null ∧
    whitespaceOnly " \t\n" = true ∧
    POST none (.ok (.obj [("message", .str " \t\n")])) (fun _ => .error "offline") =
      (.ok ⟨400, .obj [("error", .str "Message is required")]⟩, []) :=
  ⟨fun h => Json.noConfusion h, rfl,
    missing_message_400 none (.obj [("message", .str " \t\n")]) (fun _ => .error "offline")
      (fun h => Json.noConfusion h) (Or.inr ⟨" \t\n", rfl, Or.inr rfl⟩)⟩

/-- C1, counterexample to the claim as stated: the body `null` is valid JSON
and has no message, yet destructuring it throws, so the handler answers 500
through its `catch` clause rather than 400. -/
theorem null_body_500 :
    Json.null.getProp "message" = none ∧
    POST (some "gsk_key") (.ok .null) (fun _ => .error "offline") =
      (.ok ⟨500, .obj [("error", .str
        "Internal server error: Cannot destructure property \x27message\x27 of \x27(intermediate value)\x27 as it is null.")]⟩,
        []) :=
  ⟨rfl, rfl⟩

/-- C2: for every request whose message is a non-empty string that is not
white space only, if `GROQ_API_KEY` is unset or empty the handler answers 500
with the body `{ error: "API key not configured" }` and issues no upstream
request. -/
theorem missing_key_500 (key : Option String) (body : Json) (s : String)
    (fetch : FetchRequest → Except String UpstreamResponse)
    (hmsg : body.getProp "message" = some (.str s)) (hs : validMessage s)
    (hkey : key = none ∨ key = some "") :
    POST key (.ok body) fetch =
      (.ok ⟨500, .obj [("error", .str "API key not configured")]⟩, []) := by
  have hk : key.getD "" = "" := by
    rcases hkey with h | h <;> subst h <;> rfl
  unfold POST
  rw [tryBlock_valid key body s fetch hmsg hs]
  simp only [hk, if_true, json_500, errorBody_eq]

/-- C2, witness: the message `hello` with an empty credential. -/
theorem missing_key_500_witness :
    validMessage "hello" ∧
    POST (some "") (.ok (.obj [("message", .str "hello")])) (fun _ => .error "offline") =
      (.ok ⟨500, .obj [("error", .str "API key not configured")]⟩, []) :=
  ⟨⟨by decide, rfl⟩,
    missing_key_500 (some "") (.obj [("message", .str "hello")]) "hello"
      (fun _ => .error "offline") rfl ⟨by decide, rfl⟩ (Or.inr rfl)⟩

/-- C3 (amended): for every valid message with a credential present and every
upstream response whose status is not OK, lies in 300..599 and is not 304,
and whose body text is read without error, the handler answers with the
upstream status and the body
`{ error: "API request failed: <status> <statusText>" }`. -/
theorem upstream_status_propagated (key : Option String) (body : Json) (s k : String)
    (fetch : FetchRequest → Except String UpstreamResponse) (up : UpstreamResponse) (t : String)
    (hmsg : body.getProp "message" = some (.str s)) (hs : validMessage s)
    (hkey : key = some k) (hk : k ≠ "")
    (hfetch : fetch (groqRequest k (some (.str s))) = .ok up)
    (hok : up.ok = false) (htext : up.text = .ok t)
    (hlo : 200 ≤ up.status) (hhi : up.status ≤ 599) (h304 : up.status ≠ 304) :
    POST key (.ok body) fetch =
      (.ok ⟨up.status, .obj [("error", .str
        ("API request failed: " ++ toString up.status ++ " " ++ up.statusText))]⟩,
        [groqRequest k (some (.str s))]) := by
  have h300 : 300 ≤ up.status := by
    unfold UpstreamResponse.ok at hok
    simp only [Bool.and_eq_false_iff, decide_eq_false_iff_not, not_le] at hok
    omega
  have hnull : up.status ∉ nullBodyStatus := by
    unfold nullBodyStatus
    simp only [List.mem_cons, List.mem_singleton, List.not_mem_nil, or_false]
    omega
  rw [POST_valid key body s k fetch hmsg hs hkey hk, hfetch, handleUpstream_not_ok up hok, htext]
  simp only [json_of_valid_status _ up.status hlo hhi hnull, errorBody_eq, serialised_error]

/-- C3, witness: an upstream 503. -/
theorem upstream_status_propagated_witness :
    POST (some "gsk_key") (.ok (.obj [("message", .str "hello")]))
        (fun _ => .ok ⟨503, "Service Unavailable", .ok "busy", .error "Unexpected token"⟩) =
      (.ok ⟨503, .obj [("error", .str "API request failed: 503 Service Unavailable")]⟩,
        [groqRequest "gsk_key" (some (.str "hello"))]) :=
  upstream_status_propagated (some "gsk_key") (.obj [("message", .str "hello")]) "hello"
    "gsk_key" (fun _ => .ok ⟨503, "Service Unavailable", .ok "busy", .error "Unexpected token"⟩)
    ⟨503, "Service Unavailable", .ok "busy", .error "Unexpected token"⟩ "busy"
    rfl ⟨by decide, rfl⟩ rfl (by decide) rfl rfl rfl (by decide) (by decide) (by decide)

/-- C3, counterexample to the claim as stated: a non-OK upstream status is not
always the status returned. When reading the body of a 503 fails, and when
the upstream status is one a response with a body cannot carry (304, 999),
the handler answers 500 through its `catch` clause. -/
theorem upstream_status_not_propagated :
    POST (some "gsk_key") (.ok (.obj [("message", .str "hello")]))
        (fun _ => .ok ⟨503, "Service Unavailable", .error "terminated", .error "terminated"⟩) =
      (.ok ⟨500, .obj [("error", .str "Internal server error: terminated")]⟩,
        [groqRequest "gsk_key" (some (.str "hello"))]) ∧
    POST (some "gsk_key") (.ok (.obj [("message", .str "hello")]))
        (fun _ => .ok ⟨304, "Not Modified", .ok "", .ok .null⟩) =
      (.ok ⟨500, .obj [("error", .str
        "Internal server error: Response constructor: Invalid response status code 304")]⟩,
        [groqRequest "gsk_key" (some (.str "hello"))]) ∧
    POST (some "gsk_key") (.ok (.obj [("message", .str "hello")]))
        (fun _ => .ok ⟨999, "Request denied", .ok "", .ok .null⟩) =
      (.ok ⟨500, .obj [("error", .str
        "Internal server error: init[\"status\"] must be in the range of 200 to 599, inclusive.")]⟩,
        [groqRequest "gsk_key" (some (.str "hello"))]) :=
  ⟨rfl, rfl, rfl⟩

/-- C4: for every valid message with a credential present, if the upstream
answers OK with a payload that has no `error` member and whose
`choices[0].message.content` is a non-empty string `t`, the handler answers
200 with the body `{ reply: t }`. When `choices` is a list, `t` is read from
its first element alone: the later elements are arbitrary. -/
theorem completion_relayed (key : Option String) (body : Json) (s k : String)
    (fetch : FetchRequest → Except String UpstreamResponse) (up : UpstreamResponse)
    (data : Json) (t : String)
    (hmsg : body.getProp "message" = some (.str s)) (hs : validMessage s)
    (hkey : key = some k) (hk : k ≠ "")
    (hfetch : fetch (groqRequest k (some (.str s))) = .ok up)
    (hok : up.ok = true) (hjson : up.json = .ok data)
    (herr : data.getProp "error" = none)
    (hreply : optProp (optProp (optIndex0 (optProp (some data) "choices")) "message") "content"
      = some (.str t))
    (ht : t ≠ "") :
    POST key (.ok body) fetch =
        (.ok ⟨200, .obj [("reply", .str t)]⟩, [groqRequest k (some (.str s))]) ∧
      ∀ first later, data.getProp "choices" = some (.arr (first :: later)) →
        optProp (optProp (some first) "message") "content" = some (.str t) := by
  have hnull : data ≠ .null := by
    intro h
    subst h
    cases hreply
  have hre : readProp (some data) "error" = .ok none := by
    rw [readProp_of_ne_null data "error" hnull, herr]
  constructor
  · have htr : truthy (some (Json.str t)) = true := by
      simp [truthy, Json.truthy, ht]
    rw [POST_valid key body s k fetch hmsg hs hkey hk, hfetch,
      handleUpstream_ok up data hok hjson, hre]
    simp only [hreply, htr, truthy_none, Bool.false_eq_true, if_false, Bool.not_true, json_200]
    rfl
  · intro first later hch
    have h1 : optProp (some data) "choices" = some (.arr (first :: later)) := by
      cases data <;> first | exact absurd rfl hnull | exact hch
    rw [h1] at hreply
    exact hreply

/-- C4, witness: the scenario of the specification, with a second choice
that is not used. -/
theorem completion_relayed_witness :
    POST (some "gsk_key") (.ok (.obj [("message", .str "hello")]))
        (fun _ => .ok ⟨200, "OK", .error "body used", .ok (.obj [("choices", .arr [
          .obj [("message", .obj [("content", .str "hi there")])],
          .obj [("message", .obj [("content", .str "ignored")])]])])⟩) =
      (.ok ⟨200, .obj [("reply", .str "hi there")]⟩,
        [groqRequest "gsk_key" (some (.str "hello"))]) :=
  (completion_relayed (some "gsk_key") (.obj [("message", .str "hello")]) "hello" "gsk_key"
    (fun _ => .ok ⟨200, "OK", .error "body used", .ok (.obj [("choices", .arr [
          .obj [("message", .obj [("content", .str "hi there")])],
          .obj [("message", .obj [("content", .str "ignored")])]])])⟩)
    ⟨200, "OK", .error "body used", .ok (.obj [("choices", .arr [
          .obj [("message", .obj [("content", .str "hi there")])],
          .obj [("message", .obj [("content", .str "ignored")])]])])⟩
    (.obj [("choices", .arr [
          .obj [("message", .obj [("content", .str "hi there")])],
          .obj [("message", .obj [("content", .str "ignored")])]])])
    "hi there" rfl ⟨by decide, rfl⟩ rfl (by decide) rfl rfl rfl rfl rfl (by decide)).1

/-- C5 (amended): for every valid message with a credential present, if the
upstream answers OK with a payload other than the literal `null` that has no
`error` member and whose `choices[0].message.content` is missing
(`undefined` anywhere along the optional chain), `null` or the empty string,
the handler answers 500 with the body `{ error: "No response generated" }`. -/
theorem empty_completion_500 (key : Option String) (body : Json) (s k : String)
    (fetch : FetchRequest → Except String UpstreamResponse) (up : UpstreamResponse)
    (data : Json)
    (hmsg : body.getProp "message" = some (.str s)) (hs : validMessage s)
    (hkey : key = some k) (hk : k ≠ "")
    (hfetch : fetch (groqRequest k (some (.str s))) = .ok up)
    (hok : up.ok = true) (hjson : up.json = .ok data)
    (hnull : data ≠ .null)
    (herr : data.getProp "error" = none)
    (hreply :
      optProp (optProp (optIndex0 (optProp (some data) "choices")) "message") "content" = none ∨
      optProp (optProp (optIndex0 (optProp (some data) "choices")) "message") "content"
        = some .null ∨
      optProp (optProp (optIndex0 (optProp (some data) "choices")) "message") "content"
        = some (.str "")) :
    POST key (.ok body) fetch =
      (.ok ⟨500, .obj [("error", .str "No response generated")]⟩,
        [groqRequest k (some (.str s))]) := by
  have hre : readProp (some data) "error" = .ok none := by
    rw [readProp_of_ne_null data "error" hnull, herr]
  have htr : truthy
      (optProp (optProp (optIndex0 (optProp (some data) "choices")) "message") "content")
      = false := by
    rcases hreply with h | h | h <;> rw [h] <;> rfl
  rw [POST_valid key body s k fetch hmsg hs hkey hk, hfetch,
    handleUpstream_ok up data hok hjson, hre]
  simp only [htr, truthy_none, Bool.false_eq_true, if_false, Bool.not_false, if_true, json_500,
    errorBody_eq]

/-- C5, witness: an empty list of choices. -/
theorem empty_completion_500_witness :
    POST (some "gsk_key") (.ok (.obj [("message", .str "hello")]))
        (fun _ => .ok ⟨200, "OK", .error "body used", .ok (.obj [("choices", .arr [])])⟩) =
      (.ok ⟨500, .obj [("error", .str "No response generated")]⟩,
        [groqRequest "gsk_key" (some (.str "hello"))]) :=
  empty_completion_500 (some "gsk_key") (.obj [("message", .str "hello")]) "hello" "gsk_key"
    (fun _ => .ok ⟨200, "OK", .error "body used", .ok (.obj [("choices", .arr [])])⟩)
    ⟨200, "OK", .error "body used", .ok (.obj [("choices", .arr [])])⟩
    (.obj [("choices", .arr [])])
    rfl ⟨by decide, rfl⟩ rfl (by decide) rfl rfl rfl (fun h => Json.noConfusion h) rfl
    (Or.inl rfl)

/-- C5, counterexample to the claim as stated: the payload `null` has no `error`
member and no `choices[0].message.content`, yet line 41 reads `data.error`
from it and throws, so the body is the `catch` clause's message and not
`No response generated`. -/
theorem null_payload_500 :
    Json.null.getProp "error" = none ∧
    optProp (optProp (optIndex0 (optProp (some Json.null) "choices")) "message") "content"
      = none ∧
    POST (some "gsk_key") (.ok (.obj [("message", .str "hello")]))
        (fun _ => .ok ⟨200, "OK", .error "body used", .ok .null⟩) =
      (.ok ⟨500, .obj [("error", .str
        "Internal server error: Cannot read properties of null (reading \x27error\x27)")]⟩,
        [groqRequest "gsk_key" (some (.str "hello"))]) :=
  ⟨rfl, rfl, rfl⟩

/-- C6 (amended): for every valid message with a credential present, if the
upstream answers OK with a payload whose `error` member is truthy (anything
but `null`, `false`, `0` and `""`), the handler answers 500 with the body
`{ error: "API error: <m>" }`, where `<m>` is the error's `message` when that
is a non-empty string, `Unknown error` when the `message` is absent or falsy,
and the string conversion of the `message` when it is any other truthy value
whose conversion does not throw. -/
theorem upstream_error_500 (key : Option String) (body : Json) (s k : String)
    (fetch : FetchRequest → Except String UpstreamResponse) (up : UpstreamResponse)
    (data e : Json)
    (hmsg : body.getProp "message" = some (.str s)) (hs : validMessage s)
    (hkey : key = some k) (hk : k ≠ "")
    (hfetch : fetch (groqRequest k (some (.str s))) = .ok up)
    (hok : up.ok = true) (hjson : up.json = .ok data)
    (herr : data.getProp "error" = some e) (he : e.truthy = true) :
    (∀ m, e.getProp "message" = some (.str m) → m ≠ "" →
        POST key (.ok body) fetch =
          (.ok ⟨500, .obj [("error", .str ("API error: " ++ m))]⟩,
            [groqRequest k (some (.str s))])) ∧
    ((e.getProp "message" = none ∨ ∃ v, e.getProp "message" = some v ∧ v.truthy = false) →
        POST key (.ok body) fetch =
          (.ok ⟨500, .obj [("error", .str "API error: Unknown error")]⟩,
            [groqRequest k (some (.str s))])) ∧
    (∀ v m, e.getProp "message" = some v → v.truthy = true → v.toStr = .ok m →
        POST key (.ok body) fetch =
          (.ok ⟨500, .obj [("error", .str ("API error: " ++ m))]⟩,
            [groqRequest k (some (.str s))])) := by
  have hpost := POST_upstream_error key body s k fetch up data e hmsg hs hkey hk hfetch hok
    hjson herr he
  have hrp : readProp (some e) "message" = .ok (e.getProp "message") :=
    readProp_of_ne_null e "message" (fun h => by subst h; cases he)
  have hthird : ∀ v m, e.getProp "message" = some v → v.truthy = true → v.toStr = .ok m →
      POST key (.ok body) fetch =
        (.ok ⟨500, .obj [("error", .str ("API error: " ++ m))]⟩,
          [groqRequest k (some (.str s))]) := by
    intro v m hv hvt hvs
    have hem : errorMessageText (some e) = .ok m := by
      unfold errorMessageText
      rw [hrp, hv]
      simp only [hvt, if_true, hvs]
    rw [hpost, hem]
  refine ⟨?_, ?_, hthird⟩
  · intro m hm hne
    have hmt : (Json.str m).truthy = true := by
      simp [Json.truthy, hne]
    exact hthird (.str m) m hm hmt (by simp only [Json.toStr])
  · intro h
    have hem : errorMessageText (some e) = .ok "Unknown error" := by
      unfold errorMessageText
      rcases h with h | ⟨v, hv, hvt⟩
      · rw [hrp, h]
      · rw [hrp, hv]
        simp only [hvt, Bool.false_eq_true, if_false]
    rw [hpost, hem]
    rfl

/-- C6, witness: an upstream error object with a message. -/
theorem upstream_error_500_witness :
    POST (some "gsk_key") (.ok (.obj [("message", .str "hello")]))
        (fun _ => .ok ⟨200, "OK", .error "body used", .ok (.obj [("error",
          .obj [("message", .str "Rate limit reached")])])⟩) =
      (.ok ⟨500, .obj [("error", .str "API error: Rate limit reached")]⟩,
        [groqRequest "gsk_key" (some (.str "hello"))]) :=
  (upstream_error_500 (some "gsk_key") (.obj [("message", .str "hello")]) "hello" "gsk_key"
    (fun _ => .ok ⟨200, "OK", .error "body used", .ok (.obj [("error",
          .obj [("message", .str "Rate limit reached")])])⟩)
    ⟨200, "OK", .error "body used", .ok (.obj [("error",
          .obj [("message", .str "Rate limit reached")])])⟩
    (.obj [("error", .obj [("message", .str "Rate limit reached")])])
    (.obj [("message", .str "Rate limit reached")])
    rfl ⟨by decide, rfl⟩ rfl (by decide) rfl rfl rfl rfl rfl).1
      "Rate limit reached" rfl (by decide)

/-- C6, counterexample to the claim as stated: a payload that carries an `error`
member whose value is `null` is not treated as an error, and its completion
is relayed with status 200; and a truthy error whose `message` cannot be
converted to a string ends in the `catch` clause, without the `API error:`
prefix. -/
theorem error_member_not_500 :
    (Json.obj [("error", .null), ("choices", .arr [
        .obj [("message", .obj [("content", .str "hi there")])]])]).getProp "error"
      = some .null ∧
    POST (some "gsk_key") (.ok (.obj [("message", .str "hello")]))
        (fun _ => .ok ⟨200, "OK", .error "body used", .ok (.obj [("error", .null),
          ("choices", .arr [.obj [("message", .obj [("content", .str "hi there")])]])])⟩) =
      (.ok ⟨200, .obj [("reply", .str "hi there")]⟩,
        [groqRequest "gsk_key" (some (.str "hello"))]) ∧
    POST (some "gsk_key") (.ok (.obj [("message", .str "hello")]))
        (fun _ => .ok ⟨200, "OK", .error "body used", .ok (.obj [("error",
          .obj [("message", .obj [("toString", .str "x")])])])⟩) =
      (.ok ⟨500, .obj [("error", .str
        "Internal server error: Cannot convert object to primitive value")]⟩,
        [groqRequest "gsk_key" (some (.str "hello"))]) :=
  ⟨rfl, rfl, rfl⟩

/-- C7 (amended): for every valid message, every credential state and every
upstream outcome (a rejected call, any status, any payload, an unreadable
body), the handler answers either 200 with a body `{ reply: w }` whose `w`
is the JSON serialisation of a truthy JSON value (so a non-empty string
whenever it is a string, and `null` when the value is a number that is not
finite), or a body `{ error: m }` whose `m` is a non-empty string. -/
theorem reply_or_error (key : Option String) (body : Json) (s : String)
    (fetch : FetchRequest → Except String UpstreamResponse)
    (_hmsg : body.getProp "message" = some (.str s)) (_hs : validMessage s) :
    ∃ r, (POST key (.ok body) fetch).1 = .ok r ∧
      ((r.status = 200 ∧ ∃ v : Json, r.body = .obj [("reply", v.serialised)] ∧
          v.truthy = true ∧
          (∀ t, v.serialised = .str t → t ≠ "") ∧
          (∀ n, v = .num n → n.isFinite = false → v.serialised = .null)) ∨
       (∃ m, r.body = .obj [("error", .str m)] ∧ m ≠ "")) := by
  obtain ⟨r, hr, hshape⟩ := POST_cases key (.ok body) fetch
  refine ⟨r, hr, ?_⟩
  rcases hshape with ⟨v, hv, hrv⟩ | ⟨m, st, hm, hrm, _⟩
  · subst hrv
    refine Or.inl ⟨rfl, v, rfl, hv, ?_, ?_⟩
    · intro t ht hempty
      subst hempty
      cases v with
      | null => cases ht
      | bool b => cases ht
      | num n =>
        simp only [Json.serialised] at ht
        split at ht <;> cases ht
      | str u =>
        simp only [Json.serialised] at ht
        cases ht
        cases hv
      | arr items =>
        simp only [Json.serialised] at ht
        cases ht
      | obj members =>
        simp only [Json.serialised] at ht
        cases ht
    · intro n hn hfin
      subst hn
      simp only [Json.serialised, hfin, Bool.false_eq_true, if_false]
  · subst hrm
    exact Or.inr ⟨m, rfl, hm⟩

/-- C7, witness: a valid message whose upstream call is rejected. -/
theorem reply_or_error_witness :
    ∃ r, (POST (some "gsk_key") (.ok (.obj [("message", .str "hello")]))
        (fun _ => .error "fetch failed")).1 = .ok r ∧
      ((r.status = 200 ∧ ∃ v : Json, r.body = .obj [("reply", v.serialised)] ∧
          v.truthy = true ∧
          (∀ t, v.serialised = .str t → t ≠ "") ∧
          (∀ n, v = .num n → n.isFinite = false → v.serialised = .null)) ∨
       (∃ m, r.body = .obj [("error", .str m)] ∧ m ≠ "")) :=
  reply_or_error (some "gsk_key") (.obj [("message", .str "hello")]) "hello"
    (fun _ => .error "fetch failed") rfl ⟨by decide, rfl⟩

/-- C7, counterexample to the claim as stated: when the upstream content is the
number 42, the handler answers 200 with `{ reply: 42 }`, whose reply is not
a string, and the body has no `error` member; and when the content is the
literal `1e400`, which `JSON.parse` reads as `Infinity`, the handler answers
200 with `{ reply: null }`. -/
theorem reply_not_a_string :
    POST (some "gsk_key") (.ok (.obj [("message", .str "hello")]))
        (fun _ => .ok ⟨200, "OK", .error "body used", .ok (.obj [("choices", .arr [
          .obj [("message", .obj [("content", .num ⟨false, "42"⟩)])]])])⟩) =
      (.ok ⟨200, .obj [("reply", .num ⟨false, "42"⟩)]⟩,
        [groqRequest "gsk_key" (some (.str "hello"))]) ∧
    (∀ t, Json.num ⟨false, "42"⟩ ≠ .str t) ∧
    (Json.obj [("reply", .num ⟨false, "42"⟩)]).getProp "error" = none ∧
    POST (some "gsk_key") (.ok (.obj [("message", .str "hello")]))
        (fun _ => .ok ⟨200, "OK", .error "body used", .ok (.obj [("choices", .arr [
          .obj [("message", .obj [("content", .num ⟨false, "Infinity"⟩)])]])])⟩) =
      (.ok ⟨200, .obj [("reply", .null)]⟩,
        [groqRequest "gsk_key" (some (.str "hello"))]) :=
  ⟨rfl, fun _ h => Json.noConfusion h, rfl, rfl⟩

/-- C8: the handler issues exactly one upstream request when the message is a
non-empty string that is not white space only and the credential is present
(non-empty), whatever the upstream then does (rejection, any status, any
payload), and none in every other case. -/
theorem single_upstream_call (key : Option String) (reqJson : Except String Json)
    (fetch : FetchRequest → Except String UpstreamResponse) :
    ((∃ body s k, reqJson = .ok body ∧ body.getProp "message" = some (.str s) ∧
        validMessage s ∧ key = some k ∧ k ≠ "") →
      (POST key reqJson fetch).2.length = 1) ∧
    (¬ (∃ body s k, reqJson = .ok body ∧ body.getProp "message" = some (.str s) ∧
        validMessage s ∧ key = some k ∧ k ≠ "") →
      (POST key reqJson fetch).2.length = 0) := by
  constructor
  · rintro ⟨body, s, k, hreq, hmsg, hs, hkey, hk⟩
    subst hreq
    rw [POST_valid key body s k fetch hmsg hs hkey hk]
    rfl
  · intro hnot
    rw [POST_calls]
    rcases tryBlock_cases key reqJson fetch with
      ⟨e, h⟩ | h | h | ⟨body, s, k, hreq, hmsg, hs, hkey, hk, _⟩
    · rw [h]; rfl
    · rw [h]; rfl
    · rw [h]; rfl
    · exact absurd ⟨body, s, k, hreq, hmsg, hs, hkey, hk⟩ hnot

/-- C8, witness: one call when the upstream call is rejected, none when the
body is not valid JSON. -/
theorem single_upstream_call_witness :
    (POST (some "gsk_key") (.ok (.obj [("message", .str "hello")]))
      (fun _ => .error "fetch failed")).2.length = 1 ∧
    (POST (some "gsk_key") (.error "Unexpected end of JSON input")
      (fun _ => .error "fetch failed")).2.length = 0 :=
  ⟨(single_upstream_call (some "gsk_key") (.ok (.obj [("message", .str "hello")]))
      (fun _ => .error "fetch failed")).1
      ⟨.obj [("message", .str "hello")], "hello", "gsk_key", rfl, rfl, ⟨by decide, rfl⟩, rfl,
        by decide⟩,
    (single_upstream_call (some "gsk_key") (.error "Unexpected end of JSON input")
      (fun _ => .error "fetch failed")).2
      (fun ⟨_, _, _, h, _⟩ => Except.noConfusion h)⟩

/-- C9: every upstream request the handler issues is a POST to the
completions URL whose body has the fixed model name and a `messages` list of
exactly two entries, the fixed system message and then the user message whose
content is the inbound message string unchanged, and whose `Authorization`
header is `Bearer ` followed by the credential. -/
theorem upstream_request_shape (key : Option String) (reqJson : Except String Json)
    (fetch : FetchRequest → Except String UpstreamResponse) (request : FetchRequest)
    (hreq : request ∈ (POST key reqJson fetch).2) :
    ∃ body m k, reqJson = .ok body ∧ body.getProp "message" = some (.str m) ∧
      key = some k ∧
      request = ⟨"https://api.groq.com/openai/v1/chat/completions", "POST",
        [("Authorization", "Bearer " ++ k), ("Content-Type", "application/json")],
        .obj [("model", .str "llama3-8b-8192"),
          ("messages", .arr [
            .obj [("role", .str "system"), ("content", .str "You are a helpful assistant.")],
            .obj [("role", .str "user"), ("content", .str m)]])]⟩ := by
  rw [POST_calls] at hreq
  rcases tryBlock_cases key reqJson fetch with
    ⟨e, h⟩ | h | h | ⟨body, s, k, hbody, hmsg, _, hkey, _, h⟩
  · rw [h] at hreq; cases hreq
  · rw [h] at hreq; cases hreq
  · rw [h] at hreq; cases hreq
  · rw [h] at hreq
    have hr : request = groqRequest k (some (.str s)) := List.mem_singleton.mp hreq
    exact ⟨body, s, k, hbody, hmsg, hkey, hr⟩

/-- C9, witness: a message with surrounding blanks is forwarded with them. -/
theorem upstream_request_shape_witness :
    ∃ body m k, (Except.ok (Json.obj [("message", .str "  hello ")]) : Except String Json)
        = .ok body ∧
      body.getProp "message" = some (.str m) ∧ some "gsk_key" = some k ∧
      groqRequest "gsk_key" (some (.str "  hello ")) =
        ⟨"https://api.groq.com/openai/v1/chat/completions", "POST",
        [("Authorization", "Bearer " ++ k), ("Content-Type", "application/json")],
        .obj [("model", .str "llama3-8b-8192"),
          ("messages", .arr [
            .obj [("role", .str "system"), ("content", .str "You are a helpful assistant.")],
            .obj [("role", .str "user"), ("content", .str m)]])]⟩ :=
  upstream_request_shape (some "gsk_key") (.ok (.obj [("message", .str "  hello ")]))
    (fun _ => .error "fetch failed") (groqRequest "gsk_key" (some (.str "  hello ")))
    (List.mem_singleton.mpr rfl)

/-- C10: every response of the handler has exactly one of the two shapes
`{ reply }` and `{ error }`; its body carries `reply` if and only if its
status is 200; and a body carrying `error` has a status other than 200, which
is 400, 500, or the status of a non-OK upstream response to the request the
handler issued. -/
theorem response_shape (key : Option String) (reqJson : Except String Json)
    (fetch : FetchRequest → Except String UpstreamResponse) :
    ∃ r, (POST key reqJson fetch).1 = .ok r ∧
      (((∃ v, r.body = .obj [("reply", v)]) ∧ ¬ ∃ m, r.body = .obj [("error", .str m)]) ∨
        ((∃ m, r.body = .obj [("error", .str m)]) ∧ ¬ ∃ v, r.body = .obj [("reply", v)])) ∧
      ((r.body.getProp "reply").isSome = true ↔ r.status = 200) ∧
      ((r.body.getProp "error").isSome = true →
        r.status ≠ 200 ∧
        (r.status = 400 ∨ r.status = 500 ∨
          ∃ request up, request ∈ (POST key reqJson fetch).2 ∧ fetch request = .ok up ∧
            up.ok = false ∧ r.status = up.status)) := by
  obtain ⟨r, hr, hshape⟩ := POST_cases key reqJson fetch
  refine ⟨r, hr, ?_⟩
  rcases hshape with ⟨v, _, hrv⟩ | ⟨m, st, _, hrm, hst⟩
  · subst hrv
    refine ⟨Or.inl ⟨⟨v.serialised, rfl⟩, ?_⟩, ⟨fun _ => rfl, fun _ => rfl⟩, ?_⟩
    · rintro ⟨m, hm⟩
      injection hm with hm
      injection hm with hm _
      injection hm with hname _
      exact absurd hname (by decide)
    · intro h
      cases h
  · subst hrm
    have hne : st ≠ 200 := by
      rcases hst with h | h | ⟨_, up, _, _, hok, h⟩
      · omega
      · omega
      · rw [h]
        exact status_ne_200_of_not_ok up hok
    refine ⟨Or.inr ⟨⟨m, rfl⟩, ?_⟩, ⟨?_, ?_⟩, fun _ => ⟨hne, hst⟩⟩
    · rintro ⟨v, hv⟩
      injection hv with hv
      injection hv with hv _
      injection hv with hname _
      exact absurd hname (by decide)
    · intro h
      cases h
    · intro h
      exact absurd h hne


theorem POST_of_throw (key : Option String) (reqJson : Except String Json)
    (fetch : FetchRequest → Except String UpstreamResponse) (e : String)
    (calls : List FetchRequest) (h : tryBlock key reqJson fetch = (.error e, calls)) :
    POST key reqJson fetch =
      (.ok ⟨500, .obj [("error", .str ("Internal server error: " ++ e))]⟩, calls) := by
  simp only [POST, h, json_500, errorBody_eq]

theorem messageMissing_truthy_not_string (m : Json) (ht : m.truthy = true)
    (hs : ∀ s, m ≠ .str s) :
    messageMissing (some m) = .error "message.trim is not a function" := by
  unfold messageMissing
  simp only [truthy_some, ht, Bool.not_true, Bool.false_eq_true, if_false]
  cases m <;> first | rfl | exact absurd rfl (hs _)

theorem credentialPresent_none : ¬ credentialPresent none := by
  rintro ⟨k, hk, _⟩
  cases hk

theorem credentialPresent_some (k : String) : credentialPresent (some k) ↔ k ≠ "" := by
  constructor
  · rintro ⟨k', hk, hne⟩
    cases hk
    exact hne
  · intro h
    exact ⟨k, rfl, h⟩

theorem destructureMessage_of_getProp (body m : Json)
    (hm : body.getProp "message" = some m) : destructureMessage body = .ok (some m) := by
  rw [destructureMessage_of_ne_null body (ne_null_of_getProp hm), hm]

theorem tryBlock_of_message (key : Option String) (body : Json) (message : Option Json)
    (fetch : FetchRequest → Except String UpstreamResponse)
    (hm : destructureMessage body = .ok message) :
    (tryBlock key (.ok body) fetch).1 =
      match messageMissing message with
      | .error e => .error e
      | .ok true => NextResponse.json (errorBody "Message is required") 400
      | .ok false =>
        match key with
        | none => NextResponse.json (errorBody "API key not configured") 500
        | some k =>
          if k = "" then NextResponse.json (errorBody "API key not configured") 500
          else handleUpstream (fetch (groqRequest k message)) := by
  unfold tryBlock
  simp only [hm]
  cases messageMissing message with
  | error e => rfl
  | ok missing =>
    cases missing with
    | true => rfl
    | false =>
      cases key with
      | none => rfl
      | some k =>
        by_cases hk : k = ""
        · simp only [hk, if_true]
        · simp only [hk, if_false]

theorem POST_fst (key : Option String) (reqJson : Except String Json)
    (fetch : FetchRequest → Except String UpstreamResponse) :
    (POST key reqJson fetch).1 =
      match (tryBlock key reqJson fetch).1 with
      | .ok response => .ok response
      | .error message =>
        NextResponse.json (errorBody ("Internal server error: " ++ message)) 500 := by
  unfold POST
  rcases tryBlock key reqJson fetch with ⟨result, calls⟩
  cases result <;> rfl

/-! ## The relay: determinism and failures -/

/-- C11: two requests from which the handler reads the same message and
whose upstream calls, if made, receive the same outcome get the same response
(status and body), whatever else their bodies contain; and the response
depends on the credential only through its presence, so two present
credentials of different value give the same response. -/
theorem relay_deterministic (key key' : Option String) (body body' : Json)
    (message : Option Json) (fetch fetch' : FetchRequest → Except String UpstreamResponse)
    (hm : destructureMessage body = .ok message)
    (hm' : destructureMessage body' = .ok message)
    (hkey : credentialPresent key ↔ credentialPresent key')
    (hsame : ∀ k k', key = some k → key' = some k' →
      fetch (groqRequest k message) = fetch' (groqRequest k' message)) :
    (POST key (.ok body) fetch).1 = (POST key' (.ok body') fetch').1 := by
  rw [POST_fst, POST_fst, tryBlock_of_message key body message fetch hm,
    tryBlock_of_message key' body' message fetch' hm']
  cases messageMissing message with
  | error e => rfl
  | ok missing =>
    cases missing with
    | true => rfl
    | false =>
      cases key with
      | none =>
        cases key' with
        | none => rfl
        | some k' =>
          have hk' : k' = "" := by
            by_contra hne
            exact credentialPresent_none (hkey.mpr ((credentialPresent_some k').mpr hne))
          simp only [hk', if_true]
      | some k =>
        cases key' with
        | none =>
          have hk : k = "" := by
            by_contra hne
            exact credentialPresent_none (hkey.mp ((credentialPresent_some k).mpr hne))
          simp only [hk, if_true]
        | some k' =>
          by_cases hk : k = ""
          · have hk' : k' = "" := by
              by_contra hne
              exact (credentialPresent_some k).mp
                (hkey.mpr ((credentialPresent_some k').mpr hne)) hk
            simp only [hk, hk', if_true]
          · have hk' : k' ≠ "" :=
              (credentialPresent_some k').mp (hkey.mp ((credentialPresent_some k).mpr hk))
            simp only [hk, hk', if_false]
            rw [hsame k k' rfl rfl]

/-- C11, witness: two bodies with the message `hello`, two different
credentials, the same upstream answer. -/
theorem relay_deterministic_witness :
    (POST (some "gsk_one") (.ok (.obj [("message", .str "hello")]))
        (fun _ => .ok ⟨200, "OK", .error "body used", .ok (.obj [("choices", .arr [
          .obj [("message", .obj [("content", .str "hi there")])]])])⟩)).1 =
    (POST (some "gsk_two") (.ok (.obj [("extra", .null), ("message", .str "hello")]))
        (fun _ => .ok ⟨200, "OK", .error "body used", .ok (.obj [("choices", .arr [
          .obj [("message", .obj [("content", .str "hi there")])]])])⟩)).1 :=
  relay_deterministic (some "gsk_one") (some "gsk_two") (.obj [("message", .str "hello")])
    (.obj [("extra", .null), ("message", .str "hello")]) (some (.str "hello")) _ _ rfl rfl
    ⟨fun _ => ⟨"gsk_two", rfl, by decide⟩, fun _ => ⟨"gsk_one", rfl, by decide⟩⟩
    (fun _ _ _ _ => rfl)

/-- C12: the handler never lets a failure escape. For every input it resolves
with a response, and whatever is thrown in its `try` block is caught and
yields 500 with the body `{ error: "Internal server error: <message>" }`; so
do in particular a body that is not valid JSON, a message on which `trim`
cannot be called (truthy and not a string), a rejected upstream call, and an
undecodable body of an OK upstream response. -/
theorem failures_caught (key : Option String) (reqJson : Except String Json)
    (fetch : FetchRequest → Except String UpstreamResponse) :
    (∃ r, (POST key reqJson fetch).1 = .ok r) ∧
    (∀ e calls, tryBlock key reqJson fetch = (.error e, calls) →
      (POST key reqJson fetch).1 =
        .ok ⟨500, .obj [("error", .str ("Internal server error: " ++ e))]⟩) ∧
    (∀ e, reqJson = .error e →
      (POST key reqJson fetch).1 =
        .ok ⟨500, .obj [("error", .str ("Internal server error: " ++ e))]⟩) ∧
    (∀ body m, reqJson = .ok body → body.getProp "message" = some m → m.truthy = true →
      (∀ s, m ≠ .str s) →
      (POST key reqJson fetch).1 =
        .ok ⟨500, .obj [("error", .str
          "Internal server error: message.trim is not a function")]⟩) ∧
    (∀ body s k e, reqJson = .ok body → body.getProp "message" = some (.str s) →
      validMessage s → key = some k → k ≠ "" →
      fetch (groqRequest k (some (.str s))) = .error e →
      (POST key reqJson fetch).1 =
        .ok ⟨500, .obj [("error", .str ("Internal server error: " ++ e))]⟩) ∧
    (∀ body s k up e, reqJson = .ok body → body.getProp "message" = some (.str s) →
      validMessage s → key = some k → k ≠ "" →
      fetch (groqRequest k (some (.str s))) = .ok up → up.ok = true → up.json = .error e →
      (POST key reqJson fetch).1 =
        .ok ⟨500, .obj [("error", .str ("Internal server error: " ++ e))]⟩) := by
  refine ⟨?_, ?_, ?_, ?_, ?_, ?_⟩
  · obtain ⟨r, hr, _⟩ := POST_cases key reqJson fetch
    exact ⟨r, hr⟩
  · intro e calls h
    rw [POST_of_throw key reqJson fetch e calls h]
  · intro e h
    subst h
    rfl
  · intro body m hreq hm ht hs
    subst hreq
    rw [POST_fst, tryBlock_of_message key body (some m) fetch
      (destructureMessage_of_getProp body m hm), messageMissing_truthy_not_string m ht hs]
    rfl
  · intro body s k e hreq hm hs hkey hk hf
    subst hreq
    rw [POST_valid key body s k fetch hm hs hkey hk, hf]
    rfl
  · intro body s k up e hreq hm hs hkey hk hf hok hj
    subst hreq
    rw [POST_valid key body s k fetch hm hs hkey hk, hf]
    simp only [handleUpstream, hok, hj, Bool.not_true, Bool.false_eq_true, if_false, json_500,
      errorBody_eq]

/-- C12, witness: a body that is not valid JSON. -/
theorem failures_caught_witness :
    (POST (some "gsk_key") (.error "Unexpected end of JSON input") (fun _ => .error "offline")).1 =
      .ok ⟨500, .obj [("error", .str
        "Internal server error: Unexpected end of JSON input")]⟩ :=
  (failures_caught (some "gsk_key") (.error "Unexpected end of JSON input")
    (fun _ => .error "offline")).2.2.1 "Unexpected end of JSON input" rfl

/-- Two of the inputs that C12 lists do not always make the handler throw, so
that nothing is caught: the message `0` is falsy and line 7 answers 400, and
the body of an upstream response that is not OK is only read as text, never
decoded, so the upstream status is passed on. -/
theorem listed_inputs_without_throw :
    (POST (some "gsk_key") (.ok (.obj [("message", .num ⟨true, "0"⟩)]))
        (fun _ => .error "offline")).1 =
      .ok ⟨400, .obj [("error", .str "Message is required")]⟩ ∧
    (POST (some "gsk_key") (.ok (.obj [("message", .str "hello")]))
        (fun _ => .ok ⟨502, "Bad Gateway", .ok "<html>", .error "Unexpected token <"⟩)).1 =
      .ok ⟨502, .obj [("error", .str "API request failed: 502 Bad Gateway")]⟩ :=
  ⟨rfl, rfl⟩

/-! ## Auxiliary lemmas: the sign-language page -/

theorem applyHistoryOp_newest_first (history added : List TranslationRecord) (op : HistoryOp)
    (h : history = added.reverse.take 10) :
    applyHistoryOp history op = (addedSinceClear added op).reverse.take 10 := by
  cases op with
  | add r =>
    subst h
    simp only [applyHistoryOp, addedSinceClear, addTranslation, List.reverse_append,
      List.reverse_cons, List.reverse_nil, List.nil_append, List.singleton_append,
      List.take_succ_cons, List.take_take]
    rfl
  | clear => rfl

theorem foldl_history_newest_first (ops : List HistoryOp) :
    ∀ history added : List TranslationRecord, history = added.reverse.take 10 →
      ops.foldl applyHistoryOp history = (ops.foldl addedSinceClear added).reverse.take 10 := by
  induction ops with
  | nil =>
    intro history added h
    exact h
  | cons op ops ih =>
    intro history added h
    exact ih _ _ (applyHistoryOp_newest_first history added op h)

theorem handleRecording_no_stream (render : PageState) (clock : Clock)
    (outcome : RecorderOutcome) (p : Page) (h : render.stream = none) :
    handleRecording render clock outcome p =
      (⟨{ p.state with cameraError := "Camera not available" }, p.refs⟩, none) := by
  simp only [handleRecording, h, Option.isNone_none, if_true]

theorem handleRecording_stop (render : PageState) (clock : Clock)
    (outcome : RecorderOutcome) (p : Page) (hs : render.stream ≠ none)
    (hr : render.isRecording = true) :
    handleRecording render clock outcome p = stopRecording render clock p := by
  cases hst : render.stream with
  | none => exact absurd hst hs
  | some s =>
    simp only [handleRecording, hst, hr, Option.isNone_some, Bool.false_eq_true, if_false,
      if_true]

theorem handleRecording_start (render : PageState) (clock : Clock)
    (outcome : RecorderOutcome) (p : Page) (hs : render.stream ≠ none)
    (hr : render.isRecording = false) :
    handleRecording render clock outcome p = (startRecording render outcome p, none) := by
  cases hst : render.stream with
  | none => exact absurd hst hs
  | some s =>
    simp only [handleRecording, hst, hr, Option.isNone_some, Bool.false_eq_true, if_false]

theorem startRecording_frame (render : PageState) (outcome : RecorderOutcome) (p : Page) :
    (startRecording render outcome p).state.translationHistory = p.state.translationHistory ∧
    (startRecording render outcome p).state.sessionStats = p.state.sessionStats := by
  cases outcome <;> exact ⟨rfl, rfl⟩

theorem stopRecording_no_result (render : PageState) (clock : Clock) (p : Page)
    (h : render.translatedText = "" ∨ render.translatedText = recordingPlaceholder) :
    stopRecording render clock p =
      (⟨{ p.state with isRecording := false, recordingTime := 0 },
        { p.refs with
          recorders := stopCurrentRecorder p.refs
          timers := clearIntervals p.refs
          predictionIntervalRef := none }⟩, none) := by
  unfold stopRecording
  have hn : ¬ (render.translatedText ≠ "" ∧ render.translatedText ≠ recordingPlaceholder) := by
    rintro ⟨h1, h2⟩
    rcases h with h | h
    · exact h1 h
    · exact h2 h
  exact if_neg hn

theorem stopRecording_result (render : PageState) (clock : Clock) (p : Page)
    (h1 : render.translatedText ≠ "") (h2 : render.translatedText ≠ recordingPlaceholder) :
    stopRecording render clock p =
      (⟨{ p.state with
          isRecording := false
          recordingTime := 0
          translationHistory :=
            addTranslation ⟨toString clock.idNow, render.translatedText, render.confidence,
              clock.timestamp, render.selectedLanguage⟩ p.state.translationHistory
          sessionStats :=
            updateStats render.confidence clock.statsNow p.refs.sessionStart
              p.state.sessionStats },
        { p.refs with
          recorders := stopCurrentRecorder p.refs
          timers := clearIntervals p.refs
          predictionIntervalRef := none }⟩,
        some ⟨toString clock.idNow, render.translatedText, render.confidence,
              clock.timestamp, render.selectedLanguage⟩) := by
  unfold stopRecording
  have hn : render.translatedText ≠ "" ∧ render.translatedText ≠ recordingPlaceholder :=
    ⟨h1, h2⟩
  exact if_pos hn

/-- What the handler of any render does to the history and the statistics of
the live page: nothing when it commits no record, one addition and one
statistics update when it commits one. -/
theorem handleRecording_commit (render : PageState) (clock : Clock)
    (outcome : RecorderOutcome) (p : Page) :
    ((handleRecording render clock outcome p).2 = none ∧
      (handleRecording render clock outcome p).1.state.translationHistory =
        p.state.translationHistory ∧
      (handleRecording render clock outcome p).1.state.sessionStats = p.state.sessionStats) ∨
    (∃ r, (handleRecording render clock outcome p).2 = some r ∧
      (handleRecording render clock outcome p).1.state.translationHistory =
        addTranslation r p.state.translationHistory ∧
      (handleRecording render clock outcome p).1.state.sessionStats =
        updateStats render.confidence clock.statsNow p.refs.sessionStart
          p.state.sessionStats) := by
  by_cases hs : render.stream = none
  · rw [handleRecording_no_stream render clock outcome p hs]
    exact Or.inl ⟨rfl, rfl, rfl⟩
  · cases hr : render.isRecording with
    | false =>
      rw [handleRecording_start render clock outcome p hs hr]
      exact Or.inl ⟨rfl, (startRecording_frame render outcome p).1,
        (startRecording_frame render outcome p).2⟩
    | true =>
      rw [handleRecording_stop render clock outcome p hs hr]
      by_cases h1 : render.translatedText = ""
      · rw [stopRecording_no_result render clock p (Or.inl h1)]
        exact Or.inl ⟨rfl, rfl, rfl⟩
      · by_cases h2 : render.translatedText = recordingPlaceholder
        · rw [stopRecording_no_result render clock p (Or.inr h2)]
          exact Or.inl ⟨rfl, rfl, rfl⟩
        · rw [stopRecording_result render clock p h1 h2]
          exact Or.inr ⟨_, rfl, rfl, rfl⟩

/-- What one event does to the history and the statistics. -/
theorem step_commit (e : Event) (p : Page) :
    ((step e p).2 = none ∧
      ((step e p).1.state.translationHistory = p.state.translationHistory ∨
        (step e p).1.state.translationHistory = []) ∧
      (step e p).1.state.sessionStats = p.state.sessionStats) ∨
    (∃ r confidence statsNow, (step e p).2 = some r ∧
      (step e p).1.state.translationHistory = addTranslation r p.state.translationHistory ∧
      (step e p).1.state.sessionStats =
        updateStats confidence statsNow p.refs.sessionStart p.state.sessionStats) := by
  cases e with
  | recordButton clock outcome =>
    rcases handleRecording_commit p.state clock outcome p with ⟨h1, h2, h3⟩ | ⟨r, h1, h2, h3⟩
    · exact Or.inl ⟨h1, Or.inl h2, h3⟩
    · exact Or.inr ⟨r, _, _, h1, h2, h3⟩
  | clearHistoryButton => exact Or.inl ⟨rfl, Or.inr rfl, rfl⟩
  | predictionSettles result =>
    cases result <;> exact Or.inl ⟨rfl, Or.inl rfl, rfl⟩
  | languageSelected language => exact Or.inl ⟨rfl, Or.inl rfl, rfl⟩
  | cameraAcquired stream => exact Or.inl ⟨rfl, Or.inl rfl, rfl⟩
  | cameraFailed => exact Or.inl ⟨rfl, Or.inl rfl, rfl⟩
  | videoQualityUpdated stream =>
    cases stream <;> exact Or.inl ⟨rfl, Or.inl rfl, rfl⟩
  | timer id clock outcome =>
    simp only [step, timerFires]
    cases p.refs.timers.find? (fun t => t.id == id) with
    | none => exact Or.inl ⟨rfl, Or.inl rfl, rfl⟩
    | some t =>
      obtain ⟨tid, kind⟩ := t
      cases kind with
      | recordingInterval => exact Or.inl ⟨rfl, Or.inl rfl, rfl⟩
      | predictionInterval => exact Or.inl ⟨rfl, Or.inl rfl, rfl⟩
      | autoStop mediaRecorder render =>
        dsimp only
        cases hrec : isRecorderRecording p.refs.recorders mediaRecorder with
        | false =>
          exact Or.inl ⟨rfl, Or.inl rfl, rfl⟩
        | true =>
          rcases handleRecording_commit render clock outcome
              ⟨p.state, { p.refs with timers := clearTimer id p.refs.timers }⟩ with
            ⟨h1, h2, h3⟩ | ⟨r, h1, h2, h3⟩
          · exact Or.inl ⟨h1, Or.inl h2, h3⟩
          · exact Or.inr ⟨r, _, _, h1, h2, h3⟩

theorem run_cons (e : Event) (es : List Event) (p : Page) :
    run (e :: es) p = ((run es (step e p).1).1, (step e p).2.toList ++ (run es (step e p).1).2) :=
  rfl

theorem run_total (es : List Event) :
    ∀ p : Page, (run es p).1.state.sessionStats.totalTranslations =
      p.state.sessionStats.totalTranslations + (run es p).2.length := by
  induction es with
  | nil => intro p; rfl
  | cons e es ih =>
    intro p
    rw [run_cons]
    simp only [List.length_append]
    rw [ih (step e p).1]
    rcases step_commit e p with ⟨h1, _, h3⟩ | ⟨r, c, n, h1, _, h3⟩
    · rw [h1, h3]
      simp
    · rw [h1, h3]
      simp only [updateStats, Option.toList, List.length_singleton]
      omega

theorem run_history_length (es : List Event) :
    ∀ p : Page, p.state.translationHistory.length ≤ 10 →
      (run es p).1.state.translationHistory.length ≤ 10 := by
  induction es with
  | nil => intro p h; exact h
  | cons e es ih =>
    intro p h
    rw [run_cons]
    apply ih
    rcases step_commit e p with ⟨_, h2 | h2, _⟩ | ⟨r, c, n, _, h2, _⟩
    · rw [h2]; exact h
    · rw [h2]; exact Nat.zero_le _
    · rw [h2]
      simp only [addTranslation, List.length_cons, List.length_take]
      omega

theorem run_append (es es' : List Event) :
    ∀ p : Page, (run (es ++ es') p).1 = (run es' (run es p).1).1 := by
  induction es with
  | nil => intro p; rfl
  | cons e es ih =>
    intro p
    rw [List.cons_append, run_cons, run_cons]
    exact ih (step e p).1

/-! ## The sign-language page: history, statistics and recording sessions -/

/-- C13: after any sequence of history additions (line 119) interleaved with
`clearHistory`, starting from the empty history, the history is the records
added since the last clear, newest first, cut to the 10 most recent: it has
min(k, 10) entries for k additions since the last clear, never more than 10,
so the 11th addition drops exactly the oldest record. The history of the
page never exceeds 10 entries after any sequence of events. -/
theorem history_newest_first (ops : List HistoryOp) :
    ops.foldl applyHistoryOp [] = ((ops.foldl addedSinceClear []).reverse).take 10 ∧
    (ops.foldl applyHistoryOp []).length = min 10 (ops.foldl addedSinceClear []).length ∧
    (ops.foldl applyHistoryOp []).length ≤ 10 ∧
    (∀ (es : List Event) (sessionStart : Nat),
      (run es (initialPage sessionStart)).1.state.translationHistory.length ≤ 10) := by
  have h := foldl_history_newest_first ops [] [] rfl
  refine ⟨h, ?_, ?_, ?_⟩
  · rw [h, List.length_take, List.length_reverse]
  · rw [h, List.length_take]
    exact Nat.min_le_left _ _
  · intro es sessionStart
    exact run_history_length es (initialPage sessionStart) (Nat.zero_le _)

/-- C14, evaluated: committing the confidences 90, 90, 91, 91, 91 in this
order from the initial statistics leaves the average confidence at 90 after
every commit, while the mean of the five, 453 / 5 = 90.6, rounds to 91: the
incrementally maintained value is not the rounded mean. -/
theorem average_not_rounded_mean :
    averageAfter [90] = 90 ∧ averageAfter [90, 90] = 90 ∧ averageAfter [90, 90, 91] = 90 ∧
    averageAfter [90, 90, 91, 91] = 90 ∧ averageAfter [90, 90, 91, 91, 91] = 90 ∧
    roundDiv (90 + 90 + 91 + 91 + 91) 5 = 91 := by
  decide

/-- C15: when `handleRecording` runs its stop branch (a stream is present and
the recording flag is set) while the displayed text is still the placeholder
or is empty, it commits no record and leaves the translation history and the
session statistics exactly as they were. -/
theorem stop_without_result (render : PageState) (clock : Clock) (outcome : RecorderOutcome)
    (p : Page) (hs : render.stream ≠ none) (hr : render.isRecording = true)
    (ht : render.translatedText = recordingPlaceholder ∨ render.translatedText = "") :
    (handleRecording render clock outcome p).2 = none ∧
    (handleRecording render clock outcome p).1.state.translationHistory =
      p.state.translationHistory ∧
    (handleRecording render clock outcome p).1.state.sessionStats = p.state.sessionStats := by
  rw [handleRecording_stop render clock outcome p hs hr,
    stopRecording_no_result render clock p ht.symm]
  exact ⟨rfl, rfl, rfl⟩

/-- C15, witness: the camera is acquired, a session is started and stopped
before any prediction has arrived. -/
theorem stop_without_result_witness :
    (handleRecording
        (run [.cameraAcquired 7, .recordButton ⟨1000, 1000, 1000⟩ .started]
          (initialPage 0)).1.state ⟨3000, 3000, 3000⟩ .started
        (run [.cameraAcquired 7, .recordButton ⟨1000, 1000, 1000⟩ .started]
          (initialPage 0)).1).2 = none ∧
    (handleRecording
        (run [.cameraAcquired 7, .recordButton ⟨1000, 1000, 1000⟩ .started]
          (initialPage 0)).1.state ⟨3000, 3000, 3000⟩ .started
        (run [.cameraAcquired 7, .recordButton ⟨1000, 1000, 1000⟩ .started]
          (initialPage 0)).1).1.state.translationHistory =
      (run [.cameraAcquired 7, .recordButton ⟨1000, 1000, 1000⟩ .started]
          (initialPage 0)).1.state.translationHistory ∧
    (handleRecording
        (run [.cameraAcquired 7, .recordButton ⟨1000, 1000, 1000⟩ .started]
          (initialPage 0)).1.state ⟨3000, 3000, 3000⟩ .started
        (run [.cameraAcquired 7, .recordButton ⟨1000, 1000, 1000⟩ .started]
          (initialPage 0)).1).1.state.sessionStats =
      (run [.cameraAcquired 7, .recordButton ⟨1000, 1000, 1000⟩ .started]
          (initialPage 0)).1.state.sessionStats :=
  stop_without_result _ ⟨3000, 3000, 3000⟩ .started _ (fun h => Option.noConfusion h) rfl
    (Or.inl rfl)

/-- C16: when `handleRecording` runs its stop branch while the displayed text
is neither empty nor the placeholder, it commits exactly one record, whose
text is the displayed label, whose confidence is the displayed confidence
and whose language is the selected language (those of the render whose
handler runs, which for a click is the current state); the record becomes the
head of the history, in front of the 9 most recent earlier records,
`totalTranslations` increases by exactly 1, the recording flag is false and
the recording timer is 0. -/
theorem stop_commits_record (render : PageState) (clock : Clock) (outcome : RecorderOutcome)
    (p : Page) (hs : render.stream ≠ none) (hr : render.isRecording = true)
    (h1 : render.translatedText ≠ "") (h2 : render.translatedText ≠ recordingPlaceholder) :
    ∃ record : TranslationRecord,
      (handleRecording render clock outcome p).2 = some record ∧
      record.text = render.translatedText ∧
      record.confidence = render.confidence ∧
      record.language = render.selectedLanguage ∧
      (handleRecording render clock outcome p).1.state.translationHistory =
        record :: p.state.translationHistory.take 9 ∧
      (handleRecording render clock outcome p).1.state.sessionStats.totalTranslations =
        p.state.sessionStats.totalTranslations + 1 ∧
      (handleRecording render clock outcome p).1.state.isRecording = false ∧
      (handleRecording render clock outcome p).1.state.recordingTime = 0 := by
  rw [handleRecording_stop render clock outcome p hs hr,
    stopRecording_result render clock p h1 h2]
  exact ⟨_, rfl, rfl, rfl, rfl, rfl, rfl, rfl, rfl⟩

/-- C16, witness: a session in which the prediction `hello` (87 %) arrived is
stopped by the button. -/
theorem stop_commits_record_witness :
    ∃ record : TranslationRecord,
      (handleRecording
          ⟨some 7, true, "hello", "", 4, 87, "ASL", [], ⟨0, 0, 0⟩, "hello", 87⟩
          ⟨5000, 5000, 5000⟩ .started
          ⟨⟨some 7, true, "hello", "", 4, 87, "ASL", [], ⟨0, 0, 0⟩, "hello", 87⟩,
            (run [.cameraAcquired 7, .recordButton ⟨1000, 1000, 1000⟩ .started]
              (initialPage 0)).1.refs⟩).2 = some record ∧
      record.text = "hello" ∧
      record.confidence = 87 ∧
      record.language = "ASL" ∧
      (handleRecording
          ⟨some 7, true, "hello", "", 4, 87, "ASL", [], ⟨0, 0, 0⟩, "hello", 87⟩
          ⟨5000, 5000, 5000⟩ .started
          ⟨⟨some 7, true, "hello", "", 4, 87, "ASL", [], ⟨0, 0, 0⟩, "hello", 87⟩,
            (run [.cameraAcquired 7, .recordButton ⟨1000, 1000, 1000⟩ .started]
              (initialPage 0)).1.refs⟩).1.state.translationHistory = record :: [] ∧
      (handleRecording
          ⟨some 7, true, "hello", "", 4, 87, "ASL", [], ⟨0, 0, 0⟩, "hello", 87⟩
          ⟨5000, 5000, 5000⟩ .started
          ⟨⟨some 7, true, "hello", "", 4, 87, "ASL", [], ⟨0, 0, 0⟩, "hello", 87⟩,
            (run [.cameraAcquired 7, .recordButton ⟨1000, 1000, 1000⟩ .started]
              (initialPage 0)).1.refs⟩).1.state.sessionStats.totalTranslations = 0 + 1 ∧
      (handleRecording
          ⟨some 7, true, "hello", "", 4, 87, "ASL", [], ⟨0, 0, 0⟩, "hello", 87⟩
          ⟨5000, 5000, 5000⟩ .started
          ⟨⟨some 7, true, "hello", "", 4, 87, "ASL", [], ⟨0, 0, 0⟩, "hello", 87⟩,
            (run [.cameraAcquired 7, .recordButton ⟨1000, 1000, 1000⟩ .started]
              (initialPage 0)).1.refs⟩).1.state.isRecording = false ∧
      (handleRecording
          ⟨some 7, true, "hello", "", 4, 87, "ASL", [], ⟨0, 0, 0⟩, "hello", 87⟩
          ⟨5000, 5000, 5000⟩ .started
          ⟨⟨some 7, true, "hello", "", 4, 87, "ASL", [], ⟨0, 0, 0⟩, "hello", 87⟩,
            (run [.cameraAcquired 7, .recordButton ⟨1000, 1000, 1000⟩ .started]
              (initialPage 0)).1.refs⟩).1.state.recordingTime = 0 :=
  stop_commits_record
    ⟨some 7, true, "hello", "", 4, 87, "ASL", [], ⟨0, 0, 0⟩, "hello", 87⟩
    ⟨5000, 5000, 5000⟩ .started
    ⟨⟨some 7, true, "hello", "", 4, 87, "ASL", [], ⟨0, 0, 0⟩, "hello", 87⟩,
      (run [.cameraAcquired 7, .recordButton ⟨1000, 1000, 1000⟩ .started]
        (initialPage 0)).1.refs⟩
    (fun h => Option.noConfusion h) rfl (by decide) (by decide)


/-- C17, evaluated: the camera is acquired and the record button starts a
session at time 1000 (recorder 0, timers 1, 2 and 3). When the 10 000 ms
timer 3 fires at time 11000 with recorder 0 still recording, its callback
runs the `handleRecording` of the render that armed it, in which
`isRecording` is false: the start branch runs again. Afterwards the recording
flag is still true, the first recorder is still recording next to a second
one, the first prediction timer 2 is still armed, and three new timers 4, 5
and 6 have been armed. A click on the record button at the same moment takes
the stop path instead. Whether or not the second recorder can be created and
started, the recording flag stays true and timer 2 stays armed. -/
theorem auto_stop_starts_again :
    (run [.cameraAcquired 7, .recordButton ⟨1000, 1000, 1000⟩ .started]
        (initialPage 0)).1.state.isRecording = true ∧
    (run [.cameraAcquired 7, .recordButton ⟨1000, 1000, 1000⟩ .started]
        (initialPage 0)).1.refs.recorders = [true] ∧
    (run [.cameraAcquired 7, .recordButton ⟨1000, 1000, 1000⟩ .started]
        (initialPage 0)).1.refs.timers.map (fun t => t.id) = [1, 2, 3] ∧
    (run [.cameraAcquired 7, .recordButton ⟨1000, 1000, 1000⟩ .started]
        (initialPage 0)).1.refs.predictionIntervalRef = some 2 ∧
    (run [.cameraAcquired 7, .recordButton ⟨1000, 1000, 1000⟩ .started,
          .timer 3 ⟨11000, 11000, 11000⟩ .started]
        (initialPage 0)).1.state.isRecording = true ∧
    (run [.cameraAcquired 7, .recordButton ⟨1000, 1000, 1000⟩ .started,
          .timer 3 ⟨11000, 11000, 11000⟩ .started]
        (initialPage 0)).1.refs.recorders = [true, true] ∧
    (run [.cameraAcquired 7, .recordButton ⟨1000, 1000, 1000⟩ .started,
          .timer 3 ⟨11000, 11000, 11000⟩ .started]
        (initialPage 0)).1.refs.timers.map (fun t => t.id) = [1, 2, 4, 5, 6] ∧
    (run [.cameraAcquired 7, .recordButton ⟨1000, 1000, 1000⟩ .started,
          .timer 3 ⟨11000, 11000, 11000⟩ .started]
        (initialPage 0)).1.refs.predictionIntervalRef = some 5 ∧
    (run [.cameraAcquired 7, .recordButton ⟨1000, 1000, 1000⟩ .started,
          .recordButton ⟨11000, 11000, 11000⟩ .started]
        (initialPage 0)).1.state.isRecording = false ∧
    (run [.cameraAcquired 7, .recordButton ⟨1000, 1000, 1000⟩ .started,
          .recordButton ⟨11000, 11000, 11000⟩ .started]
        (initialPage 0)).1.refs.timers.map (fun t => t.id) = [3] ∧
    (∀ outcome : RecorderOutcome,
      (run [.cameraAcquired 7, .recordButton ⟨1000, 1000, 1000⟩ .started,
            .timer 3 ⟨11000, 11000, 11000⟩ outcome]
          (initialPage 0)).1.state.isRecording = true ∧
      (run [.cameraAcquired 7, .recordButton ⟨1000, 1000, 1000⟩ .started,
            .timer 3 ⟨11000, 11000, 11000⟩ outcome]
          (initialPage 0)).1.refs.timers.any (fun t => t.id == 2) = true) :=
  ⟨rfl, rfl, rfl, rfl, rfl, rfl, rfl, rfl, rfl, rfl,
    fun outcome => by cases outcome <;> exact ⟨rfl, rfl⟩⟩

/-- C18: a prediction tick whose fetch or decoding fails leaves the whole page
as it was (displayed label, confidence, history, statistics, `cameraError`,
armed timers); a tick that succeeds with `{ sign, confidence }` makes the
displayed label and confidence exactly that sign and confidence and touches
neither the history, the statistics, `cameraError` nor the timers; of two
successful responses the one that resolves last is the one displayed. -/
theorem prediction_tick_settled (p : Page) (message : String) (r earlier : Prediction) :
    predictionSettled (.error message) p = p ∧
    step (.predictionSettles (.error message)) p = (p, none) ∧
    (predictionSettled (.ok r) p).state.translatedText = r.sign ∧
    (predictionSettled (.ok r) p).state.currentSign = r.sign ∧
    (predictionSettled (.ok r) p).state.confidence = r.confidence ∧
    (predictionSettled (.ok r) p).state.currentConfidence = r.confidence ∧
    (predictionSettled (.ok r) p).state.translationHistory = p.state.translationHistory ∧
    (predictionSettled (.ok r) p).state.sessionStats = p.state.sessionStats ∧
    (predictionSettled (.ok r) p).state.cameraError = p.state.cameraError ∧
    (predictionSettled (.ok r) p).refs = p.refs ∧
    (predictionSettled (.ok r) (predictionSettled (.ok earlier) p)).state.translatedText =
      r.sign ∧
    (predictionSettled (.ok r) (predictionSettled (.ok earlier) p)).state.confidence =
      r.confidence :=
  ⟨rfl, rfl, rfl, rfl, rfl, rfl, rfl, rfl, rfl, rfl, rfl, rfl⟩

/-- C19: when `handleRecording` is invoked with no stream it sets
`cameraError` to "Camera not available" and changes nothing else: the
recording flag, the displayed text, the history, the statistics and every
other state value are those of before, no recorder is created and no timer is
armed (the refs are untouched), and no record is committed. -/
theorem no_camera_no_session (render : PageState) (clock : Clock) (outcome : RecorderOutcome)
    (p : Page) (h : render.stream = none) :
    handleRecording render clock outcome p =
      (⟨{ p.state with cameraError := "Camera not available" }, p.refs⟩, none) ∧
    (handleRecording render clock outcome p).1.state.cameraError = "Camera not available" ∧
    (handleRecording render clock outcome p).1.state.isRecording = p.state.isRecording ∧
    (handleRecording render clock outcome p).1.state.translatedText =
      p.state.translatedText ∧
    (handleRecording render clock outcome p).1.state.translationHistory =
      p.state.translationHistory ∧
    (handleRecording render clock outcome p).1.state.sessionStats = p.state.sessionStats ∧
    (handleRecording render clock outcome p).1.refs = p.refs ∧
    (handleRecording render clock outcome p).1.refs.recorders = p.refs.recorders ∧
    (handleRecording render clock outcome p).1.refs.timers = p.refs.timers := by
  rw [handleRecording_no_stream render clock outcome p h]
  exact ⟨rfl, rfl, rfl, rfl, rfl, rfl, rfl, rfl, rfl⟩

/-- C19, witness: the record button on the page as first rendered, before any
camera stream has been acquired. -/
theorem no_camera_no_session_witness :
    step (.recordButton ⟨1000, 1000, 1000⟩ .started) (initialPage 0) =
      (⟨⟨none, false, "", "Camera not available", 0, 0, "ASL", [], ⟨0, 0, 0⟩, "", 0⟩,
        ⟨[], none, none, none, [], 1, 0⟩⟩, none) :=
  (no_camera_no_session (initialPage 0).state ⟨1000, 1000, 1000⟩ .started (initialPage 0)
    rfl).1

/-- C20: the session statistics change only when a record is committed and
are never reset. An event that commits no record (among them `clearHistory`,
the start of a session, a prediction tick and a stop without a result) leaves
`sessionStats` unchanged, and an event that commits one increases
`totalTranslations` by exactly 1; so over every sequence of events
`totalTranslations` is non-decreasing and equals its initial value plus the
number of records committed, which from the initial page is the number of
records ever committed. It may exceed the history length: after one commit
and a clear the history is empty and `totalTranslations` is 1. -/
theorem stats_only_by_commit (es : List Event) (p : Page) :
    (∀ e q, (step e q).2 = none → (step e q).1.state.sessionStats = q.state.sessionStats) ∧
    (∀ e q r, (step e q).2 = some r →
      (step e q).1.state.sessionStats.totalTranslations =
        q.state.sessionStats.totalTranslations + 1) ∧
    (clearHistory p).state.sessionStats = p.state.sessionStats ∧
    (∀ render outcome, (startRecording render outcome p).state.sessionStats =
      p.state.sessionStats) ∧
    (∀ result, (predictionSettled result p).state.sessionStats = p.state.sessionStats) ∧
    (∀ render clock, render.translatedText = "" ∨ render.translatedText = recordingPlaceholder →
      (stopRecording render clock p).1.state.sessionStats = p.state.sessionStats) ∧
    (run es p).1.state.sessionStats.totalTranslations =
      p.state.sessionStats.totalTranslations + (run es p).2.length ∧
    (∀ sessionStart, (run es (initialPage sessionStart)).1.state.sessionStats.totalTranslations =
      (run es (initialPage sessionStart)).2.length) ∧
    (∀ later, (run es p).1.state.sessionStats.totalTranslations ≤
      (run (es ++ later) p).1.state.sessionStats.totalTranslations) ∧
    ((run [.cameraAcquired 7, .recordButton ⟨1000, 1000, 1000⟩ .started,
          .predictionSettles (.ok ⟨"hello", 87⟩), .recordButton ⟨5000, 5000, 5000⟩ .started,
          .clearHistoryButton] (initialPage 0)).1.state.translationHistory.length = 0 ∧
      (run [.cameraAcquired 7, .recordButton ⟨1000, 1000, 1000⟩ .started,
          .predictionSettles (.ok ⟨"hello", 87⟩), .recordButton ⟨5000, 5000, 5000⟩ .started,
          .clearHistoryButton] (initialPage 0)).1.state.sessionStats.totalTranslations = 1) := by
  refine ⟨?_, ?_, rfl, ?_, ?_, ?_, run_total es p, ?_, ?_, ?_⟩
  · intro e q h
    rcases step_commit e q with ⟨_, _, h3⟩ | ⟨r, c, n, h1, _, _⟩
    · exact h3
    · rw [h1] at h
      cases h
  · intro e q r h
    rcases step_commit e q with ⟨h1, _, _⟩ | ⟨r', c, n, _, _, h3⟩
    · rw [h1] at h
      cases h
    · rw [h3]
      rfl
  · intro render outcome
    exact (startRecording_frame render outcome p).2
  · intro result
    cases result <;> rfl
  · intro render clock h
    rw [stopRecording_no_result render clock p h]
  · intro sessionStart
    rw [run_total es (initialPage sessionStart)]
    exact Nat.zero_add _
  · intro later
    rw [run_append es later p, run_total later (run es p).1]
    exact Nat.le_add_right _ _
  · exact ⟨by decide, by decide⟩

/-- C20, witness: `clearHistory` after a commit commits nothing and leaves
the statistics of one translation with average 87 as they were. -/
theorem stats_only_by_commit_witness :
    (step .clearHistoryButton
      ⟨⟨some 7, false, "hello", "", 0, 87, "ASL", [⟨"5000", "hello", 87, 5000, "ASL"⟩],
        ⟨1, 87, 5⟩, "hello", 87⟩, (initialPage 0).refs⟩).1.state.sessionStats =
      ⟨1, 87, 5⟩ :=
  (stats_only_by_commit []
    ⟨⟨some 7, false, "hello", "", 0, 87, "ASL", [⟨"5000", "hello", 87, 5000, "ASL"⟩],
      ⟨1, 87, 5⟩, "hello", 87⟩, (initialPage 0).refs⟩).1 .clearHistoryButton
    ⟨⟨some 7, false, "hello", "", 0, 87, "ASL", [⟨"5000", "hello", 87, 5000, "ASL"⟩],
      ⟨1, 87, 5⟩, "hello", 87⟩, (initialPage 0).refs⟩ rfl


/-! ## Auxiliary lemmas: the order of the relay's checks -/

theorem messageMissing_false {message : Option Json}
    (h : messageMissing message = .ok false) :
    ∃ s, message = some (.str s) ∧ validMessage s := by
  cases message with
  | none => cases h
  | some m =>
    cases m with
    | str s =>
      rw [messageMissing_str] at h
      have hw : whitespaceOnly s = false := by
        cases hws : whitespaceOnly s with
        | false => rfl
        | true => rw [hws] at h; cases h
      refine ⟨s, rfl, ?_, hw⟩
      intro hs
      subst hs
      cases hw
    | null => cases h
    | bool b => cases b <;> cases h
    | num n =>
      unfold messageMissing at h
      cases hz : truthy (some (Json.num n)) with
      | false => rw [hz] at h; cases h
      | true => rw [hz] at h; cases h
    | arr items => cases h
    | obj members => cases h

theorem internal_error_ne_key_missing (e : String) :
    "Internal server error: " ++ e ≠ "API key not configured" := by
  intro h
  have hd := congrArg String.data h
  rw [String.data_append] at hd
  cases hd

/-! ## The relay: the order of its checks -/

/-- C28 (amended): validation of the message precedes the credential check.
For every request whose parsed JSON body is not the literal `null` and whose
message is absent, the empty string or white space only, the handler answers
400 `Message is required` whatever the credential, so also when it is absent;
and whenever the handler answers 500 `API key not configured`, the message of
the request is a non-empty string that is not white space only. -/
theorem validation_before_credential (key : Option String) (reqJson : Except String Json)
    (fetch : FetchRequest → Except String UpstreamResponse) :
    (∀ body, reqJson = .ok body → body ≠ .null →
      (body.getProp "message" = none ∨
        ∃ s, body.getProp "message" = some (.str s) ∧ (s = "" ∨ whitespaceOnly s = true)) →
      POST key reqJson fetch =
        (.ok ⟨400, .obj [("error", .str "Message is required")]⟩, [])) ∧
    ((POST key reqJson fetch).1 = .ok ⟨500, .obj [("error", .str "API key not configured")]⟩ →
      ∃ body s, reqJson = .ok body ∧ body.getProp "message" = some (.str s) ∧
        validMessage s) := by
  constructor
  · intro body hreq hbody hmsg
    subst hreq
    have hm : messageMissing (body.getProp "message") = .ok true := by
      rcases hmsg with h | ⟨s, h, hs⟩
      · rw [h]; rfl
      · rw [h, messageMissing_str]
        rcases hs with hs | hs
        · subst hs; rfl
        · rw [hs]
    unfold POST tryBlock
    simp only [destructureMessage_of_ne_null body hbody, hm]
    rfl
  · intro h
    have hne : ∀ e : String,
        (NextResponse.json (errorBody ("Internal server error: " ++ e)) 500 :
          Except String Response) ≠
          .ok ⟨500, .obj [("error", .str "API key not configured")]⟩ := by
      intro e he
      rw [errorBody_eq, json_500] at he
      injection he with he
      injection he with _ he
      injection he with he
      injection he with he _
      injection he with _ he
      injection he with he
      exact internal_error_ne_key_missing e he
    cases reqJson with
    | error e => exact absurd h (hne e)
    | ok body =>
      cases hd : destructureMessage body with
      | error e =>
        have ht : tryBlock key (.ok body) fetch = (.error e, []) := by
          simp only [tryBlock, hd]
        rw [POST_of_throw key (.ok body) fetch e [] ht] at h
        exact absurd h (by
          have := hne e
          rwa [errorBody_eq, json_500] at this)
      | ok message =>
        have hmsg := destructureMessage_ok hd
        rw [POST_fst, tryBlock_of_message key body message fetch hd] at h
        cases hmm : messageMissing message with
        | error e =>
          rw [hmm] at h
          exact absurd h (hne e)
        | ok missing =>
          cases missing with
          | true =>
            rw [hmm] at h
            cases h
          | false =>
            obtain ⟨s, hs, hv⟩ := messageMissing_false hmm
            exact ⟨body, s, rfl, by rw [← hmsg, hs], hv⟩

/-- C28, witness: an empty message with no credential configured. -/
theorem validation_before_credential_witness :
    POST none (.ok (.obj [("message", .str "")])) (fun _ => .error "offline") =
      (.ok ⟨400, .obj [("error", .str "Message is required")]⟩, []) :=
  (validation_before_credential none (.ok (.obj [("message", .str "")]))
    (fun _ => .error "offline")).1 (.obj [("message", .str "")]) rfl
    (fun h => Json.noConfusion h) (Or.inr ⟨"", rfl, Or.inl rfl⟩)

/-- C28, counterexample to the claim as stated: the body `null` is valid JSON
and has no message; with no credential configured the handler answers
neither 400 nor `API key not configured`, since destructuring `null` throws
and the `catch` clause answers 500. -/
theorem null_body_no_key_500 :
    Json.null.getProp "message" = none ∧
    POST none (.ok .null) (fun _ => .error "offline") =
      (.ok ⟨500, .obj [("error", .str
        "Internal server error: Cannot destructure property \x27message\x27 of \x27(intermediate value)\x27 as it is null.")]⟩,
        []) :=
  ⟨rfl, rfl⟩

/-- C29 (amended): an error reported by the upstream takes precedence over a
completion. For every valid message with a credential present and every OK
upstream payload whose `error` member is truthy, whatever its `choices`, the
handler answers 500, with the body `{ error: "API error: ..." }` or, when
the string conversion of the error's `message` throws, with the body
`{ error: "Internal server error: ..." }`; it never answers 200 with a
reply. -/
theorem error_precedes_completion (key : Option String) (body : Json) (s k : String)
    (fetch : FetchRequest → Except String UpstreamResponse) (up : UpstreamResponse)
    (data e : Json)
    (hmsg : body.getProp "message" = some (.str s)) (hs : validMessage s)
    (hkey : key = some k) (hk : k ≠ "")
    (hfetch : fetch (groqRequest k (some (.str s))) = .ok up)
    (hok : up.ok = true) (hjson : up.json = .ok data)
    (herr : data.getProp "error" = some e) (he : e.truthy = true) :
    ∃ r, (POST key (.ok body) fetch).1 = .ok r ∧ r.status = 500 ∧
      ((∃ m, errorMessageText (some e) = .ok m ∧
          r.body = .obj [("error", .str ("API error: " ++ m))]) ∨
        (∃ thrown, errorMessageText (some e) = .error thrown ∧
          r.body = .obj [("error", .str ("Internal server error: " ++ thrown))])) ∧
      ∀ reply, r ≠ ⟨200, .obj [("reply", reply)]⟩ := by
  rw [POST_upstream_error key body s k fetch up data e hmsg hs hkey hk hfetch hok hjson herr he]
  cases hem : errorMessageText (some e) with
  | ok m =>
    exact ⟨_, rfl, rfl, Or.inl ⟨m, rfl, rfl⟩, fun reply h => by injection h with h1 _; cases h1⟩
  | error thrown =>
    exact ⟨_, rfl, rfl, Or.inr ⟨thrown, rfl, rfl⟩,
      fun reply h => by injection h with h1 _; cases h1⟩

/-- C29, witness: a payload with both an error and a completion. -/
theorem error_precedes_completion_witness :
    ∃ r, (POST (some "gsk_key") (.ok (.obj [("message", .str "hello")]))
        (fun _ => .ok ⟨200, "OK", .error "body used", .ok (.obj [
          ("error", .obj [("message", .str "Rate limit reached")]),
          ("choices", .arr [.obj [("message", .obj [("content", .str "hi there")])]])])⟩)).1 =
        .ok r ∧ r.status = 500 ∧
      ((∃ m, errorMessageText (some (.obj [("message", .str "Rate limit reached")])) = .ok m ∧
          r.body = .obj [("error", .str ("API error: " ++ m))]) ∨
        (∃ thrown,
          errorMessageText (some (.obj [("message", .str "Rate limit reached")])) =
            .error thrown ∧
          r.body = .obj [("error", .str ("Internal server error: " ++ thrown))])) ∧
      ∀ reply, r ≠ ⟨200, .obj [("reply", reply)]⟩ :=
  error_precedes_completion (some "gsk_key") (.obj [("message", .str "hello")]) "hello"
    "gsk_key" _ ⟨200, "OK", .error "body used", .ok (.obj [
          ("error", .obj [("message", .str "Rate limit reached")]),
          ("choices", .arr [.obj [("message", .obj [("content", .str "hi there")])]])])⟩
    _ (.obj [("message", .str "Rate limit reached")]) rfl ⟨by decide, rfl⟩ rfl (by decide)
    rfl rfl rfl rfl rfl

/-- C29, counterexample to the claim as stated: an OK payload that carries both
an `error` member, here `false`, and a non-empty completion is answered 200
with the reply, because line 41 tests the member for truthiness. -/
theorem falsy_error_completion_relayed :
    (Json.obj [("error", .bool false), ("choices", .arr [
        .obj [("message", .obj [("content", .str "hi there")])]])]).getProp "error"
      = some (.bool false) ∧
    (POST (some "gsk_key") (.ok (.obj [("message", .str "hello")]))
        (fun _ => .ok ⟨200, "OK", .error "body used", .ok (.obj [("error", .bool false),
          ("choices", .arr [.obj [("message", .obj [("content", .str "hi there")])]])])⟩)).1 =
      .ok ⟨200, .obj [("reply", .str "hi there")]⟩ :=
  ⟨rfl, rfl⟩

/-! ## Auxiliary lemmas: the session average -/

theorem roundHalfEven_ge (a b L : Nat) (hb : 0 < b) (h : L * b ≤ a) :
    L ≤ roundHalfEven a b := by
  have hdiv : L ≤ a / b := (Nat.le_div_iff_mul_le hb).mpr h
  unfold roundHalfEven
  split_ifs <;> omega

theorem roundHalfEven_le (a b U : Nat) (hb : 0 < b) (h : a ≤ U * b) :
    roundHalfEven a b ≤ U := by
  have hdiv : a / b ≤ U := Nat.div_le_of_le_mul (by rw [Nat.mul_comm]; exact h)
  have hmod : b * (a / b) + a % b = a := Nat.div_add_mod a b
  unfold roundHalfEven
  split_ifs with hc
  · rcases Nat.lt_or_ge (a / b) U with hlt | hge
    · omega
    · have heq : a / b = U := Nat.le_antisymm hdiv hge
      rw [heq, Nat.mul_comm] at hmod
      omega
  · exact hdiv

/-- The rounding step of `roundDiv` below 2^53 keeps the result between two
integers that bound the quotient, whatever the number `k` of binary digits
kept after the point. -/
theorem scaled_round_range (lo hi p q k : Nat) (hq : 0 < q) (hlo : lo * q ≤ p)
    (hhi : p ≤ hi * q) :
    lo ≤ (2 * roundHalfEven (p * 2 ^ k) q + 2 ^ k) / 2 ^ (k + 1) ∧
    (2 * roundHalfEven (p * 2 ^ k) q + 2 ^ k) / 2 ^ (k + 1) ≤ hi := by
  have hpow : 0 < 2 ^ k := Nat.two_pow_pos _
  have h1 : lo * 2 ^ k ≤ roundHalfEven (p * 2 ^ k) q := by
    apply roundHalfEven_ge _ _ _ hq
    calc lo * 2 ^ k * q = lo * q * 2 ^ k := by ring
      _ ≤ p * 2 ^ k := Nat.mul_le_mul_right _ hlo
  have h2 : roundHalfEven (p * 2 ^ k) q ≤ hi * 2 ^ k := by
    apply roundHalfEven_le _ _ _ hq
    calc p * 2 ^ k ≤ hi * q * 2 ^ k := Nat.mul_le_mul_right _ hhi
      _ = hi * 2 ^ k * q := by ring
  have hd : 2 ^ (k + 1) = 2 * 2 ^ k := by rw [Nat.pow_succ, Nat.mul_comm]
  have hdpos : 0 < 2 ^ (k + 1) := Nat.two_pow_pos _
  constructor
  · rw [Nat.le_div_iff_mul_le hdpos, hd]
    have e1 : lo * (2 * 2 ^ k) = 2 * (lo * 2 ^ k) := by ring
    omega
  · have hlt : (2 * roundHalfEven (p * 2 ^ k) q + 2 ^ k) / 2 ^ (k + 1) < hi + 1 := by
      rw [Nat.div_lt_iff_lt_mul hdpos, hd]
      have e2 : (hi + 1) * (2 * 2 ^ k) = 2 * (hi * 2 ^ k) + 2 * 2 ^ k := by ring
      omega
    omega

/-- Below 2^53 the double division and `Math.round` keep the result between
two integers that bound the exact quotient. -/
theorem roundDiv_range (lo hi p q : Nat) (hq : 0 < q) (hp : p < 2 ^ 53)
    (hlo : lo * q ≤ p) (hhi : p ≤ hi * q) :
    lo ≤ roundDiv p q ∧ roundDiv p q ≤ hi := by
  by_cases h4 : 4 * p < q
  · simp only [roundDiv, h4, if_true]
    refine ⟨?_, Nat.zero_le _⟩
    rcases Nat.eq_zero_or_pos lo with h0 | hpos
    · omega
    · have : q ≤ lo * q := Nat.le_mul_of_pos_left q hpos
      omega
  · have hsmall : p / q < 2 ^ 53 := Nat.lt_of_le_of_lt (Nat.div_le_self p q) hp
    simp only [roundDiv, h4, hsmall, if_true, if_false]
    exact scaled_round_range lo hi p q _ hq hlo hhi

theorem toDouble_exact (n : Nat) (h : n < 2 ^ 53) : toDouble n = .finite n := by
  unfold toDouble
  rw [if_pos h]

/-- One update of the statistics in the range where the arithmetic is
exact. -/
theorem updateStats_range (lo hi a c statsNow start : Nat) (prev : SessionStats)
    (ha : prev.averageConfidence = .finite a)
    (hprev : prev.totalTranslations = 0 ∨ (lo ≤ a ∧ a ≤ hi))
    (hlo : lo ≤ c) (hhi : c ≤ hi)
    (hexact : (hi + 1) * (prev.totalTranslations + 1) < 2 ^ 53) :
    ∃ r, (updateStats c statsNow start prev).averageConfidence = .finite r ∧
      lo ≤ r ∧ r ≤ hi := by
  have e0 : (hi + 1) * (prev.totalTranslations + 1) =
      hi * prev.totalTranslations + hi + prev.totalTranslations + 1 := by ring
  have hprod : a * prev.totalTranslations ≤ hi * prev.totalTranslations := by
    rcases hprev with h0 | ⟨_, h2⟩
    · rw [h0]
      simp
    · exact Nat.mul_le_mul_right _ h2
  have hlow : lo * (prev.totalTranslations + 1) ≤ a * prev.totalTranslations + c := by
    rcases hprev with h0 | ⟨h1, _⟩
    · rw [h0]
      simpa using hlo
    · have := Nat.mul_le_mul_right prev.totalTranslations h1
      have e1 : lo * (prev.totalTranslations + 1) = lo * prev.totalTranslations + lo := by ring
      omega
  have hhigh : a * prev.totalTranslations + c ≤ hi * (prev.totalTranslations + 1) := by
    have e1 : hi * (prev.totalTranslations + 1) = hi * prev.totalTranslations + hi := by ring
    omega
  have hn : toDouble prev.totalTranslations = .finite prev.totalTranslations :=
    toDouble_exact _ (by omega)
  have hn1 : toDouble (prev.totalTranslations + 1) = .finite (prev.totalTranslations + 1) :=
    toDouble_exact _ (by omega)
  have hc : toDouble c = .finite c := toDouble_exact _ (by omega)
  have hmul : toDouble (a * prev.totalTranslations) = .finite (a * prev.totalTranslations) :=
    toDouble_exact _ (by omega)
  have hsum : toDouble (a * prev.totalTranslations + c) =
      .finite (a * prev.totalTranslations + c) := toDouble_exact _ (by omega)
  have havg : (updateStats c statsNow start prev).averageConfidence =
      .finite (roundDiv (a * prev.totalTranslations + c) (prev.totalTranslations + 1)) := by
    show roundedQuotient
      ((prev.averageConfidence.times (toDouble prev.totalTranslations)).plus (toDouble c))
      (toDouble (prev.totalTranslations + 1)) = _
    rw [ha, hn, hn1, hc]
    show roundedQuotient ((toDouble (a * prev.totalTranslations)).plus (.finite c)) _ = _
    rw [hmul]
    show roundedQuotient (toDouble (a * prev.totalTranslations + c)) _ = _
    rw [hsum]
    have hne : prev.totalTranslations + 1 ≠ 0 := Nat.succ_ne_zero _
    simp only [roundedQuotient, hne, if_false]
  obtain ⟨r1, r2⟩ := roundDiv_range lo hi (a * prev.totalTranslations + c)
    (prev.totalTranslations + 1) (Nat.succ_pos _) (by omega) hlow hhigh
  exact ⟨_, havg, r1, r2⟩

/-- The record a handler commits carries the confidence that enters the
statistics. -/
theorem handleRecording_commit_confidence (render : PageState) (clock : Clock)
    (outcome : RecorderOutcome) (p : Page) (r : TranslationRecord)
    (h : (handleRecording render clock outcome p).2 = some r) :
    (handleRecording render clock outcome p).1.state.sessionStats =
      updateStats r.confidence clock.statsNow p.refs.sessionStart p.state.sessionStats := by
  by_cases hs : render.stream = none
  · rw [handleRecording_no_stream render clock outcome p hs] at h
    cases h
  · cases hr : render.isRecording with
    | false =>
      rw [handleRecording_start render clock outcome p hs hr] at h
      cases h
    | true =>
      rw [handleRecording_stop render clock outcome p hs hr] at h ⊢
      by_cases h1 : render.translatedText = ""
      · rw [stopRecording_no_result render clock p (Or.inl h1)] at h
        cases h
      · by_cases h2 : render.translatedText = recordingPlaceholder
        · rw [stopRecording_no_result render clock p (Or.inr h2)] at h
          cases h
        · rw [stopRecording_result render clock p h1 h2] at h ⊢
          cases h
          rfl

theorem step_commit_confidence (e : Event) (p : Page) (r : TranslationRecord)
    (h : (step e p).2 = some r) :
    ∃ statsNow, (step e p).1.state.sessionStats =
      updateStats r.confidence statsNow p.refs.sessionStart p.state.sessionStats := by
  cases e with
  | recordButton clock outcome =>
    exact ⟨_, handleRecording_commit_confidence p.state clock outcome p r h⟩
  | clearHistoryButton => cases h
  | predictionSettles result => cases h
  | languageSelected language => cases h
  | cameraAcquired stream => cases h
  | cameraFailed => cases h
  | videoQualityUpdated stream => cases stream <;> cases h
  | timer id clock outcome =>
    simp only [step, timerFires] at h ⊢
    cases hf : p.refs.timers.find? (fun t => t.id == id) with
    | none =>
      rw [hf] at h
      cases h
    | some t =>
      rw [hf] at h
      obtain ⟨tid, kind⟩ := t
      cases kind with
      | recordingInterval => cases h
      | predictionInterval => cases h
      | autoStop mediaRecorder render =>
        dsimp only at h ⊢
        cases hrec : isRecorderRecording p.refs.recorders mediaRecorder with
        | false =>
          rw [hrec] at h
          cases h
        | true =>
          rw [hrec] at h
          exact ⟨_, handleRecording_commit_confidence render clock outcome
            ⟨p.state, { p.refs with timers := clearTimer id p.refs.timers }⟩ r h⟩

theorem step_no_commit (e : Event) (p : Page) (h : (step e p).2 = none) :
    (step e p).1.state.sessionStats = p.state.sessionStats := by
  rcases step_commit e p with ⟨_, _, h3⟩ | ⟨r, c, n, h1, _, _⟩
  · exact h3
  · rw [h1] at h
    cases h

theorem run_no_commit (es : List Event) :
    ∀ p : Page, (run es p).2 = [] →
      (run es p).1.state.sessionStats = p.state.sessionStats := by
  induction es with
  | nil => intro p _; rfl
  | cons e es ih =>
    intro p h
    rw [run_cons] at h ⊢
    have h1 : (step e p).2.toList = [] := (List.append_eq_nil.mp h).1
    have h2 : (run es (step e p).1).2 = [] := (List.append_eq_nil.mp h).2
    have h3 : (step e p).2 = none := by
      cases hc : (step e p).2 with
      | none => rfl
      | some r => rw [hc] at h1; cases h1
    show (run es (step e p).1).1.state.sessionStats = _
    rw [ih _ h2, step_no_commit e p h3]

theorem run_average_range (lo hi : Nat) (es : List Event) :
    ∀ p : Page,
      (∃ a, p.state.sessionStats.averageConfidence = .finite a ∧
        (p.state.sessionStats.totalTranslations = 0 ∨ (lo ≤ a ∧ a ≤ hi))) →
      (∀ r ∈ (run es p).2, lo ≤ r.confidence ∧ r.confidence ≤ hi) →
      (hi + 1) * (p.state.sessionStats.totalTranslations + (run es p).2.length) < 2 ^ 53 →
      ∃ a, (run es p).1.state.sessionStats.averageConfidence = .finite a ∧
        ((run es p).1.state.sessionStats.totalTranslations = 0 ∨ (lo ≤ a ∧ a ≤ hi)) := by
  induction es with
  | nil => intro p h _ _; exact h
  | cons e es ih =>
    intro p hp hall hexact
    rw [run_cons] at hall hexact ⊢
    cases hc : (step e p).2 with
    | none =>
      rw [hc] at hexact
      apply ih (step e p).1
      · rw [step_no_commit e p hc]
        exact hp
      · intro r hr
        exact hall r (List.mem_append_right _ hr)
      · rw [step_no_commit e p hc]
        simpa using hexact
    | some r =>
      rw [hc] at hexact
      obtain ⟨statsNow, hst⟩ := step_commit_confidence e p r hc
      obtain ⟨a, ha, hrange⟩ := hp
      have hr := hall r (by rw [hc]; simp)
      have hlen : (Option.toList (some r) ++ (run es (step e p).1).2).length =
          (run es (step e p).1).2.length + 1 := by simp
      rw [hlen] at hexact
      have hmono : (hi + 1) * (p.state.sessionStats.totalTranslations + 1) ≤
          (hi + 1) * (p.state.sessionStats.totalTranslations +
            ((run es (step e p).1).2.length + 1)) :=
        Nat.mul_le_mul_left _ (by omega)
      obtain ⟨r1, hr1, hb1, hb2⟩ := updateStats_range lo hi a r.confidence statsNow
        p.refs.sessionStart p.state.sessionStats ha hrange hr.1 hr.2 (by omega)
      apply ih (step e p).1
      · rw [hst]
        exact ⟨r1, hr1, Or.inr ⟨hb1, hb2⟩⟩
      · intro r2 hr2
        exact hall r2 (List.mem_append_right _ hr2)
      · rw [hst]
        show (hi + 1) * (p.state.sessionStats.totalTranslations + 1 +
          (run es (step e p).1).2.length) < 2 ^ 53
        have e1 : p.state.sessionStats.totalTranslations + 1 +
            (run es (step e p).1).2.length =
            p.state.sessionStats.totalTranslations +
              ((run es (step e p).1).2.length + 1) := by omega
        rw [e1]
        exact hexact

theorem run_first_commit (es : List Event) :
    ∀ (p : Page) (a : Nat) (r : TranslationRecord),
      p.state.sessionStats.averageConfidence = .finite a →
      p.state.sessionStats.totalTranslations = 0 →
      r.confidence + 1 < 2 ^ 53 →
      (run es p).2 = [r] →
      (run es p).1.state.sessionStats.averageConfidence = .finite r.confidence := by
  induction es with
  | nil => intro p a r _ _ _ h; cases h
  | cons e es ih =>
    intro p a r ha hp hsmall h
    rw [run_cons] at h ⊢
    cases hc : (step e p).2 with
    | none =>
      rw [hc] at h
      exact ih (step e p).1 a r (by rw [step_no_commit e p hc]; exact ha)
        (by rw [step_no_commit e p hc]; exact hp) hsmall h
    | some r1 =>
      rw [hc] at h
      have hr1 : r1 = r := by
        have := List.cons.inj (show r1 :: (run es (step e p).1).2 = r :: [] from h)
        exact this.1
      have hrest : (run es (step e p).1).2 = [] := by
        have := List.cons.inj (show r1 :: (run es (step e p).1).2 = r :: [] from h)
        exact this.2
      subst hr1
      obtain ⟨statsNow, hst⟩ := step_commit_confidence e p r1 hc
      show (run es (step e p).1).1.state.sessionStats.averageConfidence = _
      rw [run_no_commit es _ hrest, hst]
      obtain ⟨x, hx, hx1, hx2⟩ := updateStats_range r1.confidence r1.confidence a
        r1.confidence statsNow p.refs.sessionStart p.state.sessionStats ha (Or.inl hp)
        (Nat.le_refl _) (Nat.le_refl _) (by rw [hp]; omega)
      rw [hx, Nat.le_antisymm hx2 hx1]

/-! ## The sign-language page: the range of the session average -/

/-- C30 (amended): as long as the double arithmetic of lines 124-126 is exact,
the session average stays within the range of the recorded confidences. One
update with a confidence in lo..hi, from statistics whose average is a
finite number and which count no translation yet or have their average in
lo..hi, gives an average in lo..hi, provided (hi + 1) times the new count is
below 2^53; the first update gives the confidence itself. So on the page,
after any sequence of events from the initial page in which every committed
confidence is in lo..hi, at least one record was committed and (hi + 1)
times the number of commits is below 2^53 (for percentages 0..100: fewer
than 2^53 / 101 commits), the average confidence is an integer in lo..hi,
and after exactly one commit of a confidence below 2^53 - 1 it is that
confidence. -/
theorem average_within_range (lo hi : Nat) (es : List Event) (sessionStart : Nat) :
    (∀ (prev : SessionStats) (a c statsNow start : Nat),
      prev.averageConfidence = .finite a → lo ≤ c → c ≤ hi →
      (prev.totalTranslations = 0 ∨ (lo ≤ a ∧ a ≤ hi)) →
      (hi + 1) * (prev.totalTranslations + 1) < 2 ^ 53 →
      ∃ r, (updateStats c statsNow start prev).averageConfidence = .finite r ∧
        lo ≤ r ∧ r ≤ hi) ∧
    (∀ (prev : SessionStats) (a c statsNow start : Nat),
      prev.averageConfidence = .finite a → prev.totalTranslations = 0 → c + 1 < 2 ^ 53 →
      (updateStats c statsNow start prev).averageConfidence = .finite c) ∧
    ((∀ r ∈ (run es (initialPage sessionStart)).2, lo ≤ r.confidence ∧ r.confidence ≤ hi) →
      (run es (initialPage sessionStart)).2 ≠ [] →
      (hi + 1) * (run es (initialPage sessionStart)).2.length < 2 ^ 53 →
      ∃ a, (run es (initialPage sessionStart)).1.state.sessionStats.averageConfidence =
          .finite a ∧ lo ≤ a ∧ a ≤ hi) ∧
    (∀ r, (run es (initialPage sessionStart)).2 = [r] → r.confidence + 1 < 2 ^ 53 →
      (run es (initialPage sessionStart)).1.state.sessionStats.averageConfidence =
        .finite r.confidence) := by
  refine ⟨?_, ?_, ?_, ?_⟩
  · intro prev a c statsNow start ha h1 h2 hp hexact
    exact updateStats_range lo hi a c statsNow start prev ha hp h1 h2 hexact
  · intro prev a c statsNow start ha hp hsmall
    obtain ⟨x, hx, hx1, hx2⟩ := updateStats_range c c a c statsNow start prev ha (Or.inl hp)
      (Nat.le_refl _) (Nat.le_refl _) (by rw [hp]; omega)
    rw [hx, Nat.le_antisymm hx2 hx1]
  · intro hall hne hexact
    obtain ⟨a, ha, hrange⟩ := run_average_range lo hi es (initialPage sessionStart)
      ⟨0, rfl, Or.inl rfl⟩ hall (by
        show (hi + 1) * (0 + (run es (initialPage sessionStart)).2.length) < 2 ^ 53
        rw [Nat.zero_add]
        exact hexact)
    rcases hrange with h | h
    · exfalso
      rw [run_total es (initialPage sessionStart)] at h
      have hlen : (run es (initialPage sessionStart)).2.length = 0 := by
        have h0 : (initialPage sessionStart).state.sessionStats.totalTranslations = 0 := rfl
        omega
      exact hne (List.length_eq_zero.mp hlen)
    · exact ⟨a, ha, h⟩
  · intro r h hsmall
    exact run_first_commit es (initialPage sessionStart) 0 r rfl rfl hsmall h

/-- C30, witness: one session with the result `hello` at 87 %, with the range
0..100. -/
theorem average_within_range_witness :
    ∃ a, (run [.cameraAcquired 7, .recordButton ⟨1000, 1000, 1000⟩ .started,
          .predictionSettles (.ok ⟨"hello", 87⟩), .recordButton ⟨5000, 5000, 5000⟩ .started]
        (initialPage 0)).1.state.sessionStats.averageConfidence = .finite a ∧
      0 ≤ a ∧ a ≤ 100 :=
  (average_within_range 0 100
    [.cameraAcquired 7, .recordButton ⟨1000, 1000, 1000⟩ .started,
      .predictionSettles (.ok ⟨"hello", 87⟩), .recordButton ⟨5000, 5000, 5000⟩ .started]
    0).2.2.1
    (by decide) (fun h => absurd (congrArg List.length h) (by decide)) (by decide)

/-- C30, counterexample to the claim as stated: three commits of the confidence
13510798882111492, an integer that is a double, leave the average at
13510798882111494 after the third, outside the range of the recorded
confidences. The sum of line 125, three times the confidence, is not a
double and is rounded before the division. -/
theorem average_leaves_range :
    averageAfter [13510798882111492] = 13510798882111492 ∧
    averageAfter [13510798882111492, 13510798882111492] = 13510798882111492 ∧
    averageAfter [13510798882111492, 13510798882111492, 13510798882111492] =
      13510798882111494 := by
  decide!

/-! ## Auxiliary lemmas: the voice-mode page -/

theorem speakText_frame (render : VoiceState) (text : Option Json) (p : VoicePage) :
    (speakText render text p).1.state = p.state ∧
    (speakText render text p).1.refs.recognitionRef = p.refs.recognitionRef ∧
    (speakText render text p).1.refs.synthRef = p.refs.synthRef ∧
    (speakText render text p).1.refs.firstRender = p.refs.firstRender ∧
    (speakText render text p).1.refs.pending = p.refs.pending := by
  unfold speakText
  split
  · exact ⟨rfl, rfl, rfl, rfl, rfl⟩
  · cases utteranceText text <;> exact ⟨rfl, rfl, rfl, rfl, rfl⟩

theorem speakText_spoken (render : VoiceState) (v : Json) (text : String) (p : VoicePage)
    (hs : p.refs.synthRef = true) (hr : render.speechSupported = true)
    (ht : v.toStr = .ok text) :
    speakText render (some v) p =
      (⟨p.state, { p.refs with
          calls := p.refs.calls ++ [.synthCancel,
            .synthSpeak ⟨text, render.voiceSettings.rate, render.voiceSettings.pitch,
              render.voiceSettings.volume, render.voiceSettings.voice⟩] }⟩, none) := by
  simp only [speakText, hs, hr, utteranceText, ht, Bool.not_true, Bool.or_self,
    Bool.false_eq_true, if_false]

theorem handleVoiceInputSettled_not_ok (render : VoiceState) (response : UpstreamResponse)
    (clock : MessageClock) (p : VoicePage) (hok : response.ok = false) :
    handleVoiceInputSettled render (.ok response) clock p = relayFailed p := by
  simp only [handleVoiceInputSettled, hok, Bool.not_false, if_true]

theorem handleVoiceInputSettled_undecodable (render : VoiceState)
    (response : UpstreamResponse) (thrown : String) (clock : MessageClock) (p : VoicePage)
    (hok : response.ok = true) (hjson : response.json = .error thrown) :
    handleVoiceInputSettled render (.ok response) clock p = relayFailed p := by
  simp only [handleVoiceInputSettled, hok, hjson, Bool.not_true, Bool.false_eq_true, if_false]

theorem handleVoiceInputSettled_decoded (render : VoiceState) (response : UpstreamResponse)
    (data : Json) (clock : MessageClock) (p : VoicePage)
    (hok : response.ok = true) (hjson : response.json = .ok data) :
    handleVoiceInputSettled render (.ok response) clock p =
      match readProp (some data) "response" with
      | .error _ => relayFailed p
      | .ok content =>
        match speakText render content
            ⟨{ p.state with
                messages := p.state.messages ++
                  [⟨clock.idNow + 1, "assistant", content, clock.timestamp⟩]
                isProcessing := false }, p.refs⟩ with
        | (spoken, none) => spoken
        | (cancelled, some _) => relayFailed cancelled := by
  simp only [handleVoiceInputSettled, hok, hjson, Bool.not_true, Bool.false_eq_true, if_false]

theorem handleVoiceInputSettled_ok (render : VoiceState) (response : UpstreamResponse)
    (data r : Json) (clock : MessageClock) (p : VoicePage)
    (hok : response.ok = true) (hjson : response.json = .ok data)
    (hr : data.getProp "response" = some r) :
    handleVoiceInputSettled render (.ok response) clock p =
      match speakText render (some r)
          ⟨{ p.state with
              messages := p.state.messages ++
                [⟨clock.idNow + 1, "assistant", some r, clock.timestamp⟩]
              isProcessing := false }, p.refs⟩ with
      | (spoken, none) => spoken
      | (cancelled, some _) => relayFailed cancelled := by
  rw [handleVoiceInputSettled_decoded render response data clock p hok hjson,
    readProp_of_ne_null data "response" (ne_null_of_getProp hr), hr]

theorem relayFailed_frame (p : VoicePage) :
    (relayFailed p).state.messages = p.state.messages ∧
    (relayFailed p).state.isProcessing = false ∧
    (relayFailed p).state.speechSupported = p.state.speechSupported ∧
    (relayFailed p).refs = p.refs :=
  ⟨rfl, rfl, rfl, rfl⟩

/-- What the settling of a relay request does in every case: the transcript
grows by at most one message at its end, the processing flag is false, and
the refs other than the calls are untouched. -/
theorem handleVoiceInputSettled_frame (render : VoiceState)
    (outcome : Except String UpstreamResponse) (clock : MessageClock) (p : VoicePage) :
    (∃ added, (handleVoiceInputSettled render outcome clock p).state.messages =
      p.state.messages ++ added) ∧
    (handleVoiceInputSettled render outcome clock p).state.isProcessing = false ∧
    (handleVoiceInputSettled render outcome clock p).state.speechSupported =
      p.state.speechSupported ∧
    (handleVoiceInputSettled render outcome clock p).refs.recognitionRef =
      p.refs.recognitionRef ∧
    (handleVoiceInputSettled render outcome clock p).refs.synthRef = p.refs.synthRef ∧
    (handleVoiceInputSettled render outcome clock p).refs.firstRender = p.refs.firstRender ∧
    (handleVoiceInputSettled render outcome clock p).refs.pending = p.refs.pending := by
  have hfail : (∃ added, (relayFailed p).state.messages = p.state.messages ++ added) ∧
      (relayFailed p).state.isProcessing = false ∧
      (relayFailed p).state.speechSupported = p.state.speechSupported ∧
      (relayFailed p).refs.recognitionRef = p.refs.recognitionRef ∧
      (relayFailed p).refs.synthRef = p.refs.synthRef ∧
      (relayFailed p).refs.firstRender = p.refs.firstRender ∧
      (relayFailed p).refs.pending = p.refs.pending :=
    ⟨⟨[], (List.append_nil _).symm⟩, rfl, rfl, rfl, rfl, rfl, rfl⟩
  cases outcome with
  | error e => exact hfail
  | ok response =>
    cases hok : response.ok with
    | false =>
      rw [handleVoiceInputSettled_not_ok render response clock p hok]
      exact hfail
    | true =>
      cases hjson : response.json with
      | error e =>
        rw [handleVoiceInputSettled_undecodable render response e clock p hok hjson]
        exact hfail
      | ok data =>
        rw [handleVoiceInputSettled_decoded render response data clock p hok hjson]
        cases hrp : readProp (some data) "response" with
        | error e => exact hfail
        | ok content =>
          dsimp only
          have hf := speakText_frame render content
            ⟨{ p.state with
                messages := p.state.messages ++
                  [⟨clock.idNow + 1, "assistant", content, clock.timestamp⟩]
                isProcessing := false }, p.refs⟩
          rcases hsp : speakText render content
            ⟨{ p.state with
                messages := p.state.messages ++
                  [⟨clock.idNow + 1, "assistant", content, clock.timestamp⟩]
                isProcessing := false }, p.refs⟩ with ⟨q, thrown⟩
          rw [hsp] at hf
          obtain ⟨h1, h2, h3, h4, h5⟩ := hf
          cases thrown with
          | none =>
            refine ⟨⟨[⟨clock.idNow + 1, "assistant", content, clock.timestamp⟩], ?_⟩, ?_, ?_,
              h2, h3, h4, h5⟩
            · show q.state.messages = _
              rw [h1]
            · show q.state.isProcessing = false
              rw [h1]
            · show q.state.speechSupported = _
              rw [h1]
          | some t =>
            refine ⟨⟨[⟨clock.idNow + 1, "assistant", content, clock.timestamp⟩], ?_⟩, rfl, ?_,
              h2, h3, h4, h5⟩
            · show q.state.messages = _
              rw [h1]
            · show q.state.speechSupported = _
              rw [h1]

theorem untouched_refl (p : VoicePage) : Untouched p p :=
  ⟨rfl, rfl, Or.inl rfl, rfl, rfl, rfl, rfl⟩

theorem speakText_untouched (render : VoiceState) (text : Option Json) (p : VoicePage) :
    Untouched p (speakText render text p).1 := by
  obtain ⟨h1, h2, h3, h4, h5⟩ := speakText_frame render text p
  exact ⟨by rw [h1], by rw [h1], Or.inl (by rw [h1]), h2, h3, h4, h5⟩

theorem toggleRecording_untouched (render : VoiceState) (startThrows : Bool) (p : VoicePage) :
    Untouched p (toggleRecording render startThrows p) := by
  unfold toggleRecording
  dsimp only
  split_ifs <;> exact ⟨rfl, rfl, Or.inl rfl, rfl, rfl, rfl, rfl⟩

theorem stopSpeaking_untouched (p : VoicePage) : Untouched p (stopSpeaking p) := by
  unfold stopSpeaking
  split_ifs <;> exact ⟨rfl, rfl, Or.inl rfl, rfl, rfl, rfl, rfl⟩

theorem loadVoices_untouched (render : VoiceState) (voices : List Voice) (p : VoicePage) :
    Untouched p (loadVoices render voices p) := by
  unfold loadVoices
  dsimp only
  split
  · split_ifs <;> exact ⟨rfl, rfl, Or.inl rfl, rfl, rfl, rfl, rfl⟩
  · exact ⟨rfl, rfl, Or.inl rfl, rfl, rfl, rfl, rfl⟩

/-- Every event other than a recognition result and the settling of a relay
request leaves the transcript and the mount-time facts alone. -/
theorem stepVoice_untouched (e : VoiceEvent) (p : VoicePage) (h : e.logsMessage = false) :
    Untouched p (stepVoice e p) := by
  cases e with
  | recognitionResult transcript clock => cases h
  | relaySettles outcome clock => cases h
  | recognitionStarts =>
    simp only [stepVoice]
    split_ifs
    · exact ⟨rfl, rfl, Or.inl rfl, rfl, rfl, rfl, rfl⟩
    · exact untouched_refl p
  | recognitionError error =>
    simp only [stepVoice]
    split_ifs
    · exact ⟨rfl, rfl, Or.inr rfl, rfl, rfl, rfl, rfl⟩
    · exact untouched_refl p
  | recognitionEnds =>
    simp only [stepVoice]
    split_ifs
    · exact ⟨rfl, rfl, Or.inl rfl, rfl, rfl, rfl, rfl⟩
    · exact untouched_refl p
  | microphoneButton startThrows =>
    simp only [stepVoice]
    split_ifs
    · exact untouched_refl p
    · exact toggleRecording_untouched p.state startThrows p
  | stopSpeakingButton =>
    simp only [stepVoice]
    split_ifs
    · exact stopSpeaking_untouched p
    · exact untouched_refl p
  | speakMessageButton index =>
    simp only [stepVoice]
    split
    · exact untouched_refl p
    · split_ifs
      · exact speakText_untouched _ _ p
      · exact untouched_refl p
  | testVoiceButton =>
    simp only [stepVoice]
    split_ifs
    · exact speakText_untouched _ _ p
    · exact untouched_refl p
  | utteranceStarts =>
    simp only [stepVoice]
    split_ifs
    · exact ⟨rfl, rfl, Or.inl rfl, rfl, rfl, rfl, rfl⟩
    · exact untouched_refl p
  | utteranceEnds =>
    simp only [stepVoice]
    split_ifs
    · exact ⟨rfl, rfl, Or.inl rfl, rfl, rfl, rfl, rfl⟩
    · exact untouched_refl p
  | voicesChanged voices =>
    simp only [stepVoice]
    split_ifs
    · exact loadVoices_untouched _ voices p
    · exact untouched_refl p
  | settingsButton => exact ⟨rfl, rfl, Or.inl rfl, rfl, rfl, rfl, rfl⟩
  | closeSettingsButton =>
    simp only [stepVoice]
    split_ifs
    · exact ⟨rfl, rfl, Or.inl rfl, rfl, rfl, rfl, rfl⟩
    · exact untouched_refl p
  | languageSelected code =>
    simp only [stepVoice]
    split_ifs
    · exact ⟨rfl, rfl, Or.inl rfl, rfl, rfl, rfl, rfl⟩
    · exact untouched_refl p
  | voiceSelected name =>
    simp only [stepVoice]
    split_ifs
    · exact ⟨rfl, rfl, Or.inl rfl, rfl, rfl, rfl, rfl⟩
    · exact untouched_refl p
  | rateChanged rate =>
    simp only [stepVoice]
    split_ifs
    · exact ⟨rfl, rfl, Or.inl rfl, rfl, rfl, rfl, rfl⟩
    · exact untouched_refl p
  | pitchChanged pitch =>
    simp only [stepVoice]
    split_ifs
    · exact ⟨rfl, rfl, Or.inl rfl, rfl, rfl, rfl, rfl⟩
    · exact untouched_refl p
  | volumeChanged volume =>
    simp only [stepVoice]
    split_ifs
    · exact ⟨rfl, rfl, Or.inl rfl, rfl, rfl, rfl, rfl⟩
    · exact untouched_refl p
  | backButton => exact ⟨rfl, rfl, Or.inl rfl, rfl, rfl, rfl, rfl⟩

/-- What every event preserves: the transcript only grows at its end, what is
fixed at mount stays, and a page without a recognition object stays idle
with no request in flight. -/
theorem stepVoice_frame (e : VoiceEvent) (p : VoicePage) :
    (∃ added, (stepVoice e p).state.messages = p.state.messages ++ added) ∧
    (stepVoice e p).state.speechSupported = p.state.speechSupported ∧
    (stepVoice e p).refs.recognitionRef = p.refs.recognitionRef ∧
    (stepVoice e p).refs.synthRef = p.refs.synthRef ∧
    (stepVoice e p).refs.firstRender = p.refs.firstRender ∧
    (p.refs.recognitionRef = false → p.state.isProcessing = false → p.refs.pending = 0 →
      (stepVoice e p).state.isProcessing = false ∧ (stepVoice e p).refs.pending = 0) := by
  cases hl : e.logsMessage with
  | false =>
    obtain ⟨h1, h2, h3, h4, h5, h6, h7⟩ := stepVoice_untouched e p hl
    refine ⟨⟨[], by rw [h1, List.append_nil]⟩, h2, h4, h5, h6, ?_⟩
    intro _ hp hn
    refine ⟨?_, by rw [h7, hn]⟩
    rcases h3 with h3 | h3
    · rw [h3, hp]
    · exact h3
  | true =>
    cases e with
    | recognitionResult transcript clock =>
      simp only [stepVoice]
      cases hrec : p.refs.recognitionRef with
      | false =>
        exact ⟨⟨[], (List.append_nil _).symm⟩, rfl, hrec, rfl, rfl, fun _ h1 h2 => ⟨h1, h2⟩⟩
      | true =>
        exact ⟨⟨_, rfl⟩, rfl, hrec, rfl, rfl, fun h => by cases h⟩
    | relaySettles outcome clock =>
      simp only [stepVoice]
      by_cases hz : p.refs.pending = 0
      · rw [if_pos hz]
        exact ⟨⟨[], (List.append_nil _).symm⟩, rfl, rfl, rfl, rfl, fun _ h1 _ => ⟨h1, hz⟩⟩
      · rw [if_neg hz]
        obtain ⟨h1, _, h3, h4, h5, h6, _⟩ := handleVoiceInputSettled_frame p.refs.firstRender
          outcome clock ⟨p.state, { p.refs with pending := p.refs.pending - 1 }⟩
        exact ⟨h1, h3, h4, h5, h6, fun _ _ h => absurd h hz⟩
    | recognitionStarts => cases hl
    | recognitionError error => cases hl
    | recognitionEnds => cases hl
    | microphoneButton startThrows => cases hl
    | stopSpeakingButton => cases hl
    | speakMessageButton index => cases hl
    | testVoiceButton => cases hl
    | utteranceStarts => cases hl
    | utteranceEnds => cases hl
    | voicesChanged voices => cases hl
    | settingsButton => cases hl
    | closeSettingsButton => cases hl
    | languageSelected code => cases hl
    | voiceSelected name => cases hl
    | rateChanged rate => cases hl
    | pitchChanged pitch => cases hl
    | volumeChanged volume => cases hl
    | backButton => cases hl

theorem runVoice_cons (e : VoiceEvent) (es : List VoiceEvent) (p : VoicePage) :
    runVoice (e :: es) p = runVoice es (stepVoice e p) := rfl

theorem runVoice_append (es later : List VoiceEvent) (p : VoicePage) :
    runVoice (es ++ later) p = runVoice later (runVoice es p) := by
  unfold runVoice
  rw [List.foldl_append]

/-- The facts fixed at mount, for every page that can be reached: recognition
and synthesis are available together and exactly when the page says speech is
supported, the first render said it was, and without recognition the page is
never processing. -/
theorem runVoice_mounted (es : List VoiceEvent) :
    ∀ p : VoicePage,
      (p.state.speechSupported = p.refs.recognitionRef ∧
        p.refs.synthRef = p.refs.recognitionRef ∧
        p.refs.firstRender.speechSupported = true ∧
        (p.refs.recognitionRef = false → p.state.isProcessing = false ∧ p.refs.pending = 0)) →
      ((runVoice es p).state.speechSupported = (runVoice es p).refs.recognitionRef ∧
        (runVoice es p).refs.synthRef = (runVoice es p).refs.recognitionRef ∧
        (runVoice es p).refs.firstRender.speechSupported = true ∧
        ((runVoice es p).refs.recognitionRef = false →
          (runVoice es p).state.isProcessing = false ∧ (runVoice es p).refs.pending = 0)) := by
  induction es with
  | nil => intro p h; exact h
  | cons e es ih =>
    intro p h
    rw [runVoice_cons]
    apply ih
    obtain ⟨_, h2, h3, h4, h5, h6⟩ := stepVoice_frame e p
    obtain ⟨i1, i2, i3, i4⟩ := h
    refine ⟨by rw [h2, h3, i1], by rw [h4, h3, i2], by rw [h5, i3], ?_⟩
    intro hr
    rw [h3] at hr
    exact h6 hr (i4 hr).1 (i4 hr).2

theorem reachable_mounted (p : VoicePage) (h : Reachable p) :
    p.state.speechSupported = p.refs.recognitionRef ∧
    p.refs.synthRef = p.refs.recognitionRef ∧
    p.refs.firstRender.speechSupported = true ∧
    (p.refs.recognitionRef = false → p.state.isProcessing = false ∧ p.refs.pending = 0) := by
  obtain ⟨loadedAt, sr, ss, voices, mounted, es, hm, hrun⟩ := h
  subst hrun
  apply runVoice_mounted es mounted
  cases sr with
  | false =>
    cases hm
    exact ⟨rfl, rfl, rfl, fun _ => ⟨rfl, rfl⟩⟩
  | true =>
    cases ss with
    | false => cases hm
    | true =>
      have hm1 : mounted = supportedPage loadedAt voices := by
        cases hm
        rfl
      subst hm1
      obtain ⟨_, h2, _, h4, h5, h6, _⟩ := loadVoices_untouched (initialVoiceState loadedAt) voices
        ⟨initialVoiceState loadedAt, ⟨true, true, initialVoiceState loadedAt, [], 0⟩⟩
      have e2 : (supportedPage loadedAt voices).state.speechSupported = true := h2
      have e4 : (supportedPage loadedAt voices).refs.recognitionRef = true := h4
      have e5 : (supportedPage loadedAt voices).refs.synthRef = true := h5
      have e6 : (supportedPage loadedAt voices).refs.firstRender =
          initialVoiceState loadedAt := h6
      refine ⟨e2.trans e4.symm, e5.trans e4.symm, ?_, ?_⟩
      · rw [e6]
        rfl
      · intro hr
        rw [e4] at hr
        cases hr


theorem handleVoiceInputSettled_spoken (render : VoiceState) (response : UpstreamResponse)
    (data r : Json) (clock : MessageClock) (q : VoicePage) (text : String)
    (hok : response.ok = true) (hjson : response.json = .ok data)
    (hr : data.getProp "response" = some r) (ht : r.toStr = .ok text)
    (hs : q.refs.synthRef = true) (hsup : render.speechSupported = true) :
    handleVoiceInputSettled render (.ok response) clock q =
      ⟨{ q.state with
          messages := q.state.messages ++
            [⟨clock.idNow + 1, "assistant", some r, clock.timestamp⟩]
          isProcessing := false },
        { q.refs with
          calls := q.refs.calls ++ [.synthCancel,
            .synthSpeak ⟨text, render.voiceSettings.rate, render.voiceSettings.pitch,
              render.voiceSettings.volume, render.voiceSettings.voice⟩] }⟩ := by
  rw [handleVoiceInputSettled_ok render response data r clock q hok hjson hr,
    speakText_spoken render r text
      ⟨{ q.state with
          messages := q.state.messages ++
            [⟨clock.idNow + 1, "assistant", some r, clock.timestamp⟩]
          isProcessing := false }, q.refs⟩ hs hsup ht]

theorem speakText_refs (render : VoiceState) (text : Option Json) (state other : VoiceState)
    (refs : VoiceRefs) :
    (speakText render text ⟨state, refs⟩).1.refs = (speakText render text ⟨other, refs⟩).1.refs := by
  unfold speakText
  dsimp only
  split
  · rfl
  · cases utteranceText text <;> rfl

/-! ## The voice-mode page: the turn of a conversation -/

/-- C21: for every transcript, `handleVoiceInput` sets the processing flag,
clears the error and appends to the end of the transcript exactly one
message of type `user` whose content is the transcript; it does so before
its relay request has settled: the request has just been sent and is in
flight. On a page with a recognition object that is what a recognition
result does. -/
theorem transcript_logged (render : VoiceState) (transcript : String) (clock : MessageClock)
    (p : VoicePage) :
    (handleVoiceInput render transcript clock p).state.isProcessing = true ∧
    (handleVoiceInput render transcript clock p).state.error = "" ∧
    (handleVoiceInput render transcript clock p).state.messages =
      p.state.messages ++ [⟨clock.idNow, "user", some (.str transcript), clock.timestamp⟩] ∧
    (handleVoiceInput render transcript clock p).refs.calls =
      p.refs.calls ++ [.fetchChat transcript render.selectedLanguage] ∧
    (handleVoiceInput render transcript clock p).refs.pending = p.refs.pending + 1 ∧
    (p.refs.recognitionRef = true →
      stepVoice (.recognitionResult transcript clock) p =
        handleVoiceInput p.refs.firstRender transcript clock p) := by
  refine ⟨rfl, rfl, rfl, rfl, rfl, ?_⟩
  intro h
  simp only [stepVoice, h, if_true, onresult]

/-- C21, witness: the transcript `hello` on a freshly mounted page. -/
theorem transcript_logged_witness :
    stepVoice (.recognitionResult "hello" ⟨2000, 2000⟩) (supportedPage 1000 []) =
      handleVoiceInput (supportedPage 1000 []).refs.firstRender "hello" ⟨2000, 2000⟩
        (supportedPage 1000 []) :=
  (transcript_logged (initialVoiceState 1000) "hello" ⟨2000, 2000⟩
    (supportedPage 1000 [])).2.2.2.2.2 rfl

/-- C22: when the relay target answers OK with a JSON body whose `response`
member is `r`, `handleVoiceInput` appends exactly one message of type
`assistant` with content `r` at the end of the transcript, which for a turn
is right after its user message, so that the turn adds exactly the two
messages; it sets the processing flag to false; and it hands `r` to
`speakText`: the calls made to the browser are those of `speakText(r)`,
which, when synthesis is available and `r` converts to a string (a string
`r` converts to itself), are a `cancel` and the `speak` of an utterance with
that text. On a page that can be reached, with a request in flight, that is
what the settling of the request does. -/
theorem relay_success (render : VoiceState) (response : UpstreamResponse) (data r : Json)
    (clock : MessageClock) (p : VoicePage)
    (hok : response.ok = true) (hjson : response.json = .ok data)
    (hr : data.getProp "response" = some r) :
    (handleVoiceInputSettled render (.ok response) clock p).state.messages =
      p.state.messages ++ [⟨clock.idNow + 1, "assistant", some r, clock.timestamp⟩] ∧
    (handleVoiceInputSettled render (.ok response) clock p).state.isProcessing = false ∧
    (handleVoiceInputSettled render (.ok response) clock p).refs.calls =
      (speakText render (some r) p).1.refs.calls ∧
    (∀ transcript asked p0, p = handleVoiceInput render transcript asked p0 →
      (handleVoiceInputSettled render (.ok response) clock p).state.messages =
        p0.state.messages ++
          [⟨asked.idNow, "user", some (.str transcript), asked.timestamp⟩,
            ⟨clock.idNow + 1, "assistant", some r, clock.timestamp⟩]) ∧
    (∀ text, r.toStr = .ok text → p.refs.synthRef = true → render.speechSupported = true →
      handleVoiceInputSettled render (.ok response) clock p =
        ⟨{ p.state with
            messages := p.state.messages ++
              [⟨clock.idNow + 1, "assistant", some r, clock.timestamp⟩]
            isProcessing := false },
          { p.refs with
            calls := p.refs.calls ++ [.synthCancel,
              .synthSpeak ⟨text, render.voiceSettings.rate, render.voiceSettings.pitch,
                render.voiceSettings.volume, render.voiceSettings.voice⟩] }⟩) ∧
    (∀ text, r.toStr = .ok text → Reachable p → 0 < p.refs.pending →
      stepVoice (.relaySettles (.ok response) clock) p =
        ⟨{ p.state with
            messages := p.state.messages ++
              [⟨clock.idNow + 1, "assistant", some r, clock.timestamp⟩]
            isProcessing := false },
          { p.refs with
            pending := p.refs.pending - 1
            calls := p.refs.calls ++ [.synthCancel,
              .synthSpeak ⟨text, p.refs.firstRender.voiceSettings.rate,
                p.refs.firstRender.voiceSettings.pitch,
                p.refs.firstRender.voiceSettings.volume,
                p.refs.firstRender.voiceSettings.voice⟩] }⟩) := by
  have hsettled := fun (q : VoicePage) =>
    handleVoiceInputSettled_ok render response data r clock q hok hjson hr
  have hmsg : (handleVoiceInputSettled render (.ok response) clock p).state.messages =
      p.state.messages ++ [⟨clock.idNow + 1, "assistant", some r, clock.timestamp⟩] := by
    rw [hsettled p]
    have hf := (speakText_frame render (some r)
      ⟨{ p.state with
          messages := p.state.messages ++
            [⟨clock.idNow + 1, "assistant", some r, clock.timestamp⟩]
          isProcessing := false }, p.refs⟩).1
    rcases hsp : speakText render (some r)
      ⟨{ p.state with
          messages := p.state.messages ++
            [⟨clock.idNow + 1, "assistant", some r, clock.timestamp⟩]
          isProcessing := false }, p.refs⟩ with ⟨q, thrown⟩
    rw [hsp] at hf
    have hq : q.state = _ := hf
    cases thrown with
    | none =>
      show q.state.messages = _
      rw [hq]
    | some t =>
      show q.state.messages = _
      rw [hq]
  refine ⟨hmsg, (handleVoiceInputSettled_frame render (.ok response) clock p).2.1, ?_, ?_,
    fun text ht hs hsup =>
      handleVoiceInputSettled_spoken render response data r clock p text hok hjson hr ht hs hsup,
    ?_⟩
  · rw [hsettled p]
    have hrefs := speakText_refs render (some r)
      { p.state with
        messages := p.state.messages ++
          [⟨clock.idNow + 1, "assistant", some r, clock.timestamp⟩]
        isProcessing := false } p.state p.refs
    rcases hsp : speakText render (some r)
      ⟨{ p.state with
          messages := p.state.messages ++
            [⟨clock.idNow + 1, "assistant", some r, clock.timestamp⟩]
          isProcessing := false }, p.refs⟩ with ⟨q, thrown⟩
    rw [hsp] at hrefs
    have hq : q.refs = (speakText render (some r) p).1.refs := hrefs
    cases thrown with
    | none =>
      show q.refs.calls = _
      rw [hq]
    | some t =>
      show q.refs.calls = _
      rw [hq]
  · intro transcript asked p0 hp
    rw [hmsg, hp]
    show (p0.state.messages ++ [_]) ++ [_] = _
    rw [List.append_assoc]
    rfl
  · intro text ht hreach hpend
    obtain ⟨_, i2, i3, i4⟩ := reachable_mounted p hreach
    have hrec : p.refs.recognitionRef = true := by
      cases hc : p.refs.recognitionRef with
      | true => rfl
      | false =>
        have := (i4 hc).2
        omega
    have hne : ¬ p.refs.pending = 0 := by omega
    simp only [stepVoice]
    rw [if_neg hne]
    exact handleVoiceInputSettled_spoken p.refs.firstRender response data r clock
      ⟨p.state, { p.refs with pending := p.refs.pending - 1 }⟩ text hok hjson hr ht
      (i2.trans hrec) i3

/-- C22, witness: the turn `hello`, answered `Hi!`, on a freshly mounted
page. -/
theorem relay_success_witness :
    (handleVoiceInputSettled (initialVoiceState 1000)
        (.ok ⟨200, "OK", .error "body used", .ok (.obj [("response", .str "Hi!")])⟩)
        ⟨3000, 3000⟩
        (handleVoiceInput (initialVoiceState 1000) "hello" ⟨2000, 2000⟩
          (supportedPage 1000 []))).state.messages =
      (supportedPage 1000 []).state.messages ++
        [⟨2000, "user", some (.str "hello"), 2000⟩,
          ⟨3000 + 1, "assistant", some (.str "Hi!"), 3000⟩] :=
  (relay_success (initialVoiceState 1000)
    ⟨200, "OK", .error "body used", .ok (.obj [("response", .str "Hi!")])⟩
    (.obj [("response", .str "Hi!")]) (.str "Hi!") ⟨3000, 3000⟩
    (handleVoiceInput (initialVoiceState 1000) "hello" ⟨2000, 2000⟩ (supportedPage 1000 []))
    rfl rfl rfl).2.2.2.1 "hello" ⟨2000, 2000⟩ (supportedPage 1000 []) rfl

/-- C23: when the relay call fails, by a network error, a status that is not
OK, or a body that cannot be decoded, `handleVoiceInput` sets the error to
`Failed to get AI response. Please try again.`, sets the processing flag to
false and does nothing else: no assistant message is appended, so the turn
adds its user message only, and no call is made to speech synthesis. -/
theorem relay_failure (render : VoiceState) (outcome : Except String UpstreamResponse)
    (clock : MessageClock) (p : VoicePage)
    (h : (∃ thrown, outcome = .error thrown) ∨
      (∃ response, outcome = .ok response ∧ response.ok = false) ∨
      (∃ response thrown, outcome = .ok response ∧ response.ok = true ∧
        response.json = .error thrown)) :
    handleVoiceInputSettled render outcome clock p =
      ⟨{ p.state with
          error := "Failed to get AI response. Please try again."
          isProcessing := false }, p.refs⟩ ∧
    (handleVoiceInputSettled render outcome clock p).state.error =
      "Failed to get AI response. Please try again." ∧
    (handleVoiceInputSettled render outcome clock p).state.isProcessing = false ∧
    (handleVoiceInputSettled render outcome clock p).state.messages = p.state.messages ∧
    (handleVoiceInputSettled render outcome clock p).refs.calls = p.refs.calls ∧
    (∀ transcript asked p0, p = handleVoiceInput render transcript asked p0 →
      (handleVoiceInputSettled render outcome clock p).state.messages =
        p0.state.messages ++
          [⟨asked.idNow, "user", some (.str transcript), asked.timestamp⟩]) := by
  have hfail : handleVoiceInputSettled render outcome clock p = relayFailed p := by
    rcases h with ⟨thrown, h⟩ | ⟨response, h, hok⟩ | ⟨response, thrown, h, hok, hjson⟩
    · subst h
      rfl
    · subst h
      exact handleVoiceInputSettled_not_ok render response clock p hok
    · subst h
      exact handleVoiceInputSettled_undecodable render response thrown clock p hok hjson
  rw [hfail]
  refine ⟨rfl, rfl, rfl, rfl, rfl, ?_⟩
  intro transcript asked p0 hp
  rw [hp]
  rfl

/-- C23, witness: the relay target answers 503 to the turn `hello`. -/
theorem relay_failure_witness :
    handleVoiceInputSettled (initialVoiceState 1000)
        (.ok ⟨503, "Service Unavailable", .ok "down", .error "Unexpected token d"⟩)
        ⟨3000, 3000⟩
        (handleVoiceInput (initialVoiceState 1000) "hello" ⟨2000, 2000⟩
          (supportedPage 1000 [])) =
      ⟨{ (handleVoiceInput (initialVoiceState 1000) "hello" ⟨2000, 2000⟩
            (supportedPage 1000 [])).state with
          error := "Failed to get AI response. Please try again."
          isProcessing := false },
        (handleVoiceInput (initialVoiceState 1000) "hello" ⟨2000, 2000⟩
          (supportedPage 1000 [])).refs⟩ :=
  (relay_failure (initialVoiceState 1000)
    (.ok ⟨503, "Service Unavailable", .ok "down", .error "Unexpected token d"⟩) ⟨3000, 3000⟩
    (handleVoiceInput (initialVoiceState 1000) "hello" ⟨2000, 2000⟩ (supportedPage 1000 []))
    (Or.inr (Or.inl ⟨_, rfl, rfl⟩))).1

/-- C24: for every recognition error code the handler `onerror` sets the
recording and the processing flags to false, leaves the transcript unchanged
and surfaces a message per category: the three fixed messages for
`no-speech`, `audio-capture` and `not-allowed`, and
`Speech recognition error: e` for any other code `e`. On a page with a
recognition object that is what a recognition error does. -/
theorem recognition_error_idle (error : String) (p : VoicePage) :
    (onerror error p).state.isRecording = false ∧
    (onerror error p).state.isProcessing = false ∧
    (onerror error p).state.messages = p.state.messages ∧
    (onerror "no-speech" p).state.error = "No speech detected. Please try again." ∧
    (onerror "audio-capture" p).state.error =
      "Microphone access denied. Please allow microphone access." ∧
    (onerror "not-allowed" p).state.error =
      "Microphone access denied. Please allow microphone access and refresh the page." ∧
    (error ≠ "no-speech" → error ≠ "audio-capture" → error ≠ "not-allowed" →
      (onerror error p).state.error = "Speech recognition error: " ++ error) ∧
    (p.refs.recognitionRef = true → stepVoice (.recognitionError error) p = onerror error p) := by
  refine ⟨rfl, rfl, rfl, rfl, rfl, rfl, ?_, ?_⟩
  · intro h1 h2 h3
    show recognitionErrorMessage error = _
    unfold recognitionErrorMessage
    rw [if_neg h1, if_neg h2, if_neg h3]
  · intro h
    simp only [stepVoice, h, if_true]

/-- C24, witness: the error code `network`. -/
theorem recognition_error_idle_witness :
    (onerror "network" (supportedPage 1000 [])).state.error =
      "Speech recognition error: " ++ "network" :=
  (recognition_error_idle "network" (supportedPage 1000 [])).2.2.2.2.2.2.1
    (by decide) (by decide) (by decide)

/-- C25: on a page that can be reached, with recognition available and
neither recording nor processing, `toggleRecording` cancels speech synthesis
and then starts the recognition session, in this order, sets the speaking
indicator to false and clears the error; if starting recognition throws, the
error becomes `Failed to start speech recognition. Please try again.`. The
recording flag is not written, so it stays false. This is what the
microphone button does. -/
theorem start_listening (p : VoicePage) (startThrows : Bool) (hreach : Reachable p)
    (hs : p.state.speechSupported = true) (hrec : p.refs.recognitionRef = true)
    (hr : p.state.isRecording = false) (hp : p.state.isProcessing = false) :
    toggleRecording p.state startThrows p =
      ⟨{ p.state with
          isSpeaking := false
          error := if startThrows then "Failed to start speech recognition. Please try again."
            else "" },
        { p.refs with calls := p.refs.calls ++ [.synthCancel, .recognitionStart startThrows] }⟩ ∧
    (toggleRecording p.state startThrows p).refs.calls =
      p.refs.calls ++ [.synthCancel, .recognitionStart startThrows] ∧
    (toggleRecording p.state startThrows p).state.isSpeaking = false ∧
    (startThrows = false → (toggleRecording p.state startThrows p).state.error = "") ∧
    (startThrows = true →
      (toggleRecording p.state startThrows p).state.error =
        "Failed to start speech recognition. Please try again.") ∧
    (toggleRecording p.state startThrows p).state.isRecording = false ∧
    (toggleRecording p.state startThrows p).state.messages = p.state.messages ∧
    stepVoice (.microphoneButton startThrows) p = toggleRecording p.state startThrows p := by
  have hsynth : p.refs.synthRef = true := (reachable_mounted p hreach).2.1.trans hrec
  have htoggle : toggleRecording p.state startThrows p =
      ⟨{ p.state with
          isSpeaking := false
          error := if startThrows then "Failed to start speech recognition. Please try again."
            else "" },
        { p.refs with
          calls := p.refs.calls ++ [.synthCancel, .recognitionStart startThrows] }⟩ := by
    unfold toggleRecording
    simp only [hs, hrec, hr, hp, hsynth, Bool.not_true, Bool.not_false, Bool.or_self,
      Bool.false_eq_true, if_false, if_true, List.append_assoc, List.singleton_append]
    cases startThrows <;> rfl
  refine ⟨htoggle, ?_, ?_, ?_, ?_, ?_, ?_, ?_⟩
  · rw [htoggle]
  · rw [htoggle]
  · intro h
    rw [htoggle, h]
    rfl
  · intro h
    rw [htoggle, h]
    rfl
  · rw [htoggle]
    exact hr
  · rw [htoggle]
  · simp only [stepVoice, hp, hs, Bool.not_true, Bool.or_self, Bool.false_eq_true, if_false]

/-- C25, witness: the microphone button on a freshly mounted page. -/
theorem start_listening_witness :
    (toggleRecording (supportedPage 1000 []).state false (supportedPage 1000 [])).refs.calls =
      (supportedPage 1000 []).refs.calls ++ [.synthCancel, .recognitionStart false] :=
  (start_listening (supportedPage 1000 []) false
    ⟨1000, true, true, [], supportedPage 1000 [], [], rfl, rfl⟩ rfl rfl rfl rfl).2.1

/-- C26: the transcript is append-only. Every event of the page leaves the
transcript it found as a prefix of the transcript it leaves, so does every
sequence of events, and so do the handlers named by the claim
(`handleVoiceInput` before and after its relay request settles, `onerror`,
`toggleRecording`, `speakText`, `stopSpeaking`); only a recognition result
and the settling of a relay request change the transcript at all. -/
theorem transcript_append_only (e : VoiceEvent) (es : List VoiceEvent) (p : VoicePage) :
    p.state.messages <+: (stepVoice e p).state.messages ∧
    p.state.messages <+: (runVoice es p).state.messages ∧
    (e.logsMessage = false → (stepVoice e p).state.messages = p.state.messages) ∧
    (∀ render transcript clock,
      p.state.messages <+: (handleVoiceInput render transcript clock p).state.messages) ∧
    (∀ render outcome clock,
      p.state.messages <+: (handleVoiceInputSettled render outcome clock p).state.messages) ∧
    (∀ error, (onerror error p).state.messages = p.state.messages) ∧
    (∀ render startThrows,
      (toggleRecording render startThrows p).state.messages = p.state.messages) ∧
    (∀ render text, (speakText render text p).1.state.messages = p.state.messages) ∧
    (stopSpeaking p).state.messages = p.state.messages := by
  refine ⟨?_, ?_, ?_, ?_, ?_, fun _ => rfl, ?_, ?_, ?_⟩
  · obtain ⟨added, h⟩ := (stepVoice_frame e p).1
    exact ⟨added, h.symm⟩
  · revert p
    induction es with
    | nil => intro p; exact List.prefix_refl _
    | cons e1 es ih =>
      intro p
      rw [runVoice_cons]
      obtain ⟨added, h⟩ := (stepVoice_frame e1 p).1
      exact List.IsPrefix.trans ⟨added, h.symm⟩ (ih (stepVoice e1 p))
  · intro h
    exact (stepVoice_untouched e p h).1
  · intro render transcript clock
    exact ⟨_, rfl⟩
  · intro render outcome clock
    obtain ⟨added, h⟩ := (handleVoiceInputSettled_frame render outcome clock p).1
    exact ⟨added, h.symm⟩
  · intro render startThrows
    exact (toggleRecording_untouched render startThrows p).1
  · intro render text
    exact (speakText_untouched render text p).1
  · exact (stopSpeaking_untouched p).1

/-- C26, witness: a click on the settings button leaves the transcript as it
was. -/
theorem transcript_append_only_witness :
    (stepVoice .settingsButton (supportedPage 1000 [])).state.messages =
      (supportedPage 1000 []).state.messages :=
  (transcript_append_only .settingsButton [] (supportedPage 1000 [])).2.2.1 rfl

/-- C27: there is no transition from processing to listening. The
`toggleRecording` of a render whose processing flag is set never calls
`start()`: it makes no call, or only `stop()`. On a page that can be reached,
invoked while processing and not recording, it makes no call at all and
returns the page as it was (recording, processing, speaking, error,
transcript and everything else); and while the processing flag is set the
microphone button is disabled. -/
theorem no_listening_while_processing (render : VoiceState) (startThrows : Bool)
    (p : VoicePage) :
    (render.isProcessing = true →
      (toggleRecording render startThrows p).refs.calls = p.refs.calls ∨
      (toggleRecording render startThrows p).refs.calls =
        p.refs.calls ++ [.recognitionStop]) ∧
    (Reachable p → p.state.isProcessing = true → p.state.isRecording = false →
      toggleRecording p.state startThrows p = p) ∧
    (p.state.isProcessing = true → stepVoice (.microphoneButton startThrows) p = p) := by
  refine ⟨?_, ?_, ?_⟩
  · intro h
    unfold toggleRecording
    simp only [h, Bool.not_true, Bool.false_eq_true, if_false]
    split_ifs
    · exact Or.inl rfl
    · exact Or.inr rfl
    · exact Or.inl rfl
  · intro hreach hp hr
    obtain ⟨i1, _, _, i4⟩ := reachable_mounted p hreach
    have hrec : p.refs.recognitionRef = true := by
      cases hc : p.refs.recognitionRef with
      | true => rfl
      | false =>
        have := (i4 hc).1
        rw [hp] at this
        cases this
    have hs : p.state.speechSupported = true := i1.trans hrec
    unfold toggleRecording
    simp only [hs, hrec, hr, hp, Bool.not_true, Bool.or_self, Bool.false_eq_true, if_false]
  · intro h
    simp only [stepVoice, h, Bool.true_or, if_true]

/-- C27, witness: the microphone handler while the turn `hello` is being
processed. -/
theorem no_listening_while_processing_witness :
    toggleRecording
        (runVoice [.recognitionStarts, .recognitionResult "hello" ⟨2000, 2000⟩,
          .recognitionEnds] (supportedPage 1000 [])).state false
        (runVoice [.recognitionStarts, .recognitionResult "hello" ⟨2000, 2000⟩,
          .recognitionEnds] (supportedPage 1000 [])) =
      runVoice [.recognitionStarts, .recognitionResult "hello" ⟨2000, 2000⟩,
        .recognitionEnds] (supportedPage 1000 []) :=
  (no_listening_while_processing
    (runVoice [.recognitionStarts, .recognitionResult "hello" ⟨2000, 2000⟩,
      .recognitionEnds] (supportedPage 1000 [])).state false
    (runVoice [.recognitionStarts, .recognitionResult "hello" ⟨2000, 2000⟩,
      .recognitionEnds] (supportedPage 1000 []))).2.1
    ⟨1000, true, true, [], supportedPage 1000 [],
      [.recognitionStarts, .recognitionResult "hello" ⟨2000, 2000⟩, .recognitionEnds],
      rfl, rfl⟩ rfl rfl

end LunaLink
